import Mathlib

/-!
# wallpaperengine-gui: configuration store and process launchers

A shallow embedding of `src/core/ConfigManager.cpp`, `src/core/WallpaperManager.cpp`,
`src/addons/WNELAddon.cpp`, the launch path of `src/ui/MainWindow.cpp` and the settings
translator and property loader of `src/ui/PropertiesPanel.cpp`.

Qt library classes are not part of the repository; they are represented by small
executable models:

* `QVariant` is a tagged value with the conversions the store uses;
* `QSettings` is a flat key-value map held in memory together with the map last
  written to `config.ini` by `sync()`; keys are plain strings and a sync always
  succeeds;
* `QJsonValue` is the tree of a JSON value, an object being the list of its members in
  ascending key order; the text of a JSON file is represented by the document the
  parser reads from it;
* paths are texts, with the few `QFileInfo` and `QDir` operations the sources use
  written out on their characters;
* `QProcess` objects are numbered handles, and every call made on one is appended to
  a log kept next to the launcher state. What the operating system does (whether a
  process finishes within a wait, whether it starts, which files exist) is an input of
  the operation that observes it.

Slots run at the `emit` that triggers them, as they do for connections inside one
thread. The slots that only pass text on (`onProcessError`, `onProcessOutput`) and the
message boxes are left out.
-/

set_option autoImplicit false

/-! ## Qt values -/

/-- Date-time values (`QDateTime`): milliseconds since the epoch, `none` when invalid. -/
structure QDateTime where
  msecs : Option Int
  deriving DecidableEq, Repr

/-- Tagged values (`QVariant`) of the types the configuration store is used with. -/
inductive QVariant where
  | invalid
  | bool (b : Bool)
  | int (n : Int)
  | string (s : String)
  | stringList (l : List String)
  | byteArray (b : List Nat)
  | dateTime (t : QDateTime)
  deriving DecidableEq, Repr

/-- Value of a run of decimal digits, most significant first; `none` on a non-digit. -/
def digitsValue : List Char → Nat → Option Nat
  | [], acc => some acc
  | c :: cs, acc => if c.isDigit then digitsValue cs (acc * 10 + (c.toNat - 48)) else none

/-- Unsigned decimal text to a number; the text must be a non-empty run of digits. -/
def parseDigits (s : String) : Option Nat :=
  if s.isEmpty then none else digitsValue s.data 0

/-- Decimal text to a 32-bit `int` as `QString::toInt(&ok)` reads it in the C locale:
surrounding white space is ignored, one sign is allowed, and a value outside the range
of `int` fails. `none` stands for `ok == false`. -/
def QString.toInt (s : String) : Option Int :=
  let t := s.trim
  let signed : Option Int :=
    if t.startsWith "-" then (parseDigits (t.drop 1)).map (fun n => - (n : Int))
    else if t.startsWith "+" then (parseDigits (t.drop 1)).map (fun n => (n : Int))
    else (parseDigits t).map (fun n => (n : Int))
  match signed with
  | some n => if -2147483648 ≤ n ∧ n ≤ 2147483647 then some n else none
  | none => none

/-- Lower-casing `QString::toLower()` of the ASCII letters; other characters are kept. -/
def QString.toLower (s : String) : String :=
  String.mk (s.data.map Char.toLower)

/-- Text of a byte array, one character per byte (exact for ASCII content). -/
def bytesToString (b : List Nat) : String :=
  String.mk (b.map Char.ofNat)

namespace QVariant

/-- Conversion `QVariant::toInt()`: 0 when the value cannot be read as an `int`. -/
def toInt : QVariant → Int
  | .int n => n
  | .bool b => if b then 1 else 0
  | .string s => (QString.toInt s).getD 0
  | .byteArray b => (QString.toInt (bytesToString b)).getD 0
  | _ => 0

/-- Conversion `QVariant::toBool()`: numbers are true when non-zero, text is true unless
its lower-case form is empty, "0" or "false". -/
def toBool : QVariant → Bool
  | .bool b => b
  | .int n => n != 0
  | .string s => !(s.toLower == "" || s.toLower == "0" || s.toLower == "false")
  | .byteArray b =>
      let s := (bytesToString b).toLower
      !(s == "" || s == "0" || s == "false")
  | _ => false

/-- Conversion `QVariant::toString()`. A list converts only when it has exactly one
element; date-times are not rendered as text in this model. -/
def toQString : QVariant → String
  | .string s => s
  | .bool b => if b then "true" else "false"
  | .int n => toString n
  | .byteArray b => bytesToString b
  | .stringList [s] => s
  | _ => ""

/-- Conversion `QVariant::toStringList()`: a single string becomes a one-element list. -/
def toStringList : QVariant → List String
  | .stringList l => l
  | .string s => [s]
  | _ => []

/-- Conversion `QVariant::toByteArray()`; text gives one byte per character (exact for
ASCII content). -/
def toByteArray : QVariant → List Nat
  | .byteArray b => b
  | .string s => s.data.map Char.toNat
  | _ => []

/-- Conversion `QVariant::toDateTime()`; text is not parsed as a date in this model. -/
def toDateTime : QVariant → QDateTime
  | .dateTime t => t
  | _ => ⟨none⟩

end QVariant

/-! ## JSON values and documents -/

/-- JSON values (`QJsonValue`). A number is the exact value of the `double` it holds;
an object is the list of its members in iteration order. A member that is absent reads
as `null`, which every conversion used here treats like Qt's undefined value. -/
inductive QJsonValue where
  | null
  | bool (b : Bool)
  | number (value : Rat)
  | string (s : String)
  | array (items : List QJsonValue)
  | object (members : List (String × QJsonValue))
  deriving Repr

/-- JSON objects (`QJsonObject`): members in iteration order, which the operations
below keep ascending by key. -/
abbrev QJsonObject := List (String × QJsonValue)

/-- JSON arrays (`QJsonArray`). -/
abbrev QJsonArray := List QJsonValue

mutual
/-- Equality of JSON values is decidable. -/
def QJsonValue.decEq : (a b : QJsonValue) → Decidable (a = b)
  | .null, b => match b with
    | .null => isTrue rfl
    | .bool _ | .number _ | .string _ | .array _ | .object _ => isFalse (by intro h; cases h)
  | .bool x, b => match b with
    | .bool y => if h : x = y then isTrue (by rw [h]) else
        isFalse (by intro h1; cases h1; exact h rfl)
    | .null | .number _ | .string _ | .array _ | .object _ => isFalse (by intro h; cases h)
  | .number x, b => match b with
    | .number y => if h : x = y then isTrue (by rw [h]) else
        isFalse (by intro h1; cases h1; exact h rfl)
    | .null | .bool _ | .string _ | .array _ | .object _ => isFalse (by intro h; cases h)
  | .string x, b => match b with
    | .string y => if h : x = y then isTrue (by rw [h]) else
        isFalse (by intro h1; cases h1; exact h rfl)
    | .null | .bool _ | .number _ | .array _ | .object _ => isFalse (by intro h; cases h)
  | .array x, b => match b with
    | .array y => match QJsonValue.decEqItems x y with
      | isTrue h => isTrue (by rw [h])
      | isFalse h => isFalse (by intro h1; cases h1; exact h rfl)
    | .null | .bool _ | .number _ | .string _ | .object _ => isFalse (by intro h; cases h)
  | .object x, b => match b with
    | .object y => match QJsonValue.decEqMembers x y with
      | isTrue h => isTrue (by rw [h])
      | isFalse h => isFalse (by intro h1; cases h1; exact h rfl)
    | .null | .bool _ | .number _ | .string _ | .array _ => isFalse (by intro h; cases h)
/-- Equality of lists of JSON values is decidable. -/
def QJsonValue.decEqItems : (a b : List QJsonValue) → Decidable (a = b)
  | [], [] => isTrue rfl
  | [], _ :: _ => isFalse (by intro h; cases h)
  | _ :: _, [] => isFalse (by intro h; cases h)
  | a :: as, b :: bs => match QJsonValue.decEq a b, QJsonValue.decEqItems as bs with
    | isTrue h1, isTrue h2 => isTrue (by rw [h1, h2])
    | isFalse h1, _ => isFalse (by intro h; cases h; exact h1 rfl)
    | _, isFalse h2 => isFalse (by intro h; cases h; exact h2 rfl)
/-- Equality of member lists is decidable. -/
def QJsonValue.decEqMembers : (a b : List (String × QJsonValue)) → Decidable (a = b)
  | [], [] => isTrue rfl
  | [], _ :: _ => isFalse (by intro h; cases h)
  | _ :: _, [] => isFalse (by intro h; cases h)
  | (k, a) :: as, (l, b) :: bs =>
    if hk : k = l then
      match QJsonValue.decEq a b, QJsonValue.decEqMembers as bs with
      | isTrue h1, isTrue h2 => isTrue (by rw [hk, h1, h2])
      | isFalse h1, _ => isFalse (by intro h; cases h; exact h1 rfl)
      | _, isFalse h2 => isFalse (by intro h; cases h; exact h2 rfl)
    else isFalse (by intro h; cases h; exact hk rfl)
end

instance : DecidableEq QJsonValue := QJsonValue.decEq

namespace QJsonValue

/-- Test `QJsonValue::isBool()`. -/
def isBool : QJsonValue → Bool
  | .bool _ => true
  | _ => false

/-- Test `QJsonValue::isDouble()`. -/
def isDouble : QJsonValue → Bool
  | .number _ => true
  | _ => false

/-- Test `QJsonValue::isString()`. -/
def isString : QJsonValue → Bool
  | .string _ => true
  | _ => false

/-- Conversion `QJsonValue::toBool()`, `false` for a value that is no boolean. -/
def toBool : QJsonValue → Bool
  | .bool b => b
  | _ => false

/-- Conversion `QJsonValue::toInt()`: the number when it is whole and in the range of
`int`, else 0. -/
def toInt : QJsonValue → Int
  | .number r =>
    if r.den = 1 ∧ -2147483648 ≤ r.num ∧ r.num ≤ 2147483647 then r.num else 0
  | _ => 0

/-- Conversion `QJsonValue::toDouble()`, 0 for a value that is no number. -/
def toDouble : QJsonValue → Rat
  | .number r => r
  | _ => 0

/-- Conversion `QJsonValue::toString()`, empty for a value that is no string. -/
def toQString : QJsonValue → String
  | .string s => s
  | _ => ""

/-- Conversion `QJsonValue::toObject()`, empty for a value that is no object. -/
def toObject : QJsonValue → QJsonObject
  | .object o => o
  | _ => []

/-- Conversion `QJsonValue::toArray()`, empty for a value that is no array. -/
def toArray : QJsonValue → QJsonArray
  | .array a => a
  | _ => []

/-- Construction `QJsonValue(int)`. -/
def ofInt (n : Int) : QJsonValue :=
  .number (n : Rat)

end QJsonValue

namespace QJsonObject

/-- Lookup `QJsonObject::value(key)`. -/
def value (o : QJsonObject) (key : String) : QJsonValue :=
  match o.find? (fun m => m.1 == key) with
  | some m => m.2
  | none => .null

/-- Test `QJsonObject::contains(key)`. -/
def contains (o : QJsonObject) (key : String) : Bool :=
  o.any (fun m => m.1 == key)

/-- Assignment `object[key] = value`: the member with that key is replaced, or a new
member is put at its place in ascending key order. Keys are compared character by
character. -/
def insert : QJsonObject → String → QJsonValue → QJsonObject
  | [], key, v => [(key, v)]
  | (k, w) :: rest, key, v =>
    if key = k then (key, v) :: rest
    else if key.data < k.data then (key, v) :: (k, w) :: rest
    else (k, w) :: insert rest key v

/-- The loop `for (it = source.begin(); it != source.end(); ++it) target[it.key()] =
it.value();`. -/
def merge (target source : QJsonObject) : QJsonObject :=
  source.foldl (fun acc m => insert acc m.1 m.2) target

end QJsonObject

/-- A document as `QJsonDocument::fromJson` returns it: null after a parse error,
else the array or object at the top level. -/
inductive QJsonDocument where
  | null
  | ofArray (a : QJsonArray)
  | ofObject (o : QJsonObject)
  deriving DecidableEq, Repr

/-- The text of a JSON file. A text is represented by the document that
`QJsonDocument::fromJson` reads from it, the null document for a text that is not
well-formed JSON; `QJsonDocument::toJson` writes a text that reads back as the same
document. -/
structure JsonText where
  document : QJsonDocument
  deriving DecidableEq, Repr

namespace QJsonDocument

/-- Output `QJsonDocument::toJson(format)`. -/
def toJson (doc : QJsonDocument) : JsonText :=
  ⟨doc⟩

/-- Parser `QJsonDocument::fromJson(data, &error)`. -/
def fromJson (data : JsonText) : QJsonDocument :=
  data.document

/-- Test `error.error != QJsonParseError::NoError` after `fromJson(data, &error)`. -/
def parseFailed (data : JsonText) : Bool :=
  data.document == .null

/-- Test `QJsonDocument::isObject()`. -/
def isObject : QJsonDocument → Bool
  | .ofObject _ => true
  | _ => false

/-- Accessor `QJsonDocument::object()`, empty when the document holds no object. -/
def object : QJsonDocument → QJsonObject
  | .ofObject o => o
  | _ => []

end QJsonDocument

/-- Library text functions whose output the program passes on without looking at it. -/
structure TextFormats where
  isoDate : QDateTime → String
  fromIsoDate : String → QDateTime
  numberText : Rat → String
  compactJson : QJsonValue → String

/-! ## Paths -/

/-- The characters after the last `c`, all of them when there is none. -/
def afterLast (c : Char) (s : List Char) : List Char :=
  (s.reverse.takeWhile (fun x => x != c)).reverse

/-- The characters before the last `c`, nothing when there is none. -/
def beforeLast (c : Char) (s : List Char) : List Char :=
  ((s.reverse.dropWhile (fun x => x != c)).drop 1).reverse

namespace QFileInfo

/-- Name `QFileInfo(path).fileName()`: what follows the last slash. -/
def fileName (path : String) : String :=
  String.mk (afterLast '/' path.data)

/-- Directory part `QFileInfo(filePath).path()`: what precedes the last slash, "." when
there is no slash and "/" when the only slash comes first. -/
def path (filePath : String) : String :=
  if '/' ∈ filePath.data then
    match beforeLast '/' filePath.data with
    | [] => "/"
    | d => String.mk d
  else "."

/-- Extension `QFileInfo(path).suffix()`: what follows the last dot of the file name,
empty when the name has no dot. -/
def suffix (path : String) : String :=
  let name := (fileName path).data
  if '.' ∈ name then String.mk (afterLast '.' name) else ""

/-- Name `QFileInfo(path).baseName()`: the file name up to its first dot. -/
def baseName (path : String) : String :=
  String.mk ((fileName path).data.takeWhile (fun x => x != '.'))

end QFileInfo

namespace QDir

/-- The path a `QDir(dirPath)` holds: one trailing slash is dropped unless it is the
whole path. -/
def path (dirPath : String) : String :=
  if dirPath.data.getLast? = some '/' ∧ 1 < dirPath.data.length
  then String.mk dirPath.data.dropLast else dirPath

/-- File path `QDir(dirPath).filePath(fileName)`: a name that starts with a slash, or
with the colon of a resource path, is returned as it is. -/
def filePath (dirPath fileName : String) : String :=
  let dir := path dirPath
  if fileName.data.head? = some '/' ∨ fileName.data.head? = some ':' then fileName
  else if fileName.isEmpty then dir
  else if dir.isEmpty ∨ dir.data.getLast? = some '/' then dir ++ fileName
  else dir ++ "/" ++ fileName

/-- Name `QDir(dirPath).dirName()`. -/
def dirName (dirPath : String) : String :=
  QFileInfo.fileName (path dirPath)

end QDir

/-- Directory `QFileInfo(filePath).dir()`, given by the path it holds. -/
def QFileInfo.dir (filePath : String) : String :=
  QDir.path (QFileInfo.path filePath)

/-- What the program finds on disk: which paths exist (`QFileInfo::exists`), what
reading a file gives (`none` when it cannot be opened), file sizes, the entries of a
directory that match a name filter (`QDir::entryList`), the sub-directories of a
directory, and for the path of a file the absolute path of its directory
(`QFileInfo(path).absolutePath()`). -/
structure FileSystem where
  fileExists : String → Bool
  readAll : String → Option JsonText
  size : String → Nat
  entryList : String → String → List String
  subdirectories : String → List String
  absolutePath : String → String

/-! ## The settings object -/

/-- Settings object (`QSettings` on `config.ini`), the flat key-value store of the spec:
the entries held in memory and the entries as they were last written to the file. At
most one entry per key is kept by `setValue`. -/
structure QSettings where
  memory : List (String × QVariant)
  persisted : List (String × QVariant)
  deriving DecidableEq, Repr

namespace QSettings

/-- Read `QSettings::value(key, defaultValue)`: the stored value, else the default. -/
def value (s : QSettings) (key : String) (defaultValue : QVariant) : QVariant :=
  match s.memory.lookup key with
  | some v => v
  | none => defaultValue

/-- Test `QSettings::contains(key)`. -/
def contains (s : QSettings) (key : String) : Bool :=
  (s.memory.lookup key).isSome

/-- Write `QSettings::setValue(key, value)`: any earlier value of the key is replaced. -/
def setValue (s : QSettings) (key : String) (value : QVariant) : QSettings :=
  { s with memory := (key, value) :: s.memory.filter (fun p => p.1 != key) }

/-- Removal of every entry, `QSettings::clear()`. -/
def clear (s : QSettings) : QSettings :=
  { s with memory := [] }

/-- Write-out `QSettings::sync()`: the file now holds what is in memory. -/
def sync (s : QSettings) : QSettings :=
  { s with persisted := s.memory }

end QSettings

/-! ## ConfigManager (`src/core/ConfigManager.cpp`) -/

/-- The configuration singleton: its settings object, and the home directory reported
by `QStandardPaths` (used for one default). -/
structure ConfigManager where
  m_settings : QSettings
  homeLocation : String
  deriving DecidableEq, Repr

namespace ConfigManager

/-- Operation `ConfigManager::resetToDefaults()`: clear, then sync. -/
def resetToDefaults (c : ConfigManager) : ConfigManager :=
  { c with m_settings := c.m_settings.clear.sync }

/-- Getter `ConfigManager::wallpaperEnginePath()`. -/
def wallpaperEnginePath (c : ConfigManager) : String :=
  (c.m_settings.value "paths/wallpaper_engine_binary" (QVariant.string "")).toQString

/-- Getter `ConfigManager::getWallpaperEnginePath()`, an alias of `wallpaperEnginePath()`. -/
def getWallpaperEnginePath (c : ConfigManager) : String :=
  c.wallpaperEnginePath

/-- Setter `ConfigManager::setWallpaperEnginePath`: write the key, then sync. -/
def setWallpaperEnginePath (c : ConfigManager) (path : String) : ConfigManager :=
  { c with m_settings := (c.m_settings.setValue "paths/wallpaper_engine_binary" (QVariant.string path)).sync }

/-- Getter `ConfigManager::steamPath()`. -/
def steamPath (c : ConfigManager) : String :=
  (c.m_settings.value "steam/path" (QVariant.string "")).toQString

/-- Setter `ConfigManager::setSteamPath`: write the key, then sync. -/
def setSteamPath (c : ConfigManager) (path : String) : ConfigManager :=
  { c with m_settings := (c.m_settings.setValue "steam/path" (QVariant.string path)).sync }

/-- Getter `ConfigManager::steamLibraryPaths()`. -/
def steamLibraryPaths (c : ConfigManager) : List String :=
  (c.m_settings.value "steam/library_paths" (QVariant.stringList [])).toStringList

/-- Setter `ConfigManager::setSteamLibraryPaths`: write the key, then sync. -/
def setSteamLibraryPaths (c : ConfigManager) (paths : List String) : ConfigManager :=
  { c with m_settings := (c.m_settings.setValue "steam/library_paths" (QVariant.stringList paths)).sync }

/-- Getter `ConfigManager::getAssetsDir()`. -/
def getAssetsDir (c : ConfigManager) : String :=
  (c.m_settings.value "paths/assets_dir" (QVariant.string "")).toQString

/-- Setter `ConfigManager::setAssetsDir`: write the key, then sync. -/
def setAssetsDir (c : ConfigManager) (dir : String) : ConfigManager :=
  { c with m_settings := (c.m_settings.setValue "paths/assets_dir" (QVariant.string dir)).sync }

/-- Getter `ConfigManager::masterVolume()`. -/
def masterVolume (c : ConfigManager) : Int :=
  (c.m_settings.value "audio/master_volume" (QVariant.int 15)).toInt

/-- Setter `ConfigManager::setMasterVolume`: write the key, then sync. -/
def setMasterVolume (c : ConfigManager) (volume : Int) : ConfigManager :=
  { c with m_settings := (c.m_settings.setValue "audio/master_volume" (QVariant.int volume)).sync }

/-- Getter `ConfigManager::audioDevice()`. -/
def audioDevice (c : ConfigManager) : String :=
  (c.m_settings.value "audio/device" (QVariant.string "default")).toQString

/-- Setter `ConfigManager::setAudioDevice`: write the key, then sync. -/
def setAudioDevice (c : ConfigManager) (device : String) : ConfigManager :=
  { c with m_settings := (c.m_settings.setValue "audio/device" (QVariant.string device)).sync }

/-- Getter `ConfigManager::muteOnFocus()`. -/
def muteOnFocus (c : ConfigManager) : Bool :=
  (c.m_settings.value "audio/mute_on_focus" (QVariant.bool false)).toBool

/-- Setter `ConfigManager::setMuteOnFocus`: write the key, then sync. -/
def setMuteOnFocus (c : ConfigManager) (mute : Bool) : ConfigManager :=
  { c with m_settings := (c.m_settings.setValue "audio/mute_on_focus" (QVariant.bool mute)).sync }

/-- Getter `ConfigManager::muteOnFullscreen()`. -/
def muteOnFullscreen (c : ConfigManager) : Bool :=
  (c.m_settings.value "audio/mute_on_fullscreen" (QVariant.bool false)).toBool

/-- Setter `ConfigManager::setMuteOnFullscreen`: write the key, then sync. -/
def setMuteOnFullscreen (c : ConfigManager) (mute : Bool) : ConfigManager :=
  { c with m_settings := (c.m_settings.setValue "audio/mute_on_fullscreen" (QVariant.bool mute)).sync }

/-- Getter `ConfigManager::noAutoMute()`. -/
def noAutoMute (c : ConfigManager) : Bool :=
  (c.m_settings.value "audio/no_auto_mute" (QVariant.bool false)).toBool

/-- Setter `ConfigManager::setNoAutoMute`: write the key, then sync. -/
def setNoAutoMute (c : ConfigManager) (noAutoMute : Bool) : ConfigManager :=
  { c with m_settings := (c.m_settings.setValue "audio/no_auto_mute" (QVariant.bool noAutoMute)).sync }

/-- Getter `ConfigManager::noAudioProcessing()`. -/
def noAudioProcessing (c : ConfigManager) : Bool :=
  (c.m_settings.value "audio/no_audio_processing" (QVariant.bool false)).toBool

/-- Setter `ConfigManager::setNoAudioProcessing`: write the key, then sync. -/
def setNoAudioProcessing (c : ConfigManager) (noProcessing : Bool) : ConfigManager :=
  { c with m_settings := (c.m_settings.setValue "audio/no_audio_processing" (QVariant.bool noProcessing)).sync }

/-- Getter `ConfigManager::targetFps()`. -/
def targetFps (c : ConfigManager) : Int :=
  (c.m_settings.value "performance/fps" (QVariant.int 30)).toInt

/-- Setter `ConfigManager::setTargetFps`: write the key, then sync. -/
def setTargetFps (c : ConfigManager) (fps : Int) : ConfigManager :=
  { c with m_settings := (c.m_settings.setValue "performance/fps" (QVariant.int fps)).sync }

/-- Getter `ConfigManager::cpuLimitEnabled()`. -/
def cpuLimitEnabled (c : ConfigManager) : Bool :=
  (c.m_settings.value "performance/cpu_limit_enabled" (QVariant.bool false)).toBool

/-- Setter `ConfigManager::setCpuLimitEnabled`: write the key, then sync. -/
def setCpuLimitEnabled (c : ConfigManager) (enabled : Bool) : ConfigManager :=
  { c with m_settings := (c.m_settings.setValue "performance/cpu_limit_enabled" (QVariant.bool enabled)).sync }

/-- Getter `ConfigManager::cpuLimit()`. -/
def cpuLimit (c : ConfigManager) : Int :=
  (c.m_settings.value "performance/cpu_limit" (QVariant.int 50)).toInt

/-- Setter `ConfigManager::setCpuLimit`: write the key, then sync. -/
def setCpuLimit (c : ConfigManager) (limit : Int) : ConfigManager :=
  { c with m_settings := (c.m_settings.setValue "performance/cpu_limit" (QVariant.int limit)).sync }

/-- Getter `ConfigManager::pauseOnFocus()`. -/
def pauseOnFocus (c : ConfigManager) : Bool :=
  (c.m_settings.value "behavior/pause_on_focus" (QVariant.bool false)).toBool

/-- Setter `ConfigManager::setPauseOnFocus`: write the key, then sync. -/
def setPauseOnFocus (c : ConfigManager) (pause : Bool) : ConfigManager :=
  { c with m_settings := (c.m_settings.setValue "behavior/pause_on_focus" (QVariant.bool pause)).sync }

/-- Getter `ConfigManager::pauseOnFullscreen()`. -/
def pauseOnFullscreen (c : ConfigManager) : Bool :=
  (c.m_settings.value "behavior/pause_on_fullscreen" (QVariant.bool true)).toBool

/-- Setter `ConfigManager::setPauseOnFullscreen`: write the key, then sync. -/
def setPauseOnFullscreen (c : ConfigManager) (pause : Bool) : ConfigManager :=
  { c with m_settings := (c.m_settings.setValue "behavior/pause_on_fullscreen" (QVariant.bool pause)).sync }

/-- Getter `ConfigManager::disableMouse()`. -/
def disableMouse (c : ConfigManager) : Bool :=
  (c.m_settings.value "behavior/disable_mouse" (QVariant.bool false)).toBool

/-- Setter `ConfigManager::setDisableMouse`: write the key, then sync. -/
def setDisableMouse (c : ConfigManager) (disable : Bool) : ConfigManager :=
  { c with m_settings := (c.m_settings.setValue "behavior/disable_mouse" (QVariant.bool disable)).sync }

/-- Getter `ConfigManager::disableParallax()`. -/
def disableParallax (c : ConfigManager) : Bool :=
  (c.m_settings.value "behavior/disable_parallax" (QVariant.bool false)).toBool

/-- Setter `ConfigManager::setDisableParallax`: write the key, then sync. -/
def setDisableParallax (c : ConfigManager) (disable : Bool) : ConfigManager :=
  { c with m_settings := (c.m_settings.setValue "behavior/disable_parallax" (QVariant.bool disable)).sync }

/-- Getter `ConfigManager::renderMode()`. -/
def renderMode (c : ConfigManager) : String :=
  (c.m_settings.value "rendering/mode" (QVariant.string "Auto")).toQString

/-- Setter `ConfigManager::setRenderMode`: write the key, then sync. -/
def setRenderMode (c : ConfigManager) (mode : String) : ConfigManager :=
  { c with m_settings := (c.m_settings.setValue "rendering/mode" (QVariant.string mode)).sync }

/-- Getter `ConfigManager::msaaLevel()`. -/
def msaaLevel (c : ConfigManager) : String :=
  (c.m_settings.value "rendering/msaa" (QVariant.string "Off")).toQString

/-- Setter `ConfigManager::setMsaaLevel`: write the key, then sync. -/
def setMsaaLevel (c : ConfigManager) (level : String) : ConfigManager :=
  { c with m_settings := (c.m_settings.setValue "rendering/msaa" (QVariant.string level)).sync }

/-- Getter `ConfigManager::anisotropicFiltering()`. -/
def anisotropicFiltering (c : ConfigManager) : Int :=
  (c.m_settings.value "rendering/anisotropic" (QVariant.int 1)).toInt

/-- Setter `ConfigManager::setAnisotropicFiltering`: write the key, then sync. -/
def setAnisotropicFiltering (c : ConfigManager) (level : Int) : ConfigManager :=
  { c with m_settings := (c.m_settings.setValue "rendering/anisotropic" (QVariant.int level)).sync }

/-- Getter `ConfigManager::vsyncEnabled()`. -/
def vsyncEnabled (c : ConfigManager) : Bool :=
  (c.m_settings.value "rendering/vsync" (QVariant.bool true)).toBool

/-- Setter `ConfigManager::setVsyncEnabled`: write the key, then sync. -/
def setVsyncEnabled (c : ConfigManager) (enabled : Bool) : ConfigManager :=
  { c with m_settings := (c.m_settings.setValue "rendering/vsync" (QVariant.bool enabled)).sync }

/-- Getter `ConfigManager::bloomEnabled()`. -/
def bloomEnabled (c : ConfigManager) : Bool :=
  (c.m_settings.value "rendering/bloom" (QVariant.bool true)).toBool

/-- Setter `ConfigManager::setBloomEnabled`: write the key, then sync. -/
def setBloomEnabled (c : ConfigManager) (enabled : Bool) : ConfigManager :=
  { c with m_settings := (c.m_settings.setValue "rendering/bloom" (QVariant.bool enabled)).sync }

/-- Getter `ConfigManager::reflectionsEnabled()`. -/
def reflectionsEnabled (c : ConfigManager) : Bool :=
  (c.m_settings.value "rendering/reflections" (QVariant.bool true)).toBool

/-- Setter `ConfigManager::setReflectionsEnabled`: write the key, then sync. -/
def setReflectionsEnabled (c : ConfigManager) (enabled : Bool) : ConfigManager :=
  { c with m_settings := (c.m_settings.setValue "rendering/reflections" (QVariant.bool enabled)).sync }

/-- Getter `ConfigManager::windowMode()`. -/
def windowMode (c : ConfigManager) : String :=
  (c.m_settings.value "display/window_mode" (QVariant.string "")).toQString

/-- Setter `ConfigManager::setWindowMode`: write the key, then sync. -/
def setWindowMode (c : ConfigManager) (mode : String) : ConfigManager :=
  { c with m_settings := (c.m_settings.setValue "display/window_mode" (QVariant.string mode)).sync }

/-- Getter `ConfigManager::screenRoot()`. -/
def screenRoot (c : ConfigManager) : String :=
  (c.m_settings.value "display/screen_root" (QVariant.string "")).toQString

/-- Setter `ConfigManager::setScreenRoot`: write the key, then sync. -/
def setScreenRoot (c : ConfigManager) (root : String) : ConfigManager :=
  { c with m_settings := (c.m_settings.setValue "display/screen_root" (QVariant.string root)).sync }

/-- Getter `ConfigManager::clampingMode()`. -/
def clampingMode (c : ConfigManager) : String :=
  (c.m_settings.value "rendering/clamping_mode" (QVariant.string "clamp")).toQString

/-- Setter `ConfigManager::setClampingMode`: write the key, then sync. -/
def setClampingMode (c : ConfigManager) (mode : String) : ConfigManager :=
  { c with m_settings := (c.m_settings.setValue "rendering/clamping_mode" (QVariant.string mode)).sync }

/-- Getter `ConfigManager::getScaling()`. -/
def getScaling (c : ConfigManager) : String :=
  (c.m_settings.value "rendering/scaling" (QVariant.string "")).toQString

/-- Setter `ConfigManager::setScaling`: write the key, then sync. -/
def setScaling (c : ConfigManager) (scaling : String) : ConfigManager :=
  { c with m_settings := (c.m_settings.setValue "rendering/scaling" (QVariant.string scaling)).sync }

/-- Getter `ConfigManager::getSilent()`. -/
def getSilent (c : ConfigManager) : Bool :=
  (c.m_settings.value "General/silent" (QVariant.bool false)).toBool

/-- Setter `ConfigManager::setSilent`: write the key, then sync. -/
def setSilent (c : ConfigManager) (silent : Bool) : ConfigManager :=
  { c with m_settings := (c.m_settings.setValue "General/silent" (QVariant.bool silent)).sync }

/-- Getter `ConfigManager::theme()`. -/
def theme (c : ConfigManager) : String :=
  (c.m_settings.value "ui/theme" (QVariant.string "")).toQString

/-- Setter `ConfigManager::setTheme`: write the key, then sync. -/
def setTheme (c : ConfigManager) (theme : String) : ConfigManager :=
  { c with m_settings := (c.m_settings.setValue "ui/theme" (QVariant.string theme)).sync }

/-- Getter `ConfigManager::qtTheme()`. -/
def qtTheme (c : ConfigManager) : String :=
  (c.m_settings.value "ui/theme" (QVariant.string "System Default")).toQString

/-- Setter `ConfigManager::setQtTheme`: write the key, then sync. -/
def setQtTheme (c : ConfigManager) (theme : String) : ConfigManager :=
  { c with m_settings := (c.m_settings.setValue "ui/theme" (QVariant.string theme)).sync }

/-- Getter `ConfigManager::windowGeometry()`. -/
def windowGeometry (c : ConfigManager) : List Nat :=
  (c.m_settings.value "ui/window_geometry" QVariant.invalid).toByteArray

/-- Setter `ConfigManager::setWindowGeometry`: write the key, then sync. -/
def setWindowGeometry (c : ConfigManager) (geometry : List Nat) : ConfigManager :=
  { c with m_settings := (c.m_settings.setValue "ui/window_geometry" (QVariant.byteArray geometry)).sync }

/-- Getter `ConfigManager::windowState()`. -/
def windowState (c : ConfigManager) : List Nat :=
  (c.m_settings.value "ui/window_state" QVariant.invalid).toByteArray

/-- Setter `ConfigManager::setWindowState`: write the key, then sync. -/
def setWindowState (c : ConfigManager) (state : List Nat) : ConfigManager :=
  { c with m_settings := (c.m_settings.setValue "ui/window_state" (QVariant.byteArray state)).sync }

/-- Getter `ConfigManager::getSplitterState()`. -/
def getSplitterState (c : ConfigManager) : List Nat :=
  (c.m_settings.value "ui/splitter_state" QVariant.invalid).toByteArray

/-- Setter `ConfigManager::setSplitterState`: write the key, then sync. -/
def setSplitterState (c : ConfigManager) (state : List Nat) : ConfigManager :=
  { c with m_settings := (c.m_settings.setValue "ui/splitter_state" (QVariant.byteArray state)).sync }

/-- Getter `ConfigManager::isFirstRun()`. -/
def isFirstRun (c : ConfigManager) : Bool :=
  (c.m_settings.value "General/first_run" (QVariant.bool true)).toBool

/-- Setter `ConfigManager::setFirstRun`: write the key, then sync. -/
def setFirstRun (c : ConfigManager) (firstRun : Bool) : ConfigManager :=
  { c with m_settings := (c.m_settings.setValue "General/first_run" (QVariant.bool firstRun)).sync }

/-- Getter `ConfigManager::lastSelectedWallpaper()`. -/
def lastSelectedWallpaper (c : ConfigManager) : String :=
  (c.m_settings.value "General/last_wallpaper" (QVariant.string "")).toQString

/-- Setter `ConfigManager::setLastSelectedWallpaper`: write the key, then sync. -/
def setLastSelectedWallpaper (c : ConfigManager) (wallpaperId : String) : ConfigManager :=
  { c with m_settings := (c.m_settings.setValue "General/last_wallpaper" (QVariant.string wallpaperId)).sync }

/-- Getter `ConfigManager::refreshInterval()`. -/
def refreshInterval (c : ConfigManager) : Int :=
  (c.m_settings.value "General/refresh_interval" (QVariant.int 30)).toInt

/-- Setter `ConfigManager::setRefreshInterval`: write the key, then sync. -/
def setRefreshInterval (c : ConfigManager) (seconds : Int) : ConfigManager :=
  { c with m_settings := (c.m_settings.setValue "General/refresh_interval" (QVariant.int seconds)).sync }

/-- Getter `ConfigManager::lastSessionUsedPlaylist()`. -/
def lastSessionUsedPlaylist (c : ConfigManager) : Bool :=
  (c.m_settings.value "General/last_session_used_playlist" (QVariant.bool false)).toBool

/-- Setter `ConfigManager::setLastSessionUsedPlaylist`: write the key, then sync. -/
def setLastSessionUsedPlaylist (c : ConfigManager) (usedPlaylist : Bool) : ConfigManager :=
  { c with m_settings := (c.m_settings.setValue "General/last_session_used_playlist" (QVariant.bool usedPlaylist)).sync }

/-- Getter `ConfigManager::steamApiKey()`. -/
def steamApiKey (c : ConfigManager) : String :=
  (c.m_settings.value "steam/api_key" (QVariant.string "")).toQString

/-- Setter `ConfigManager::setSteamApiKey`: write the key, then sync. -/
def setSteamApiKey (c : ConfigManager) (apiKey : String) : ConfigManager :=
  { c with m_settings := (c.m_settings.setValue "steam/api_key" (QVariant.string apiKey)).sync }

/-- Getter `ConfigManager::useSteamApi()`. -/
def useSteamApi (c : ConfigManager) : Bool :=
  (c.m_settings.value "steam/use_api" (QVariant.bool true)).toBool

/-- Setter `ConfigManager::setUseSteamApi`: write the key, then sync. -/
def setUseSteamApi (c : ConfigManager) (use : Bool) : ConfigManager :=
  { c with m_settings := (c.m_settings.setValue "steam/use_api" (QVariant.bool use)).sync }

/-- Getter `ConfigManager::lastApiUpdate()`. -/
def lastApiUpdate (c : ConfigManager) : QDateTime :=
  (c.m_settings.value "steam_api/last_update" QVariant.invalid).toDateTime

/-- Setter `ConfigManager::setLastApiUpdate`: write the key, then sync. -/
def setLastApiUpdate (c : ConfigManager) (dateTime : QDateTime) : ConfigManager :=
  { c with m_settings := (c.m_settings.setValue "steam_api/last_update" (QVariant.dateTime dateTime)).sync }

/-- Getter `ConfigManager::showTrayWarning()`. -/
def showTrayWarning (c : ConfigManager) : Bool :=
  (c.m_settings.value "ui/show_tray_warning" (QVariant.bool true)).toBool

/-- Setter `ConfigManager::setShowTrayWarning`: write the key, then sync. -/
def setShowTrayWarning (c : ConfigManager) (showWarning : Bool) : ConfigManager :=
  { c with m_settings := (c.m_settings.setValue "ui/show_tray_warning" (QVariant.bool showWarning)).sync }

/-- Getter `ConfigManager::isWNELAddonEnabled()`. -/
def isWNELAddonEnabled (c : ConfigManager) : Bool :=
  (c.m_settings.value "wnel/enabled" (QVariant.bool false)).toBool

/-- Setter `ConfigManager::setWNELAddonEnabled`: write the key, then sync. -/
def setWNELAddonEnabled (c : ConfigManager) (enabled : Bool) : ConfigManager :=
  { c with m_settings := (c.m_settings.setValue "wnel/enabled" (QVariant.bool enabled)).sync }

/-- Getter `ConfigManager::externalWallpapersPath()`. -/
def externalWallpapersPath (c : ConfigManager) : String :=
  (c.m_settings.value "wnel/external_wallpapers_path" (QVariant.string (c.homeLocation ++ "/external_wallpapers"))).toQString

/-- Setter `ConfigManager::setExternalWallpapersPath`: write the key, then sync. -/
def setExternalWallpapersPath (c : ConfigManager) (path : String) : ConfigManager :=
  { c with m_settings := (c.m_settings.setValue "wnel/external_wallpapers_path" (QVariant.string path)).sync }

/-- Getter `ConfigManager::wnelBinaryPath()`. -/
def wnelBinaryPath (c : ConfigManager) : String :=
  (c.m_settings.value "wnel/binary_path" (QVariant.string "")).toQString

/-- Setter `ConfigManager::setWNELBinaryPath`: write the key, then sync. -/
def setWNELBinaryPath (c : ConfigManager) (path : String) : ConfigManager :=
  { c with m_settings := (c.m_settings.setValue "wnel/binary_path" (QVariant.string path)).sync }

/-- Generic read `ConfigManager::value(key, defaultValue)`. -/
def value (c : ConfigManager) (key : String) (defaultValue : QVariant) : QVariant :=
  c.m_settings.value key defaultValue

/-- Generic write `ConfigManager::setValue(key, value)`: write the key, then sync. -/
def setValue (c : ConfigManager) (key : String) (value : QVariant) : ConfigManager :=
  { c with m_settings := (c.m_settings.setValue key value).sync }

/-- The flat key `QString("wallpapers/%1/%2").arg(wallpaperId, key)`. -/
def wallpaperKey (wallpaperId key : String) : String :=
  "wallpapers/" ++ wallpaperId ++ "/" ++ key

/-- Read `ConfigManager::getWallpaperValue(wallpaperId, key, defaultValue)`. -/
def getWallpaperValue (c : ConfigManager) (wallpaperId key : String)
    (defaultValue : QVariant) : QVariant :=
  c.m_settings.value (wallpaperKey wallpaperId key) defaultValue

/-- Write `ConfigManager::setWallpaperValue(wallpaperId, key, value)`. -/
def setWallpaperValue (c : ConfigManager) (wallpaperId key : String)
    (value : QVariant) : ConfigManager :=
  { c with m_settings := (c.m_settings.setValue (wallpaperKey wallpaperId key) value).sync }

/-- Getter `ConfigManager::getWallpaperScreenRoot`. -/
def getWallpaperScreenRoot (c : ConfigManager) (wallpaperId : String) : String :=
  (c.getWallpaperValue wallpaperId "screen_root" (QVariant.string c.screenRoot)).toQString

/-- Setter `ConfigManager::setWallpaperScreenRoot`. -/
def setWallpaperScreenRoot (c : ConfigManager) (wallpaperId screenRoot : String) :
    ConfigManager :=
  c.setWallpaperValue wallpaperId "screen_root" (QVariant.string screenRoot)

/-- Getter `ConfigManager::getWallpaperAudioDevice`. -/
def getWallpaperAudioDevice (c : ConfigManager) (wallpaperId : String) : String :=
  (c.getWallpaperValue wallpaperId "audio_device" (QVariant.string c.audioDevice)).toQString

/-- Setter `ConfigManager::setWallpaperAudioDevice`. -/
def setWallpaperAudioDevice (c : ConfigManager) (wallpaperId audioDevice : String) :
    ConfigManager :=
  c.setWallpaperValue wallpaperId "audio_device" (QVariant.string audioDevice)

/-- Getter `ConfigManager::getWallpaperMasterVolume`. -/
def getWallpaperMasterVolume (c : ConfigManager) (wallpaperId : String) : Int :=
  (c.getWallpaperValue wallpaperId "master_volume" (QVariant.int c.masterVolume)).toInt

/-- Setter `ConfigManager::setWallpaperMasterVolume`. -/
def setWallpaperMasterVolume (c : ConfigManager) (wallpaperId : String) (volume : Int) :
    ConfigManager :=
  c.setWallpaperValue wallpaperId "master_volume" (QVariant.int volume)

/-- Getter `ConfigManager::getWallpaperNoAutoMute`. -/
def getWallpaperNoAutoMute (c : ConfigManager) (wallpaperId : String) : Bool :=
  (c.getWallpaperValue wallpaperId "no_auto_mute" (QVariant.bool c.noAutoMute)).toBool

/-- Setter `ConfigManager::setWallpaperNoAutoMute`. -/
def setWallpaperNoAutoMute (c : ConfigManager) (wallpaperId : String) (noAutoMute : Bool) :
    ConfigManager :=
  c.setWallpaperValue wallpaperId "no_auto_mute" (QVariant.bool noAutoMute)

/-- Getter `ConfigManager::getWallpaperNoAudioProcessing`. -/
def getWallpaperNoAudioProcessing (c : ConfigManager) (wallpaperId : String) : Bool :=
  (c.getWallpaperValue wallpaperId "no_audio_processing"
    (QVariant.bool c.noAudioProcessing)).toBool

/-- Setter `ConfigManager::setWallpaperNoAudioProcessing`. -/
def setWallpaperNoAudioProcessing (c : ConfigManager) (wallpaperId : String)
    (noAudioProcessing : Bool) : ConfigManager :=
  c.setWallpaperValue wallpaperId "no_audio_processing" (QVariant.bool noAudioProcessing)

/-- Getter `ConfigManager::getWallpaperWindowMode`. -/
def getWallpaperWindowMode (c : ConfigManager) (wallpaperId : String) : String :=
  (c.getWallpaperValue wallpaperId "window_mode" (QVariant.string c.windowMode)).toQString

/-- Setter `ConfigManager::setWallpaperWindowMode`. -/
def setWallpaperWindowMode (c : ConfigManager) (wallpaperId windowMode : String) :
    ConfigManager :=
  c.setWallpaperValue wallpaperId "window_mode" (QVariant.string windowMode)

/-- Getter `ConfigManager::getWallpaperSilent`. -/
def getWallpaperSilent (c : ConfigManager) (wallpaperId : String) : Bool :=
  (c.getWallpaperValue wallpaperId "silent" (QVariant.bool c.getSilent)).toBool

/-- Setter `ConfigManager::setWallpaperSilent`. -/
def setWallpaperSilent (c : ConfigManager) (wallpaperId : String) (silent : Bool) :
    ConfigManager :=
  c.setWallpaperValue wallpaperId "silent" (QVariant.bool silent)

end ConfigManager

/-! ## Child processes, signals and the outside world -/

/-- Calls made on `QProcess` objects, and the finish they report, in program order.
Process objects are numbered in the order `new QProcess(this)` creates them. -/
inductive ProcessCall where
  | create (p : Nat)
  | start (p : Nat) (program : String) (arguments : List String)
  | disconnect (p : Nat)
  | terminate (p : Nat)
  | kill (p : Nat)
  | finished (p : Nat)
  | destroy (p : Nat)
  | deleteLater (p : Nat)
  deriving DecidableEq, Repr

/-- Signals the two launchers emit. -/
inductive Signal where
  | outputReceived (text : String)
  | errorOccurred (text : String)
  | wallpaperLaunched (wallpaperId : String)
  | wallpaperStopped
  | externalWallpaperAdded (wallpaperId : String)
  deriving DecidableEq, Repr

/-- Exit code and exit status carried by `QProcess::finished`. -/
structure ExitInfo where
  exitCode : Int
  crashed : Bool
  deriving DecidableEq, Repr

/-- What the two `waitForFinished` calls of a stop observe: `none` is a time-out,
`some e` means the process finished inside the wait (and `finished` was emitted). -/
structure StopOutcome where
  afterTerminate : Option ExitInfo
  afterKill : Option ExitInfo
  deriving DecidableEq, Repr

/-- What a launch observes: the outcome of the stop it performs first and the result
of `waitForStarted(5000)`. -/
structure LaunchOutcome where
  stop : StopOutcome
  started : Bool
  deriving DecidableEq, Repr

/-- The part of the machine the launchers look at: which paths exist, which are
executable, and the list `generatePropertyArguments` computes from a project file. -/
structure Environment where
  fileExists : String → Bool
  isExecutable : String → Bool
  propertyArguments : String → List String

/-- Removal of a process from the owned list once it finished or was released. -/
def dropProcess (p : Nat) (owned : List Nat) : List Nat :=
  owned.filter (fun q => q != p)

/-- The owned children after a log read left to right, starting from `owned`: a
process object is owned from its creation until it finishes or is released (`delete`,
`deleteLater`). -/
def ownedAfter : List Nat → List ProcessCall → List Nat
  | owned, [] => owned
  | owned, .create p :: cs => ownedAfter (owned ++ [p]) cs
  | owned, .finished p :: cs => ownedAfter (dropProcess p owned) cs
  | owned, .destroy p :: cs => ownedAfter (dropProcess p owned) cs
  | owned, .deleteLater p :: cs => ownedAfter (dropProcess p owned) cs
  | owned, _ :: cs => ownedAfter owned cs

/-- Children a launcher still owns according to its whole call log. -/
def ownedProcesses (log : List ProcessCall) : List Nat :=
  ownedAfter [] log

/-- Fixed-point text of `n / 100.0` with two fractional digits,
`QString::number(n / 100.0, 'f', 2)` for an `int` n. -/
def formatHundredths (n : Int) : String :=
  let a := n.natAbs
  let frac := a % 100
  (if n < 0 then "-" else "") ++ toString (a / 100) ++ "." ++
    (if frac < 10 then "0" else "") ++ toString frac

/-! ## WallpaperManager (`src/core/WallpaperManager.cpp`) -/

/-- Modelled from the spec: the record `WallpaperInfo` is declared in
`WallpaperManager.h`, which is not among the sources; the fields are those the spec
lists (identifier, display name, author, type tag, paths, size, tags, properties) under
the names the sources use. A default-constructed record has every field empty. -/
structure WallpaperInfo where
  id : String := ""
  name : String := ""
  author : String := ""
  authorId : String := ""
  description : String := ""
  type : String := ""
  path : String := ""
  previewPath : String := ""
  projectPath : String := ""
  fileSize : Nat := 0
  tags : List String := []
  properties : QJsonObject := []
  deriving DecidableEq, Repr

/-- State of the workshop launcher: the scanned list, the process pointer, the current
id, and (for reasoning) the call log, the emitted signals and the number of process
objects created so far. -/
structure WallpaperManager where
  m_wallpapers : List WallpaperInfo := []
  m_wallpaperProcess : Option Nat := none
  m_currentWallpaperId : String := ""
  processLog : List ProcessCall := []
  signals : List Signal := []
  nextProcess : Nat := 0
  deriving DecidableEq, Repr

namespace WallpaperManager

/-- Emission of a signal. -/
def emit (m : WallpaperManager) (s : Signal) : WallpaperManager :=
  { m with signals := m.signals ++ [s] }

/-- A call on a process object, appended to the log. -/
def call (m : WallpaperManager) (c : ProcessCall) : WallpaperManager :=
  { m with processLog := m.processLog ++ [c] }

/-- Lookup `WallpaperManager::getWallpaperById`: the first record with that id, else a
default-constructed record. -/
def getWallpaperById (m : WallpaperManager) (id : String) : WallpaperInfo :=
  (m.m_wallpapers.find? (fun w => w.id == id)).getD {}

/-- Slot `WallpaperManager::onProcessFinished(exitCode, exitStatus)`. -/
def onProcessFinished (m : WallpaperManager) (e : ExitInfo) : WallpaperManager :=
  let m := m.emit (.outputReceived ("Wallpaper process finished (exit code: " ++
    toString e.exitCode ++ ", status: " ++ (if e.crashed then "Crashed" else "Normal") ++ ")"))
  let m := { m with m_currentWallpaperId := "" }
  let m := match m.m_wallpaperProcess with
    | some p => { m.call (.deleteLater p) with m_wallpaperProcess := none }
    | none => m
  m.emit .wallpaperStopped

/-- The held process finishes: `QProcess` reports it and runs the connected slot. -/
def processFinished (m : WallpaperManager) (e : ExitInfo) : WallpaperManager :=
  let m := match m.m_wallpaperProcess with
    | some p => m.call (.finished p)
    | none => m
  m.onProcessFinished e

/-- Method `WallpaperManager::stopWallpaper()`. The `finished` signal is still connected,
so a process that finishes inside a wait runs `onProcessFinished` before the wait
returns; `delete` then acts on whatever the pointer holds at that moment. -/
def stopWallpaper (m : WallpaperManager) (o : StopOutcome) : WallpaperManager :=
  match m.m_wallpaperProcess with
  | none => m
  | some p =>
    let m := m.emit (.outputReceived "Stopping wallpaper...")
    let m := m.call (.terminate p)
    let m := match o.afterTerminate with
      | some e => m.processFinished e
      | none =>
        let m := m.call (.kill p)
        match o.afterKill with
        | some e => m.processFinished e
        | none => m
    let m := match m.m_wallpaperProcess with
      | some q => m.call (.destroy q)
      | none => m
    let m := { m with m_wallpaperProcess := none, m_currentWallpaperId := "" }
    m.emit .wallpaperStopped

/-- Argument list built by `launchWallpaper` up to the wallpaper path
(`WallpaperManager.cpp` lines 293-346). -/
def baseArguments (config : ConfigManager) (wallpaper : WallpaperInfo)
    (wallpaperId : String) (additionalArgs : List String) : List String :=
  let args : List String := []
  let screenRoot := config.getWallpaperScreenRoot wallpaperId
  let args := if !screenRoot.isEmpty then args ++ ["--screen-root", screenRoot] else args
  let volume := config.getWallpaperMasterVolume wallpaperId
  let args := if volume != 15 then args ++ ["--volume", toString volume] else args
  let args := if config.getWallpaperNoAutoMute wallpaperId then args ++ ["--noautomute"] else args
  let args := if config.getWallpaperNoAudioProcessing wallpaperId
    then args ++ ["--no-audio-processing"] else args
  let args := if config.getWallpaperSilent wallpaperId then args ++ ["--silent"] else args
  let windowMode := config.getWallpaperWindowMode wallpaperId
  let args := if !windowMode.isEmpty then args ++ ["--window", windowMode] else args
  let audioDevice := config.getWallpaperAudioDevice wallpaperId
  let args := if !audioDevice.isEmpty && audioDevice != "default"
    then args ++ ["--audio-device", audioDevice] else args
  let args := args ++ additionalArgs
  let assetsDir := config.getAssetsDir
  let args := if !assetsDir.isEmpty && !args.contains "--assets-dir"
    then args ++ ["--assets-dir", assetsDir] else args
  args ++ [wallpaper.path]

/-- The part of that list that comes from the per-wallpaper configuration
(`WallpaperManager.cpp` lines 293-333), before `additionalArgs` is appended. -/
def settingsArguments (config : ConfigManager) (wallpaperId : String) : List String :=
  let args : List String := []
  let screenRoot := config.getWallpaperScreenRoot wallpaperId
  let args := if !screenRoot.isEmpty then args ++ ["--screen-root", screenRoot] else args
  let volume := config.getWallpaperMasterVolume wallpaperId
  let args := if volume != 15 then args ++ ["--volume", toString volume] else args
  let args := if config.getWallpaperNoAutoMute wallpaperId then args ++ ["--noautomute"] else args
  let args := if config.getWallpaperNoAudioProcessing wallpaperId
    then args ++ ["--no-audio-processing"] else args
  let args := if config.getWallpaperSilent wallpaperId then args ++ ["--silent"] else args
  let windowMode := config.getWallpaperWindowMode wallpaperId
  let args := if !windowMode.isEmpty then args ++ ["--window", windowMode] else args
  let audioDevice := config.getWallpaperAudioDevice wallpaperId
  let args := if !audioDevice.isEmpty && audioDevice != "default"
    then args ++ ["--audio-device", audioDevice] else args
  args

/-- The flags of that part that are followed by a value. -/
def settingsValueFlags : List String :=
  ["--screen-root", "--volume", "--window", "--audio-device"]

/-- Property overrides appended after the wallpaper path when a backup of the project
file exists (`WallpaperManager.cpp` lines 348-358). -/
def backupPropertyArguments (env : Environment) (wallpaper : WallpaperInfo) : List String :=
  if env.fileExists (wallpaper.projectPath ++ ".backup")
  then env.propertyArguments wallpaper.projectPath
  else []

/-- Method `WallpaperManager::launchWallpaper(wallpaperId, additionalArgs)`; the result
is the returned flag and the state afterwards. -/
def launchWallpaper (m : WallpaperManager) (config : ConfigManager) (env : Environment)
    (wallpaperId : String) (additionalArgs : List String) (o : LaunchOutcome) :
    Bool × WallpaperManager :=
  let binaryPath := config.wallpaperEnginePath
  if binaryPath.isEmpty then
    (false, m.emit (.errorOccurred "Wallpaper Engine binary path not configured"))
  else
    let wallpaper := m.getWallpaperById wallpaperId
    if wallpaper.id.isEmpty then
      (false, m.emit (.errorOccurred ("Wallpaper not found: " ++ wallpaperId)))
    else
      let m := m.stopWallpaper o.stop
      let p := m.nextProcess
      let m := { m.call (.create p) with m_wallpaperProcess := some p, nextProcess := p + 1 }
      let args := baseArguments config wallpaper wallpaperId additionalArgs
      let propertyArgs := backupPropertyArguments env wallpaper
      let args := args ++ propertyArgs
      let m := if !propertyArgs.isEmpty
        then m.emit (.outputReceived ("Found backup file, applying " ++
          toString (propertyArgs.length - 1 : Int) ++ " property overrides"))
        else m
      let m := m.emit (.outputReceived ("Launching wallpaper: " ++ wallpaper.name))
      let m := m.emit (.outputReceived ("Command: " ++ binaryPath ++ " " ++
        String.intercalate " " args))
      let m := m.call (.start p binaryPath args)
      if !o.started then
        let m := m.emit (.errorOccurred "Failed to start wallpaper process")
        let m := m.call (.destroy p)
        (false, { m with m_wallpaperProcess := none })
      else
        let m := { m with m_currentWallpaperId := wallpaperId }
        (true, m.emit (.wallpaperLaunched wallpaperId))

/-- Method `WallpaperManager::getCurrentWallpaper()`. -/
def getCurrentWallpaper (m : WallpaperManager) : String :=
  m.m_currentWallpaperId

/-- Method `WallpaperManager::isWallpaperRunning()`: a process is held and its state is
`QProcess::Running`. `running` tells, for each process object, whether its state is
`Running` at the moment of the call. -/
def isWallpaperRunning (m : WallpaperManager) (running : Nat → Bool) : Bool :=
  match m.m_wallpaperProcess with
  | some p => running p
  | none => false

/-- Events that drive the launcher: a launch call, a stop call, and the held process
finishing on its own. -/
inductive Event where
  | launch (config : ConfigManager) (env : Environment) (wallpaperId : String)
      (additionalArgs : List String) (o : LaunchOutcome)
  | stop (o : StopOutcome)
  | finished (e : ExitInfo)

/-- One event applied to a state. -/
def step (m : WallpaperManager) : Event → WallpaperManager
  | .launch config env wallpaperId additionalArgs o =>
      (m.launchWallpaper config env wallpaperId additionalArgs o).2
  | .stop o => m.stopWallpaper o
  | .finished e => m.processFinished e

/-- The state after a sequence of events. -/
def run (m : WallpaperManager) (es : List Event) : WallpaperManager :=
  es.foldl step m

/-- The state the constructor leaves, with the scanned list given. -/
def initial (wallpapers : List WallpaperInfo) : WallpaperManager :=
  { m_wallpapers := wallpapers }

end WallpaperManager

/-! ## WNELAddon (`src/addons/WNELAddon.cpp`) -/

/-- Modelled from the spec: the record `ExternalWallpaperInfo` is declared in
`WNELAddon.h`, which is not among the sources; the fields are those the spec lists
(identifier, display name, media type, original path, symlink path, codec, resolution,
size, timestamps) under the names the sources use; the resolution is given by its width
and height, both -1 in the invalid size. A default-constructed record has every field
empty. -/
structure ExternalWallpaperInfo where
  id : String := ""
  name : String := ""
  type : String := ""
  originalPath : String := ""
  symlinkPath : String := ""
  previewPath : String := ""
  projectPath : String := ""
  codec : String := ""
  width : Int := -1
  height : Int := -1
  fileSize : Nat := 0
  created : QDateTime := ⟨none⟩
  updated : QDateTime := ⟨none⟩
  deriving DecidableEq, Repr

/-- State of the external-media launcher, with the same bookkeeping as above. -/
structure WNELAddon where
  m_enabled : Bool := false
  m_externalWallpapersPath : String := ""
  m_externalWallpapers : List ExternalWallpaperInfo := []
  m_wallpaperProcess : Option Nat := none
  m_currentWallpaperId : String := ""
  processLog : List ProcessCall := []
  signals : List Signal := []
  nextProcess : Nat := 0
  deriving DecidableEq, Repr

namespace WNELAddon

/-- Emission of a signal. -/
def emit (a : WNELAddon) (s : Signal) : WNELAddon :=
  { a with signals := a.signals ++ [s] }

/-- A call on a process object, appended to the log. -/
def call (a : WNELAddon) (c : ProcessCall) : WNELAddon :=
  { a with processLog := a.processLog ++ [c] }

/-- Method `WNELAddon::isEnabled()`. -/
def isEnabled (a : WNELAddon) : Bool :=
  a.m_enabled

/-- Lookup `WNELAddon::getExternalWallpaperById`: the first record with that id, else a
default-constructed record. -/
def getExternalWallpaperById (a : WNELAddon) (id : String) : ExternalWallpaperInfo :=
  (a.m_externalWallpapers.find? (fun info => info.id == id)).getD {}

/-- Test `WNELAddon::hasExternalWallpaper`. -/
def hasExternalWallpaper (a : WNELAddon) (id : String) : Bool :=
  a.m_externalWallpapers.any (fun info => info.id == id)

/-- Slot `WNELAddon::onProcessFinished`: the pointer is dropped without deleting the
object. -/
def onProcessFinished (a : WNELAddon) (_e : ExitInfo) : WNELAddon :=
  let a := match a.m_wallpaperProcess with
    | some _ => { a with m_wallpaperProcess := none }
    | none => a
  let a := { a with m_currentWallpaperId := "" }
  a.emit .wallpaperStopped

/-- The held process finishes: `QProcess` reports it and runs the connected slot. -/
def processFinished (a : WNELAddon) (e : ExitInfo) : WNELAddon :=
  let a := match a.m_wallpaperProcess with
    | some p => a.call (.finished p)
    | none => a
  a.onProcessFinished e

/-- Method `WNELAddon::stopWallpaper()`. The signals are disconnected first, so a finish
inside a wait runs no slot. -/
def stopWallpaper (a : WNELAddon) (o : StopOutcome) : WNELAddon :=
  match a.m_wallpaperProcess with
  | none => a
  | some p =>
    let a := a.call (.disconnect p)
    let a := a.call (.terminate p)
    let a := match o.afterTerminate with
      | some _ => a.call (.finished p)
      | none =>
        let a := a.call (.kill p)
        match o.afterKill with
        | some _ => a.call (.finished p)
        | none => a
    let a := a.call (.deleteLater p)
    let a := { a with m_wallpaperProcess := none }
    let a := { a with m_currentWallpaperId := "" }
    a.emit .wallpaperStopped

/-- The conversion loop over `additionalArgs` (`WNELAddon.cpp` lines 535-574). A flag
that takes a value consumes the next element when there is one; in last position it
matches no branch and is skipped. -/
def convertArguments : List String → List String
  | [] => []
  | [arg] =>
    if arg == "--silent" then ["--silent"]
    else if arg == "--no-loop" then ["--no-loop"]
    else if arg == "--no-hardware-decode" then ["--no-hardware-decode"]
    else if arg == "--noautomute" then ["--noautomute"]
    else []
  | arg :: next :: rest =>
    if arg == "--volume" then
      (match QString.toInt next with
        | some volumePercent => ["--volume", formatHundredths volumePercent]
        | none => []) ++ convertArguments rest
    else if arg == "--fps" then ["--fps", next] ++ convertArguments rest
    else if arg == "--screen-root" then ["--output", next] ++ convertArguments rest
    else if arg == "--silent" then "--silent" :: convertArguments (next :: rest)
    else if arg == "--scaling" then ["--scaling", next] ++ convertArguments rest
    else if arg == "--no-loop" then "--no-loop" :: convertArguments (next :: rest)
    else if arg == "--no-hardware-decode" then
      "--no-hardware-decode" :: convertArguments (next :: rest)
    else if arg == "--mpv-options" then ["--mpv-options", next] ++ convertArguments rest
    else if arg == "--log-level" then ["--log-level", next] ++ convertArguments rest
    else if arg == "--noautomute" then "--noautomute" :: convertArguments (next :: rest)
    else convertArguments (next :: rest)

/-- Argument list built by `launchExternalWallpaper` (`WNELAddon.cpp` lines 495-577). -/
def launchArguments (config : ConfigManager) (info : ExternalWallpaperInfo)
    (wallpaperId : String) (additionalArgs : List String) : List String :=
  let args : List String := []
  let screenRoot := config.getWallpaperScreenRoot wallpaperId
  let args := if !screenRoot.isEmpty then args ++ ["--output", screenRoot] else args
  let volume := config.getWallpaperMasterVolume wallpaperId
  let args := if volume != 15 then args ++ ["--volume", formatHundredths volume] else args
  let args := if config.getWallpaperNoAutoMute wallpaperId then args ++ ["--noautomute"] else args
  let args := if config.getWallpaperNoAudioProcessing wallpaperId
    then args ++ ["--no-audio-processing"] else args
  let args := if config.getWallpaperSilent wallpaperId then args ++ ["--silent"] else args
  let audioDevice := config.getWallpaperAudioDevice wallpaperId
  let args := if !audioDevice.isEmpty && audioDevice != "default"
    then args ++ ["--audio-device", audioDevice] else args
  let args := args ++ convertArguments additionalArgs
  args ++ [info.symlinkPath]

/-- The part of that list that comes from the per-wallpaper configuration
(`WNELAddon.cpp` lines 495-532), before the converted `additionalArgs`. -/
def settingsArguments (config : ConfigManager) (wallpaperId : String) : List String :=
  let args : List String := []
  let screenRoot := config.getWallpaperScreenRoot wallpaperId
  let args := if !screenRoot.isEmpty then args ++ ["--output", screenRoot] else args
  let volume := config.getWallpaperMasterVolume wallpaperId
  let args := if volume != 15 then args ++ ["--volume", formatHundredths volume] else args
  let args := if config.getWallpaperNoAutoMute wallpaperId then args ++ ["--noautomute"] else args
  let args := if config.getWallpaperNoAudioProcessing wallpaperId
    then args ++ ["--no-audio-processing"] else args
  let args := if config.getWallpaperSilent wallpaperId then args ++ ["--silent"] else args
  let audioDevice := config.getWallpaperAudioDevice wallpaperId
  let args := if !audioDevice.isEmpty && audioDevice != "default"
    then args ++ ["--audio-device", audioDevice] else args
  args

/-- The flags of that part that are followed by a value. -/
def settingsValueFlags : List String :=
  ["--output", "--volume", "--audio-device"]

/-- The options the conversion loop recognises, each with the value it carries. -/
inductive RecognisedOption where
  | volume (value : String)
  | fps (value : String)
  | screenRoot (value : String)
  | scaling (value : String)
  | mpvOptions (value : String)
  | logLevel (value : String)
  | silent
  | noLoop
  | noHardwareDecode
  | noAutoMute
  deriving DecidableEq, Repr

/-- The elements an option occupies in `additionalArgs`. -/
def RecognisedOption.tokens : RecognisedOption → List String
  | .volume v => ["--volume", v]
  | .fps v => ["--fps", v]
  | .screenRoot v => ["--screen-root", v]
  | .scaling v => ["--scaling", v]
  | .mpvOptions v => ["--mpv-options", v]
  | .logLevel v => ["--log-level", v]
  | .silent => ["--silent"]
  | .noLoop => ["--no-loop"]
  | .noHardwareDecode => ["--no-hardware-decode"]
  | .noAutoMute => ["--noautomute"]

/-- The image of an option in the translation table: the screen root becomes an output,
a volume that reads as an integer N becomes N/100 with two decimals and any other
volume becomes nothing, every other option is copied. -/
def RecognisedOption.image : RecognisedOption → List String
  | .volume v =>
    match QString.toInt v with
    | some n => ["--volume", formatHundredths n]
    | none => []
  | .screenRoot v => ["--output", v]
  | o => o.tokens

/-- The list `additionalArgs` made of the given options, in order. -/
def optionTokens (opts : List RecognisedOption) : List String :=
  opts.foldr (fun o acc => o.tokens ++ acc) []

/-- The in-order concatenation of the images of the given options. -/
def optionImages (opts : List RecognisedOption) : List String :=
  opts.foldr (fun o acc => o.image ++ acc) []

/-- Method `WNELAddon::launchExternalWallpaper(wallpaperId, additionalArgs)`; the result
is the returned flag and the state afterwards. -/
def launchExternalWallpaper (a : WNELAddon) (config : ConfigManager) (env : Environment)
    (wallpaperId : String) (additionalArgs : List String) (o : LaunchOutcome) :
    Bool × WNELAddon :=
  if !a.m_enabled then (false, a)
  else
    let info := a.getExternalWallpaperById wallpaperId
    if info.id.isEmpty then (false, a)
    else
      let a := a.stopWallpaper o.stop
      let binaryPath := config.wnelBinaryPath
      if !env.fileExists binaryPath then
        (false, a.emit (.errorOccurred ("WNEL binary not found at: " ++ binaryPath)))
      else if !env.isExecutable binaryPath then
        (false, a.emit (.errorOccurred ("WNEL binary is not executable: " ++ binaryPath)))
      else if !env.fileExists info.symlinkPath then
        (false, a.emit (.errorOccurred
          ("External wallpaper file not found: " ++ info.symlinkPath)))
      else
        let p := a.nextProcess
        let a := { a.call (.create p) with m_wallpaperProcess := some p, nextProcess := p + 1 }
        let args := launchArguments config info wallpaperId additionalArgs
        let a := a.call (.start p binaryPath args)
        if !o.started then
          let a := a.emit (.errorOccurred "Failed to start WNEL process")
          let a := a.call (.deleteLater p)
          (false, { a with m_wallpaperProcess := none })
        else
          let a := { a with m_currentWallpaperId := wallpaperId }
          (true, a.emit (.wallpaperLaunched wallpaperId))

/-- Method `WNELAddon::getCurrentWallpaper()`. -/
def getCurrentWallpaper (a : WNELAddon) : String :=
  a.m_currentWallpaperId

/-- Method `WNELAddon::isWallpaperRunning()`: a process is held and its state is
`QProcess::Running`. `running` tells, for each process object, whether its state is
`Running` at the moment of the call. -/
def isWallpaperRunning (a : WNELAddon) (running : Nat → Bool) : Bool :=
  match a.m_wallpaperProcess with
  | some p => running p
  | none => false

/-- Events that drive the launcher: a launch call, a stop call, and the held process
finishing on its own. -/
inductive Event where
  | launch (config : ConfigManager) (env : Environment) (wallpaperId : String)
      (additionalArgs : List String) (o : LaunchOutcome)
  | stop (o : StopOutcome)
  | finished (e : ExitInfo)

/-- One event applied to a state. -/
def step (a : WNELAddon) : Event → WNELAddon
  | .launch config env wallpaperId additionalArgs o =>
      (a.launchExternalWallpaper config env wallpaperId additionalArgs o).2
  | .stop o => a.stopWallpaper o
  | .finished e => a.processFinished e

/-- The state after a sequence of events. -/
def run (a : WNELAddon) (es : List Event) : WNELAddon :=
  es.foldl step a

/-- The state the constructor leaves once the external wallpapers were read. -/
def initial (enabled : Bool) (path : String) (wallpapers : List ExternalWallpaperInfo) :
    WNELAddon :=
  { m_enabled := enabled, m_externalWallpapersPath := path,
    m_externalWallpapers := wallpapers }

end WNELAddon

/-! ## MainWindow launch path (`src/ui/MainWindow.cpp`) -/

/-- Modelled from the spec: the enumeration `LaunchSource` is declared in
`MainWindow.h`, which is not among the sources; its three values are the ones
`MainWindow.cpp` names. -/
inductive LaunchSource where
  | Manual
  | Playlist
  | StartupRestore
  deriving DecidableEq, Repr

/-- The part of the main window the launch path reads and writes: the configuration
singleton, the two launchers, and the launch flags. `m_propertiesPanel` records
whether that pointer is set. -/
structure MainWindow where
  m_config : ConfigManager
  m_wallpaperManager : WallpaperManager := {}
  m_wnelAddon : WNELAddon := {}
  m_propertiesPanel : Bool := true
  m_isClosing : Bool := false
  m_isLaunchingWallpaper : Bool := false
  m_lastLaunchSource : LaunchSource := .Manual
  deriving DecidableEq, Repr

namespace MainWindow

/-- Slot `MainWindow::onWallpaperStopped()`. -/
def onWallpaperStopped (w : MainWindow) : MainWindow :=
  let w := if !w.m_isClosing && !w.m_isLaunchingWallpaper
    then { w with m_config := w.m_config.setLastSelectedWallpaper "" }
    else w
  { w with m_isLaunchingWallpaper := false }

/-- Delivery of signals emitted by the workshop launcher: `wallpaperStopped` is
connected to `onWallpaperStopped`; the other signals only reach the log view and
message boxes. The slot writes nothing the launchers read, so running it after the
emitting call has returned leaves the same state as running it at the `emit`. -/
def deliver (w : MainWindow) (signals : List Signal) : MainWindow :=
  signals.foldl (fun w s => if s = Signal.wallpaperStopped then w.onWallpaperStopped else w) w

/-- Call of `m_wallpaperManager->stopWallpaper()` with its signals delivered. -/
def stopWallpaperManager (w : MainWindow) (o : StopOutcome) : MainWindow :=
  let before := w.m_wallpaperManager.signals.length
  let m := w.m_wallpaperManager.stopWallpaper o
  deliver { w with m_wallpaperManager := m } (m.signals.drop before)

/-- The list `additionalArgs` built by `onWallpaperLaunched`
(`MainWindow.cpp` lines 1349-1424). -/
def additionalArguments (config : ConfigManager) (wallpaper : WallpaperInfo)
    (hasPropertiesPanel : Bool) : List String :=
  let args : List String := []
  let args :=
    if hasPropertiesPanel then
      let args := if config.getWallpaperSilent wallpaper.id then args ++ ["--silent"] else args
      let volume := config.getWallpaperMasterVolume wallpaper.id
      let args := if volume != 15 then args ++ ["--volume", toString volume] else args
      let args := if config.getWallpaperNoAutoMute wallpaper.id
        then args ++ ["--noautomute"] else args
      let args := if config.getWallpaperNoAudioProcessing wallpaper.id
        then args ++ ["--no-audio-processing"] else args
      let audioDevice := config.getWallpaperAudioDevice wallpaper.id
      let args := if !audioDevice.isEmpty && audioDevice != "default"
        then args ++ ["--audio-device", audioDevice] else args
      let screenRoot := config.getWallpaperScreenRoot wallpaper.id
      let screenRoot :=
        if screenRoot.isEmpty then
          let screenRoot := config.screenRoot
          if screenRoot.isEmpty then "DP-4" else screenRoot
        else screenRoot
      let customScreenRoot :=
        (config.getWallpaperValue wallpaper.id "custom_screen_root" QVariant.invalid).toQString
      let effectiveScreen := if customScreenRoot.isEmpty then screenRoot else customScreenRoot
      let args :=
        if !effectiveScreen.isEmpty then
          if wallpaper.type == "External" then args ++ ["--output", effectiveScreen]
          else args ++ ["--screen-root", effectiveScreen]
        else args
      let windowGeometry :=
        (config.getWallpaperValue wallpaper.id "window_geometry" QVariant.invalid).toQString
      let args := if !windowGeometry.isEmpty then args ++ ["--window", windowGeometry] else args
      let fps := (config.getWallpaperValue wallpaper.id "fps" (QVariant.int 30)).toInt
      let args := if fps != 30 then args ++ ["--fps", toString fps] else args
      let backgroundId :=
        (config.getWallpaperValue wallpaper.id "background_id" QVariant.invalid).toQString
      let args := if !backgroundId.isEmpty then args ++ ["--bg", backgroundId] else args
      let scaling :=
        (config.getWallpaperValue wallpaper.id "scaling" (QVariant.string "default")).toQString
      let args := if scaling != "default" then args ++ ["--scaling", scaling] else args
      let clamping :=
        (config.getWallpaperValue wallpaper.id "clamping" (QVariant.string "clamp")).toQString
      let args := if clamping != "clamp" then args ++ ["--clamping", clamping] else args
      let args :=
        if (config.getWallpaperValue wallpaper.id "disable_mouse" (QVariant.bool false)).toBool
        then args ++ ["--disable-mouse"] else args
      let args :=
        if (config.getWallpaperValue wallpaper.id "disable_parallax" (QVariant.bool false)).toBool
        then args ++ ["--disable-parallax"] else args
      let args :=
        if (config.getWallpaperValue wallpaper.id "no_fullscreen_pause"
          (QVariant.bool false)).toBool
        then args ++ ["--no-fullscreen-pause"] else args
      args
    else args
  let assetsDir := config.getAssetsDir
  if !assetsDir.isEmpty then args ++ ["--assets-dir", assetsDir] else args

/-- The launch proper (`MainWindow.cpp` lines 1426-1442): the renderer that is not used
is stopped, then the other one launches. `otherStop` is what that stop observes, `o`
what the launch itself observes. -/
def launchRenderer (w : MainWindow) (env : Environment) (wallpaper : WallpaperInfo)
    (additionalArgs : List String) (otherStop : StopOutcome) (o : LaunchOutcome) :
    Bool × MainWindow :=
  if wallpaper.type == "External" && w.m_wnelAddon.isEnabled then
    let w := w.stopWallpaperManager otherStop
    let r := w.m_wnelAddon.launchExternalWallpaper w.m_config env wallpaper.id
      additionalArgs o
    (r.1, { w with m_wnelAddon := r.2 })
  else
    let w := { w with m_wnelAddon := w.m_wnelAddon.stopWallpaper otherStop }
    let before := w.m_wallpaperManager.signals.length
    let r := w.m_wallpaperManager.launchWallpaper w.m_config env wallpaper.id
      additionalArgs o
    (r.1, deliver { w with m_wallpaperManager := r.2 } (r.2.signals.drop before))

/-- What is saved after a successful launch, by launch source
(`MainWindow.cpp` lines 1477-1492). -/
def saveLaunchConfiguration (w : MainWindow) (wallpaper : WallpaperInfo)
    (launchedFromPlaylist : Bool) : MainWindow :=
  if launchedFromPlaylist then
    let w := { w with m_config := w.m_config.setLastSelectedWallpaper "" }
    { w with m_config := w.m_config.setLastSessionUsedPlaylist true }
  else if w.m_lastLaunchSource == LaunchSource.StartupRestore then w
  else
    let w := { w with m_config := w.m_config.setLastSelectedWallpaper wallpaper.id }
    { w with m_config := w.m_config.setLastSessionUsedPlaylist false }

/-- Slot `MainWindow::onWallpaperLaunched(wallpaper)`. The settings dialog opened when
no engine path is configured and the playlist switching after a successful launch
belong to classes outside the sources and are left out. -/
def onWallpaperLaunched (w : MainWindow) (env : Environment) (wallpaper : WallpaperInfo)
    (otherStop : StopOutcome) (o : LaunchOutcome) : MainWindow :=
  let w := { w with m_isLaunchingWallpaper := true }
  if w.m_config.wallpaperEnginePath.isEmpty then w
  else
    let launchedFromPlaylist := w.m_lastLaunchSource == LaunchSource.Playlist
    let additionalArgs := additionalArguments w.m_config wallpaper w.m_propertiesPanel
    let r := w.launchRenderer env wallpaper additionalArgs otherStop o
    if r.1 then r.2.saveLaunchConfiguration wallpaper launchedFromPlaylist
    else r.2

/-- Method `MainWindow::launchWallpaperWithSource(wallpaper, source)`. -/
def launchWallpaperWithSource (w : MainWindow) (env : Environment)
    (wallpaper : WallpaperInfo) (source : LaunchSource) (otherStop : StopOutcome)
    (o : LaunchOutcome) : MainWindow :=
  onWallpaperLaunched { w with m_lastLaunchSource := source } env wallpaper otherStop o

end MainWindow

/-! ## Argument lists read as options -/

/-- An argument list read as a renderer reads it: a flag that takes a value (one of
`valueFlags`) is paired with the element after it, every other element stands alone. -/
def readOptions (valueFlags : List String) : List String → List (String × Option String)
  | [] => []
  | [a] => [(a, none)]
  | a :: v :: rest =>
    if valueFlags.contains a then (a, some v) :: readOptions valueFlags rest
    else (a, none) :: readOptions valueFlags (v :: rest)

/-- The screen options among the options of an argument list. -/
def screenOptions (valueFlags : List String) (args : List String) :
    List (String × Option String) :=
  (readOptions valueFlags args).filter (fun o => o.1 == "--output" || o.1 == "--screen-root")

/-- The volume options among the options of an argument list. -/
def volumeOptions (valueFlags : List String) (args : List String) :
    List (String × Option String) :=
  (readOptions valueFlags args).filter (fun o => o.1 == "--volume")

/-! ## WallpaperSettings (`src/ui/PropertiesPanel.h`, `src/ui/PropertiesPanel.cpp`) -/

/-- The record `WallpaperSettings` with its default member values. -/
structure WallpaperSettings where
  silent : Bool := false
  volume : Int := 15
  noAutoMute : Bool := false
  noAudioProcessing : Bool := false
  audioDevice : String := "default"
  fps : Int := 30
  windowGeometry : String := ""
  screenRoot : String := ""
  customScreenRoot : String := ""
  backgroundId : String := ""
  scaling : String := "default"
  clamping : String := "clamp"
  disableMouse : Bool := false
  disableParallax : Bool := false
  noFullscreenPause : Bool := false
  noLoop : Bool := false
  noHardwareDecode : Bool := false
  forceX11 : Bool := false
  forceWayland : Bool := false
  verbose : Bool := false
  logLevel : String := "info"
  mpvOptions : String := ""
  deriving DecidableEq, Repr

namespace WallpaperSettings

/-- Method `WallpaperSettings::toCommandLineArgs(bool isExternalWallpaper)`. -/
def toCommandLineArgs (s : WallpaperSettings) (isExternalWallpaper : Bool) : List String :=
  let args : List String := []
  let args := if s.silent then args ++ ["--silent"] else args
  let args := if s.volume != 15
    then args ++ ["--volume", formatHundredths s.volume] else args
  let args := if s.noAutoMute then args ++ ["--noautomute"] else args
  let args := if s.fps != 30 then args ++ ["--fps", toString s.fps] else args
  let args :=
    if !s.customScreenRoot.isEmpty || !s.screenRoot.isEmpty then
      let screenValue := if !s.customScreenRoot.isEmpty then s.customScreenRoot else s.screenRoot
      if isExternalWallpaper then args ++ ["--output", screenValue]
      else args ++ ["--screen-root", screenValue]
    else args
  let args := if s.scaling != "default" then args ++ ["--scaling", s.scaling] else args
  let args := if s.noLoop then args ++ ["--no-loop"] else args
  let args := if s.noHardwareDecode then args ++ ["--no-hardware-decode"] else args
  let args := if s.forceX11 then args ++ ["--force-x11"] else args
  let args := if s.forceWayland then args ++ ["--force-wayland"] else args
  let args := if s.verbose then args ++ ["--verbose"] else args
  let args := if s.logLevel != "info" then args ++ ["--log-level", s.logLevel] else args
  let args := if !s.mpvOptions.isEmpty then args ++ ["--mpv-options", s.mpvOptions] else args
  args

/-- The flags of the settings translator that are followed by a value. -/
def valueFlags : List String :=
  ["--volume", "--fps", "--output", "--screen-root", "--scaling", "--log-level",
    "--mpv-options"]

end WallpaperSettings

/-! ## Scanning wallpaper directories (`src/core/WallpaperManager.cpp`) -/

/-- Decimal text to an unsigned 64-bit number as `QString::toULongLong(&ok)` reads it in
the C locale: surrounding white space is ignored, a plus sign is allowed, a minus sign
is not, and a value outside the range fails. `none` stands for `ok == false`. -/
def QString.toULongLong (s : String) : Option Nat :=
  let t := s.trim
  let digits := if t.startsWith "+" then t.drop 1 else t
  match parseDigits digits with
  | some n => if n ≤ 18446744073709551615 then some n else none
  | none => none

/-- Group 1 of the first match of the pattern `/workshop/content/431960/(\d+)` in a
text: the digits that follow the first occurrence of the literal part that has a digit
after it. -/
def workshopIdMatch : List Char → Option (List Char)
  | [] => none
  | c :: cs =>
    let rest := (c :: cs).drop "/workshop/content/431960/".data.length
    if "/workshop/content/431960/".data.isPrefixOf (c :: cs) ∧
        rest.takeWhile Char.isDigit ≠ [] then
      some (rest.takeWhile Char.isDigit)
    else workshopIdMatch cs

namespace WallpaperManager

/-- Method `WallpaperManager::extractWorkshopId(dirPath)`. -/
def extractWorkshopId (dirPath : String) : String :=
  let dirName := QFileInfo.fileName dirPath
  if (QString.toULongLong dirName).isSome then dirName
  else
    match workshopIdMatch dirPath.data with
    | some id => String.mk id
    | none => dirName

/-- Method `WallpaperManager::extractProperties(projectJson)`. -/
def extractProperties (projectJson : QJsonObject) : QJsonObject :=
  let properties : QJsonObject := []
  let general := (QJsonObject.value projectJson "general").toObject
  let properties :=
    if QJsonObject.contains general "properties" then
      let generalProps := (QJsonObject.value general "properties").toObject
      QJsonObject.merge properties generalProps
    else properties
  let properties :=
    if QJsonObject.contains projectJson "properties" then
      let rootProps := (QJsonObject.value projectJson "properties").toObject
      QJsonObject.merge properties rootProps
    else properties
  properties

/-- Method `WallpaperManager::parseProjectJson(projectPath)`. -/
def parseProjectJson (fs : FileSystem) (projectPath : String) : WallpaperInfo :=
  let wallpaper : WallpaperInfo := {}
  match fs.readAll projectPath with
  | none => wallpaper
  | some data =>
    if QJsonDocument.parseFailed data then wallpaper
    else
      let root := (QJsonDocument.fromJson data).object
      let wallpaper := { wallpaper with id := extractWorkshopId (QFileInfo.dir projectPath) }
      let wallpaper := { wallpaper with name := (QJsonObject.value root "title").toQString }
      let wallpaper :=
        { wallpaper with description := (QJsonObject.value root "description").toQString }
      let wallpaper := { wallpaper with type := (QJsonObject.value root "type").toQString }
      let wallpaper := { wallpaper with fileSize := fs.size (QFileInfo.dir projectPath) }
      let tagsArray := (QJsonObject.value root "tags").toArray
      let tags := tagsArray.map (fun tagValue => tagValue.toQString)
      let wallpaper := { wallpaper with tags := tags }
      { wallpaper with properties := extractProperties root }

/-- The text a property value is written as in `generatePropertyArguments`
(`WallpaperManager.cpp` lines 555-569). -/
def propertyValueText (lib : TextFormats) (value : QJsonValue) : String :=
  if value.isBool then (if value.toBool then "true" else "false")
  else if value.isDouble then lib.numberText value.toDouble
  else if value.isString then value.toQString
  else
    let valueStr := lib.compactJson value
    String.mk ((valueStr.data.drop 1).take (valueStr.length - 2))

/-- The list `propertyPairs` built by the loop of `generatePropertyArguments`
(`WallpaperManager.cpp` lines 549-574). -/
def propertyPairs (lib : TextFormats) (properties : QJsonObject) : List String :=
  properties.filterMap (fun m =>
    let propName := m.1
    let propObj := m.2.toObject
    if QJsonObject.contains propObj "value" then
      some (propName ++ "=" ++ propertyValueText lib (QJsonObject.value propObj "value"))
    else none)

/-- Method `WallpaperManager::generatePropertyArguments(projectJsonPath)`. -/
def generatePropertyArguments (lib : TextFormats) (fs : FileSystem)
    (projectJsonPath : String) : List String :=
  match fs.readAll projectJsonPath with
  | none => []
  | some data =>
    if QJsonDocument.parseFailed data then []
    else
      let projectJson := (QJsonDocument.fromJson data).object
      let properties := extractProperties projectJson
      let pairs := propertyPairs lib properties
      if !pairs.isEmpty then "--set-property" :: pairs else []

end WallpaperManager

/-! ## The property panel (`src/ui/PropertiesPanel.cpp`) -/

namespace PropertiesPanel

/-- Method `PropertiesPanel::getProjectJsonPath(wallpaperId)`. -/
def getProjectJsonPath (m_currentWallpaper : WallpaperInfo) (wallpaperId : String) : String :=
  if m_currentWallpaper.id == wallpaperId && !m_currentWallpaper.projectPath.isEmpty
  then m_currentWallpaper.projectPath else ""

/-- The extraction written out inside `loadPropertiesFromProjectJson`
(`PropertiesPanel.cpp` lines 1925-1947). -/
def mergedProperties (projectJson : QJsonObject) : QJsonObject :=
  let properties : QJsonObject := []
  let general := (QJsonObject.value projectJson "general").toObject
  let properties :=
    if QJsonObject.contains general "properties" then
      let generalProps := (QJsonObject.value general "properties").toObject
      generalProps.foldl (fun properties it => QJsonObject.insert properties it.1 it.2)
        properties
    else properties
  let properties :=
    if QJsonObject.contains projectJson "properties" then
      let rootProps := (QJsonObject.value projectJson "properties").toObject
      rootProps.foldl (fun properties it => QJsonObject.insert properties it.1 it.2)
        properties
    else properties
  properties

/-- Method `PropertiesPanel::loadPropertiesFromProjectJson(wallpaperId)`. -/
def loadPropertiesFromProjectJson (m_currentWallpaper : WallpaperInfo) (fs : FileSystem)
    (wallpaperId : String) : QJsonObject :=
  let projectPath := getProjectJsonPath m_currentWallpaper wallpaperId
  if projectPath.isEmpty then []
  else
    match fs.readAll projectPath with
    | none => []
    | some data =>
      if QJsonDocument.parseFailed data then []
      else mergedProperties (QJsonDocument.fromJson data).object

end PropertiesPanel

/-! ## Imported media (`src/addons/WNELAddon.cpp`) -/

/-- What an import observes outside the program: whether the directory of external
wallpapers is there or could be made, whether the media file exists, the six random
characters of the new id, whether the wallpaper directory could be made, the absolute
path, size and base facts of the media file, the time, the probed codec and sizes, and
whether the symlink, the video preview and the project file could be written. -/
structure ImportOutcome where
  directoryReady : Bool
  mediaExists : Bool
  randomCharacters : String
  directoryCreated : Bool
  absoluteFilePath : String
  imageSize : Int × Int
  videoSize : Int × Int
  fileSize : Nat
  currentDateTime : QDateTime
  videoCodec : String
  symlinkCreated : Bool
  previewGenerated : Bool
  projectWritten : Bool

namespace WNELAddon

/-- Method `WNELAddon::detectMediaType(filePath)`. -/
def detectMediaType (filePath : String) : String :=
  let suffix := QString.toLower (QFileInfo.suffix filePath)
  let imageFormats := ["png", "jpg", "jpeg", "bmp", "tiff", "webp"]
  let videoFormats := ["mp4", "avi", "mkv", "mov", "webm", "m4v"]
  let gifFormats := ["gif"]
  if imageFormats.contains suffix then "image"
  else if videoFormats.contains suffix then "video"
  else if gifFormats.contains suffix then "gif"
  else "unknown"

/-- Method `WNELAddon::getMediaResolution(filePath)`; the sizes the image reader and
the video probe report are inputs, (-1, -1) being the invalid size. -/
def getMediaResolution (o : ImportOutcome) (filePath : String) : Int × Int :=
  let mediaType := detectMediaType filePath
  if mediaType == "image" || mediaType == "gif" then o.imageSize
  else if mediaType == "video" then o.videoSize
  else (-1, -1)

/-- Method `WNELAddon::generateProjectJsonContent(info)`. -/
def generateProjectJsonContent (lib : TextFormats) (info : ExternalWallpaperInfo) : JsonText :=
  let project : QJsonObject := []
  let project := QJsonObject.insert project "external" (.bool true)
  let project := QJsonObject.insert project "title" (.string info.name)
  let project := QJsonObject.insert project "type" (.string info.type)
  let project := QJsonObject.insert project "file"
    (.string (QFileInfo.fileName info.symlinkPath))
  let project :=
    if !info.codec.isEmpty then QJsonObject.insert project "codec" (.string info.codec)
    else project
  let project :=
    if !(info.width ≤ 0 ∨ info.height ≤ 0) then
      let project := QJsonObject.insert project "width" (QJsonValue.ofInt info.width)
      QJsonObject.insert project "height" (QJsonValue.ofInt info.height)
    else project
  let project := QJsonObject.insert project "created" (.string (lib.isoDate info.created))
  let project := QJsonObject.insert project "updated" (.string (lib.isoDate info.updated))
  let project := QJsonObject.insert project "originalPath" (.string info.originalPath)
  QJsonDocument.toJson (.ofObject project)

/-- Method `WNELAddon::parseProjectJson(projectPath)`. -/
def parseProjectJson (lib : TextFormats) (fs : FileSystem) (projectPath : String) :
    ExternalWallpaperInfo :=
  let info : ExternalWallpaperInfo := {}
  match fs.readAll projectPath with
  | none => info
  | some data =>
    let doc := QJsonDocument.fromJson data
    if !doc.isObject then info
    else
      let project := doc.object
      if !(QJsonObject.value project "external").toBool then info
      else
        let wallpaperDir := fs.absolutePath projectPath
        let info := { info with id := QDir.dirName (QFileInfo.dir projectPath) }
        let info := { info with name := (QJsonObject.value project "title").toQString }
        let info := { info with type := (QJsonObject.value project "type").toQString }
        let info := { info with codec := (QJsonObject.value project "codec").toQString }
        let info := { info with projectPath := projectPath }
        let info :=
          { info with originalPath := (QJsonObject.value project "originalPath").toQString }
        let info :=
          if QJsonObject.contains project "width" && QJsonObject.contains project "height"
          then { info with width := (QJsonObject.value project "width").toInt,
                           height := (QJsonObject.value project "height").toInt }
          else info
        let info := { info with
          created := lib.fromIsoDate (QJsonObject.value project "created").toQString }
        let info := { info with
          updated := lib.fromIsoDate (QJsonObject.value project "updated").toQString }
        let fileName := (QJsonObject.value project "file").toQString
        let info :=
          if !fileName.isEmpty
          then { info with symlinkPath := QDir.filePath wallpaperDir fileName } else info
        let previewPath := QDir.filePath wallpaperDir "preview.png"
        let info :=
          if fs.fileExists previewPath then { info with previewPath := previewPath }
          else if info.type == "image" || info.type == "gif"
          then { info with previewPath := info.symlinkPath } else info
        if fs.fileExists info.symlinkPath
        then { info with fileSize := fs.size info.symlinkPath } else info

/-- Method `WNELAddon::addExternalWallpaper(mediaPath, customName)`; the result is the
returned id (empty on failure) and the state afterwards. The fields the method assigns
one by one are given together: those set before the symlink is made, then the symlink,
preview and project paths. -/
def addExternalWallpaper (a : WNELAddon) (mediaPath customName : String) (o : ImportOutcome) :
    String × WNELAddon :=
  if !a.m_enabled then ("", a)
  else if !o.directoryReady then ("", a)
  else if !o.mediaExists then ("", a)
  else
    let wallpaperId := "ext_" ++ o.randomCharacters
    let wallpaperDir := QDir.filePath a.m_externalWallpapersPath wallpaperId
    if !o.directoryCreated then ("", a)
    else
      let type := detectMediaType mediaPath
      let resolution := getMediaResolution o mediaPath
      let info : ExternalWallpaperInfo :=
        { id := wallpaperId
          name := if customName.isEmpty then QFileInfo.baseName mediaPath else customName
          originalPath := o.absoluteFilePath
          type := type
          width := resolution.1
          height := resolution.2
          fileSize := o.fileSize
          created := o.currentDateTime
          updated := o.currentDateTime
          codec := if type == "video" then o.videoCodec else "" }
      let symlinkPath := QDir.filePath wallpaperDir ("media." ++ QFileInfo.suffix mediaPath)
      if !o.symlinkCreated then ("", a)
      else
        let previewPath := QDir.filePath wallpaperDir "preview.png"
        let info := { info with
          symlinkPath := symlinkPath
          previewPath :=
            if type == "image" then symlinkPath
            else if type == "gif" then symlinkPath
            else if type == "video" then (if o.previewGenerated then previewPath else "")
            else ""
          projectPath := QDir.filePath wallpaperDir "project.json" }
        if !o.projectWritten then ("", a)
        else
          let a := { a with m_externalWallpapers := a.m_externalWallpapers ++ [info] }
          (wallpaperId, a.emit (.externalWallpaperAdded wallpaperId))

end WNELAddon

/-! ## Saving and resetting properties (`src/ui/PropertiesPanel.cpp`) -/

namespace FileSystem

/-- The disk after `path` was written with `content`; sizes and directory listings are
not followed. -/
def write (fs : FileSystem) (path : String) (content : JsonText) : FileSystem :=
  { fs with
    fileExists := fun p => if p = path then true else fs.fileExists p
    readAll := fun p => if p = path then some content else fs.readAll p }

/-- The disk after `QFile::remove(path)` succeeded. -/
def remove (fs : FileSystem) (path : String) : FileSystem :=
  { fs with
    fileExists := fun p => if p = path then false else fs.fileExists p
    readAll := fun p => if p = path then none else fs.readAll p }

/-- The disk after `QFile::copy(source, target)` succeeded: the target holds what the
source holds. -/
def copy (fs : FileSystem) (source target : String) : FileSystem :=
  { fs with
    fileExists := fun p => if p = target then true else fs.fileExists p
    readAll := fun p => if p = target then fs.readAll source else fs.readAll p }

/-- The disk after `QFile::rename(source, target)` succeeded. -/
def rename (fs : FileSystem) (source target : String) : FileSystem :=
  (fs.copy source target).remove source

end FileSystem

/-- What a save observes beyond the contents of the disk: whether the copy to the backup
goes through and whether the project file can be opened for writing. -/
structure SaveOutcome where
  copied : Bool
  writable : Bool
  deriving DecidableEq, Repr

/-- What a reset observes beyond the contents of the disk: whether the project file can
be removed and whether the backup can be renamed. -/
structure ResetOutcome where
  removed : Bool
  renamed : Bool
  deriving DecidableEq, Repr

namespace PropertiesPanel

/-- Method `PropertiesPanel::getBackupProjectJsonPath(wallpaperId)`. -/
def getBackupProjectJsonPath (m_currentWallpaper : WallpaperInfo) (wallpaperId : String) :
    String :=
  let projectPath := getProjectJsonPath m_currentWallpaper wallpaperId
  if projectPath.isEmpty then "" else projectPath ++ ".backup"

/-- The update of the project object in `savePropertiesToProjectJson`
(`PropertiesPanel.cpp` lines 2113-2132). -/
def updatedProject (projectJson properties : QJsonObject) : QJsonObject :=
  if QJsonObject.contains properties "general" then
    let generalProps := (QJsonObject.value properties "general").toObject
    if QJsonObject.contains generalProps "properties" then
      let newProperties := (QJsonObject.value generalProps "properties").toObject
      let general := (QJsonObject.value projectJson "general").toObject
      let existingProperties := (QJsonObject.value general "properties").toObject
      let existingProperties := newProperties.foldl
        (fun existingProperties it => QJsonObject.insert existingProperties it.1 it.2)
        existingProperties
      let general := QJsonObject.insert general "properties" (.object existingProperties)
      QJsonObject.insert projectJson "general" (.object general)
    else projectJson
  else projectJson

/-- Method `PropertiesPanel::savePropertiesToProjectJson(wallpaperId, properties)`; the
result is the returned flag and the disk afterwards. `QFile::copy` needs the source to
exist. -/
def savePropertiesToProjectJson (m_currentWallpaper : WallpaperInfo) (fs : FileSystem)
    (wallpaperId : String) (properties : QJsonObject) (o : SaveOutcome) :
    Bool × FileSystem :=
  let projectPath := getProjectJsonPath m_currentWallpaper wallpaperId
  if projectPath.isEmpty then (false, fs)
  else
    let backupPath := getBackupProjectJsonPath m_currentWallpaper wallpaperId
    if !fs.fileExists backupPath && !(o.copied && fs.fileExists projectPath) then (false, fs)
    else
      let fs := if !fs.fileExists backupPath then fs.copy projectPath backupPath else fs
      match fs.readAll projectPath with
      | none => (false, fs)
      | some data =>
        if QJsonDocument.parseFailed data then (false, fs)
        else
          let projectJson := (QJsonDocument.fromJson data).object
          let projectJson := updatedProject projectJson properties
          if !o.writable then (false, fs)
          else (true, fs.write projectPath (QJsonDocument.toJson (.ofObject projectJson)))

/-- Method `PropertiesPanel::resetPropertiesFromBackup(wallpaperId)`; the result is the
returned flag and the disk afterwards. -/
def resetPropertiesFromBackup (m_currentWallpaper : WallpaperInfo) (fs : FileSystem)
    (wallpaperId : String) (o : ResetOutcome) : Bool × FileSystem :=
  let projectPath := getProjectJsonPath m_currentWallpaper wallpaperId
  let backupPath := getBackupProjectJsonPath m_currentWallpaper wallpaperId
  if projectPath.isEmpty then (false, fs)
  else if !fs.fileExists backupPath then (false, fs)
  else if fs.fileExists projectPath && !o.removed then (false, fs)
  else
    let fs := if fs.fileExists projectPath then fs.remove projectPath else fs
    if !o.renamed then (false, fs)
    else (true, fs.rename backupPath projectPath)

/-- A run of save calls on one panel, each with its id, property object and outcome; the
flag tells whether every call returned true. -/
def saveAll (m_currentWallpaper : WallpaperInfo) (fs : FileSystem) :
    List (String × QJsonObject × SaveOutcome) → Bool × FileSystem
  | [] => (true, fs)
  | call :: rest =>
    let r := savePropertiesToProjectJson m_currentWallpaper fs call.1 call.2.1 call.2.2
    let rs := saveAll m_currentWallpaper r.2 rest
    (r.1 && rs.1, rs.2)

/-- Method `PropertiesPanel::saveWallpaperSettings(wallpaperId)`, with `s` the current
settings; the result is the store afterwards. -/
def saveWallpaperSettings (config : ConfigManager) (s : WallpaperSettings)
    (wallpaperId : String) : ConfigManager :=
  let config := config.setWallpaperSilent wallpaperId s.silent
  let config := config.setWallpaperMasterVolume wallpaperId s.volume
  let config := config.setWallpaperNoAutoMute wallpaperId s.noAutoMute
  let config := config.setWallpaperNoAudioProcessing wallpaperId s.noAudioProcessing
  let screenRoot := s.screenRoot
  let config :=
    if screenRoot == "DP-4" then
      let globalScreenRoot := config.screenRoot
      if globalScreenRoot.isEmpty then config.setWallpaperScreenRoot wallpaperId screenRoot
      else if globalScreenRoot != screenRoot
      then config.setWallpaperScreenRoot wallpaperId screenRoot
      else config
    else if !screenRoot.isEmpty then config.setWallpaperScreenRoot wallpaperId screenRoot
    else config
  let config :=
    if !s.customScreenRoot.isEmpty && s.customScreenRoot != screenRoot
    then config.setWallpaperValue wallpaperId "custom_screen_root"
      (.string s.customScreenRoot)
    else config
  let config := config.setWallpaperValue wallpaperId "fps" (.int s.fps)
  let config := config.setWallpaperValue wallpaperId "window_geometry"
    (.string s.windowGeometry)
  let config := config.setWallpaperValue wallpaperId "background_id" (.string s.backgroundId)
  let config := config.setWallpaperValue wallpaperId "scaling" (.string s.scaling)
  let config := config.setWallpaperValue wallpaperId "clamping" (.string s.clamping)
  let config := config.setWallpaperValue wallpaperId "disable_mouse" (.bool s.disableMouse)
  let config := config.setWallpaperValue wallpaperId "disable_parallax"
    (.bool s.disableParallax)
  let config := config.setWallpaperValue wallpaperId "no_fullscreen_pause"
    (.bool s.noFullscreenPause)
  let config := config.setWallpaperValue wallpaperId "no_loop" (.bool s.noLoop)
  let config := config.setWallpaperValue wallpaperId "no_hardware_decode"
    (.bool s.noHardwareDecode)
  let config := config.setWallpaperValue wallpaperId "force_x11" (.bool s.forceX11)
  let config := config.setWallpaperValue wallpaperId "force_wayland" (.bool s.forceWayland)
  let config := config.setWallpaperValue wallpaperId "verbose" (.bool s.verbose)
  let config := config.setWallpaperValue wallpaperId "log_level" (.string s.logLevel)
  let config := config.setWallpaperValue wallpaperId "mpv_options" (.string s.mpvOptions)
  config.setWallpaperAudioDevice wallpaperId s.audioDevice

/-- Method `PropertiesPanel::loadWallpaperSettings(wallpaperId)`; the result is the
current settings afterwards, every member of which the method assigns. -/
def loadWallpaperSettings (config : ConfigManager) (wallpaperId : String) :
    WallpaperSettings :=
  let screenRoot := config.getWallpaperScreenRoot wallpaperId
  let screenRoot :=
    if screenRoot.isEmpty then
      let screenRoot := config.screenRoot
      if screenRoot.isEmpty then "DP-4" else screenRoot
    else screenRoot
  { silent := config.getWallpaperSilent wallpaperId
    volume := config.getWallpaperMasterVolume wallpaperId
    noAutoMute := config.getWallpaperNoAutoMute wallpaperId
    noAudioProcessing := config.getWallpaperNoAudioProcessing wallpaperId
    audioDevice := config.getWallpaperAudioDevice wallpaperId
    screenRoot := screenRoot
    customScreenRoot :=
      (config.getWallpaperValue wallpaperId "custom_screen_root" .invalid).toQString
    fps := (config.getWallpaperValue wallpaperId "fps" (.int 30)).toInt
    windowGeometry :=
      (config.getWallpaperValue wallpaperId "window_geometry" .invalid).toQString
    backgroundId := (config.getWallpaperValue wallpaperId "background_id" .invalid).toQString
    scaling := (config.getWallpaperValue wallpaperId "scaling" (.string "default")).toQString
    clamping := (config.getWallpaperValue wallpaperId "clamping" (.string "clamp")).toQString
    disableMouse := (config.getWallpaperValue wallpaperId "disable_mouse" (.bool false)).toBool
    disableParallax :=
      (config.getWallpaperValue wallpaperId "disable_parallax" (.bool false)).toBool
    noFullscreenPause :=
      (config.getWallpaperValue wallpaperId "no_fullscreen_pause" (.bool false)).toBool
    noLoop := (config.getWallpaperValue wallpaperId "no_loop" (.bool false)).toBool
    noHardwareDecode :=
      (config.getWallpaperValue wallpaperId "no_hardware_decode" (.bool false)).toBool
    forceX11 := (config.getWallpaperValue wallpaperId "force_x11" (.bool false)).toBool
    forceWayland := (config.getWallpaperValue wallpaperId "force_wayland" (.bool false)).toBool
    verbose := (config.getWallpaperValue wallpaperId "verbose" (.bool false)).toBool
    logLevel := (config.getWallpaperValue wallpaperId "log_level" (.string "info")).toQString
    mpvOptions := (config.getWallpaperValue wallpaperId "mpv_options" .invalid).toQString }

end PropertiesPanel

/-! ## The stop button and the assets paths -/

/-- Slot `MainWindow::onStopWallpaperClicked()`, as far as the two launchers go (the
playlist belongs to a class outside the sources). `managerRunning` and `addonRunning`
tell which process objects are in state `Running`. -/
def MainWindow.onStopWallpaperClicked (w : MainWindow) (managerRunning addonRunning : Nat → Bool)
    (managerStop addonStop : StopOutcome) : MainWindow :=
  let w :=
    if w.m_wallpaperManager.isWallpaperRunning managerRunning
    then w.stopWallpaperManager managerStop else w
  if w.m_wnelAddon.isWallpaperRunning addonRunning
  then { w with m_wnelAddon := w.m_wnelAddon.stopWallpaper addonStop } else w

/-- Loop of `QStringList::removeDuplicates()`: an element is kept unless it was met
before. -/
def removeDuplicatesFrom : List String → List String → List String
  | _, [] => []
  | seen, x :: xs =>
    if x ∈ seen then removeDuplicatesFrom seen xs
    else x :: removeDuplicatesFrom (x :: seen) xs

/-- Method `QStringList::removeDuplicates()`: the first occurrence of each element stays. -/
def removeDuplicates (l : List String) : List String :=
  removeDuplicatesFrom [] l

namespace ConfigManager

/-- The three candidate directories of one Steam library
(`ConfigManager.cpp` lines 98-102). -/
def assetsCandidates (libraryPath : String) : List String :=
  [QDir.filePath libraryPath "steamapps/common/wallpaper_engine",
   QDir.filePath libraryPath "steamapps/common/wallpaper_engine/assets",
   QDir.filePath libraryPath "steamapps/common/wallpaper_engine/bin/assets"]

/-- One round of the inner loop of `findPossibleAssetsPaths`
(`ConfigManager.cpp` lines 104-113). -/
def addAssetsCandidate (dirExists : String → Bool) (paths : List String)
    (candidate : String) : List String :=
  if dirExists candidate then
    let paths := paths ++ [candidate]
    if dirExists (candidate ++ "/shaders") then candidate :: paths else paths
  else paths

/-- Method `ConfigManager::findPossibleAssetsPaths()`; `dirExists` is `QDir(path).exists()`. -/
def findPossibleAssetsPaths (c : ConfigManager) (dirExists : String → Bool) : List String :=
  let paths : List String := []
  let libraryPaths := c.steamLibraryPaths
  let paths := libraryPaths.foldl (fun paths libraryPath =>
    (assetsCandidates libraryPath).foldl (addAssetsCandidate dirExists) paths) paths
  removeDuplicates paths

end ConfigManager

/-! ## Concrete inputs used in the worked examples -/

/-- A store with both renderer binaries configured. -/
def sampleConfig : ConfigManager :=
  ((ConfigManager.mk ⟨[], []⟩ "/home/u").setWallpaperEnginePath
    "/usr/bin/linux-wallpaperengine").setWNELBinaryPath "/usr/bin/wnel"

/-- A machine on which every path exists and is executable, with no property overrides. -/
def sampleEnvironment : Environment :=
  ⟨fun _ => true, fun _ => true, fun _ => []⟩

/-- A machine on which no path exists. -/
def emptyEnvironment : Environment :=
  ⟨fun _ => false, fun _ => false, fun _ => []⟩

/-- A scanned workshop wallpaper. -/
def sampleWallpaper : WallpaperInfo :=
  { id := "123", name := "Forest", type := "scene", path := "/ws/123",
    projectPath := "/ws/123/project.json" }

/-- An imported media file. -/
def sampleExternal : ExternalWallpaperInfo :=
  { id := "ext_Ab12Cd", name := "Clip", type := "video",
    originalPath := "/home/u/clip.mp4", symlinkPath := "/ext/ext_Ab12Cd/media.mp4",
    projectPath := "/ext/ext_Ab12Cd/project.json" }

/-- A launch in which nothing had to be killed and the process started. -/
def startedOutcome : LaunchOutcome :=
  ⟨⟨some ⟨0, false⟩, none⟩, true⟩

/-- A launch whose process did not start within the wait. -/
def failedOutcome : LaunchOutcome :=
  ⟨⟨some ⟨0, false⟩, none⟩, false⟩

/-- The workshop launcher after one successful launch of the sample wallpaper. -/
def runningManager : WallpaperManager :=
  (WallpaperManager.initial [sampleWallpaper]).run
    [WallpaperManager.Event.launch sampleConfig sampleEnvironment "123" [] startedOutcome]

/-- The external-media launcher after one successful launch of the sample media. -/
def runningAddon : WNELAddon :=
  (WNELAddon.initial true "/ext" [sampleExternal]).run
    [WNELAddon.Event.launch sampleConfig sampleEnvironment "ext_Ab12Cd" [] startedOutcome]

/-- Library text functions of the examples: every date is written as the empty text and
read back invalid; numbers and compact JSON are written as fixed texts. -/
def sampleFormats : TextFormats :=
  ⟨fun _ => "", fun _ => ⟨none⟩, fun _ => "0", fun _ => "[null]"⟩

/-- The imported media file with a codec and a resolution. -/
def sampleImported : ExternalWallpaperInfo :=
  { sampleExternal with codec := "h264", width := 1920, height := 1080 }

/-- The root object of the project file of the sample wallpaper. -/
def sampleProject : QJsonObject :=
  [("general", .object [("properties", .object
      [("schemecolor", .object [("type", .string "color"), ("value", .string "0 0 0")]),
       ("bloom", .object [("type", .string "bool"), ("value", .bool true)]),
       ("label", .object [("text", .string "Settings")])])]),
   ("tags", .array [.string "Nature"]),
   ("title", .string "Forest"),
   ("type", .string "scene")]

/-- A disk with the project files of the sample wallpaper and of the imported media
file, in which paths are absolute already. -/
def sampleFiles : FileSystem :=
  { fileExists := fun p => p == "/ws/123/project.json" || p == "/ext/ext_Ab12Cd/project.json"
    readAll := fun p =>
      if p == "/ws/123/project.json" then some ⟨.ofObject sampleProject⟩
      else if p == "/ext/ext_Ab12Cd/project.json"
      then some (WNELAddon.generateProjectJsonContent sampleFormats sampleImported)
      else none
    size := fun _ => 0
    entryList := fun _ _ => []
    subdirectories := fun p => if p == "/ws" then ["123"] else []
    absolutePath := QFileInfo.path }

/-- An import of a text file in which every step succeeds. -/
def sampleImport : ImportOutcome :=
  { directoryReady := true, mediaExists := true, randomCharacters := "Ab12Cd",
    directoryCreated := true, absoluteFilePath := "/home/u/notes.txt",
    imageSize := (-1, -1), videoSize := (-1, -1), fileSize := 12,
    currentDateTime := ⟨some 0⟩, videoCodec := "unknown", symlinkCreated := true,
    previewGenerated := false, projectWritten := true }

/-- An edit of the panel: the property "bloom" switched off. -/
def sampleEdit : QJsonObject :=
  [("general", .object [("properties", .object
      [("bloom", .object [("type", .string "bool"), ("value", .bool false)])])])]

/-- A second edit: the scheme colour changed. -/
def sampleEditColor : QJsonObject :=
  [("general", .object [("properties", .object
      [("schemecolor", .object [("type", .string "color"), ("value", .string "1 1 1")])])])]

/-- Two saves of the sample wallpaper in which the disk does what is asked. -/
def sampleSaves : List (String × QJsonObject × SaveOutcome) :=
  [("123", sampleEdit, ⟨true, true⟩), ("123", sampleEditColor, ⟨true, true⟩)]

/-- The root object of a project file that keeps its properties at the top level. -/
def rootPropertiesProject : QJsonObject :=
  [("properties", .object
      [("speed", .object [("type", .string "slider"), ("value", .number 1)])]),
   ("title", .string "Forest")]

/-- The sample disk with that project file for the sample wallpaper. -/
def rootPropertiesFiles : FileSystem :=
  sampleFiles.write "/ws/123/project.json" ⟨.ofObject rootPropertiesProject⟩

/-- An edit of the panel: the property "speed" set to 2. -/
def sampleEditSpeed : QJsonObject :=
  [("general", .object [("properties", .object
      [("speed", .object [("type", .string "slider"), ("value", .number 2)])])])]

/-- A second scanned workshop wallpaper. -/
def otherWallpaper : WallpaperInfo :=
  { id := "456", name := "Ocean", type := "scene", path := "/ws/456",
    projectPath := "/ws/456/project.json" }

/-- The imported media file as the main window passes it to a launch. -/
def sampleExternalWallpaper : WallpaperInfo :=
  { id := "ext_Ab12Cd", name := "Clip", type := "External", path := "/ext/ext_Ab12Cd",
    projectPath := "/ext/ext_Ab12Cd/project.json" }

/-- The main window after start-up: both renderers configured, two workshop wallpapers
scanned, one media file imported, nothing running. -/
def sampleWindow : MainWindow :=
  { m_config := sampleConfig
    m_wallpaperManager := WallpaperManager.initial [sampleWallpaper, otherWallpaper]
    m_wnelAddon := WNELAddon.initial true "/ext" [sampleExternal] }

/-- The main window after the user launched the sample wallpaper. -/
def launchedWindow : MainWindow :=
  sampleWindow.launchWallpaperWithSource sampleEnvironment sampleWallpaper .Manual
    ⟨none, none⟩ startedOutcome

/-- A machine on which the WNEL binary is missing. -/
def noWnelEnvironment : Environment :=
  ⟨fun p => p != "/usr/bin/wnel", fun _ => true, fun _ => []⟩

/-- A configuration in which the same Steam library is listed twice. -/
def steamConfig : ConfigManager :=
  sampleConfig.setSteamLibraryPaths ["/steam", "/steam"]

/-- A disk holding the Wallpaper Engine directory and its `assets` directory, the
latter with a `shaders` subdirectory. -/
def steamDirs (p : String) : Bool :=
  decide (p ∈ ["/steam/steamapps/common/wallpaper_engine",
    "/steam/steamapps/common/wallpaper_engine/assets",
    "/steam/steamapps/common/wallpaper_engine/assets/shaders"])

/-- A configuration whose engine path is a bare command name. -/
def bareNameConfig : ConfigManager :=
  sampleConfig.setWallpaperEnginePath "linux-wallpaperengine"

/-- A machine on which the engine binary lies in `/usr/bin` and nowhere else. -/
def searchPathEnvironment : Environment :=
  ⟨fun p => p == "/usr/bin/linux-wallpaperengine",
    fun p => p == "/usr/bin/linux-wallpaperengine", fun _ => []⟩

/-! ## Facts about the settings object -/

/-- A key that was just written reads back, whatever the default. -/
theorem QSettings.value_setValue_same (s : QSettings) (k : String) (v d : QVariant) :
    (s.setValue k v).value k d = v := by
  simp [QSettings.setValue, QSettings.value, List.lookup]

/-- Filtering a key out of the entries does not change what other keys look up. -/
theorem lookup_filter_other (l : List (String × QVariant)) (k k' : String) (h : k' ≠ k) :
    (l.filter (fun p => p.1 != k)).lookup k' = l.lookup k' := by
  induction l with
  | nil => rfl
  | cons e l ih =>
    obtain ⟨a, b⟩ := e
    by_cases hak : a = k
    · subst hak
      have hne : (k' == a) = false := by simpa using h
      simp [List.filter, List.lookup, hne, ih]
    · have hkeep : (a != k) = true := by simpa using hak
      simp only [List.filter, hkeep, List.lookup]
      rw [ih]

/-- Writing one key leaves every other key as it was. -/
theorem QSettings.value_setValue_other (s : QSettings) (k k' : String) (v d : QVariant)
    (h : k' ≠ k) : (s.setValue k v).value k' d = s.value k' d := by
  have hne : (k' == k) = false := by simpa using h
  simp [QSettings.setValue, QSettings.value, List.lookup, hne, lookup_filter_other _ _ _ h]

/-- Syncing does not change what is read. -/
theorem QSettings.value_sync (s : QSettings) (k : String) (d : QVariant) :
    s.sync.value k d = s.value k d := rfl

/-- After a sync the file holds what is in memory. -/
theorem QSettings.persisted_sync (s : QSettings) : s.sync.persisted = s.sync.memory := rfl

/-- An empty store answers every read with the default. -/
theorem QSettings.value_of_empty (s : QSettings) (h : s.memory = []) (k : String)
    (d : QVariant) : s.value k d = d := by
  simp [QSettings.value, h, List.lookup]

/-! ## Claims about the configuration store -/

/-- C1: config round trip. After `setValue(k, v)` the call `value(k, d)` returns v for
every key, value and default, and every typed setter followed by its getter returns the
value just written (global settings and per-wallpaper settings alike). -/
theorem ConfigManager.set_then_get :
    (∀ (c : ConfigManager) (k : String) (v d : QVariant), (c.setValue k v).value k d = v) ∧
    (∀ (c : ConfigManager) (x : String), (c.setWallpaperEnginePath x).getWallpaperEnginePath = x) ∧
    (∀ (c : ConfigManager) (x : String), (c.setWallpaperEnginePath x).wallpaperEnginePath = x) ∧
    (∀ (c : ConfigManager) (x : String), (c.setSteamPath x).steamPath = x) ∧
    (∀ (c : ConfigManager) (x : List String), (c.setSteamLibraryPaths x).steamLibraryPaths = x) ∧
    (∀ (c : ConfigManager) (x : String), (c.setAssetsDir x).getAssetsDir = x) ∧
    (∀ (c : ConfigManager) (x : Int), (c.setMasterVolume x).masterVolume = x) ∧
    (∀ (c : ConfigManager) (x : String), (c.setAudioDevice x).audioDevice = x) ∧
    (∀ (c : ConfigManager) (x : Bool), (c.setMuteOnFocus x).muteOnFocus = x) ∧
    (∀ (c : ConfigManager) (x : Bool), (c.setMuteOnFullscreen x).muteOnFullscreen = x) ∧
    (∀ (c : ConfigManager) (x : Bool), (c.setNoAutoMute x).noAutoMute = x) ∧
    (∀ (c : ConfigManager) (x : Bool), (c.setNoAudioProcessing x).noAudioProcessing = x) ∧
    (∀ (c : ConfigManager) (x : Int), (c.setTargetFps x).targetFps = x) ∧
    (∀ (c : ConfigManager) (x : Bool), (c.setCpuLimitEnabled x).cpuLimitEnabled = x) ∧
    (∀ (c : ConfigManager) (x : Int), (c.setCpuLimit x).cpuLimit = x) ∧
    (∀ (c : ConfigManager) (x : Bool), (c.setPauseOnFocus x).pauseOnFocus = x) ∧
    (∀ (c : ConfigManager) (x : Bool), (c.setPauseOnFullscreen x).pauseOnFullscreen = x) ∧
    (∀ (c : ConfigManager) (x : Bool), (c.setDisableMouse x).disableMouse = x) ∧
    (∀ (c : ConfigManager) (x : Bool), (c.setDisableParallax x).disableParallax = x) ∧
    (∀ (c : ConfigManager) (x : String), (c.setRenderMode x).renderMode = x) ∧
    (∀ (c : ConfigManager) (x : String), (c.setMsaaLevel x).msaaLevel = x) ∧
    (∀ (c : ConfigManager) (x : Int), (c.setAnisotropicFiltering x).anisotropicFiltering = x) ∧
    (∀ (c : ConfigManager) (x : Bool), (c.setVsyncEnabled x).vsyncEnabled = x) ∧
    (∀ (c : ConfigManager) (x : Bool), (c.setBloomEnabled x).bloomEnabled = x) ∧
    (∀ (c : ConfigManager) (x : Bool), (c.setReflectionsEnabled x).reflectionsEnabled = x) ∧
    (∀ (c : ConfigManager) (x : String), (c.setWindowMode x).windowMode = x) ∧
    (∀ (c : ConfigManager) (x : String), (c.setScreenRoot x).screenRoot = x) ∧
    (∀ (c : ConfigManager) (x : String), (c.setClampingMode x).clampingMode = x) ∧
    (∀ (c : ConfigManager) (x : String), (c.setScaling x).getScaling = x) ∧
    (∀ (c : ConfigManager) (x : Bool), (c.setSilent x).getSilent = x) ∧
    (∀ (c : ConfigManager) (x : String), (c.setTheme x).theme = x) ∧
    (∀ (c : ConfigManager) (x : String), (c.setQtTheme x).qtTheme = x) ∧
    (∀ (c : ConfigManager) (x : List Nat), (c.setWindowGeometry x).windowGeometry = x) ∧
    (∀ (c : ConfigManager) (x : List Nat), (c.setWindowState x).windowState = x) ∧
    (∀ (c : ConfigManager) (x : List Nat), (c.setSplitterState x).getSplitterState = x) ∧
    (∀ (c : ConfigManager) (x : Bool), (c.setFirstRun x).isFirstRun = x) ∧
    (∀ (c : ConfigManager) (x : String), (c.setLastSelectedWallpaper x).lastSelectedWallpaper = x) ∧
    (∀ (c : ConfigManager) (x : Int), (c.setRefreshInterval x).refreshInterval = x) ∧
    (∀ (c : ConfigManager) (x : Bool), (c.setLastSessionUsedPlaylist x).lastSessionUsedPlaylist = x) ∧
    (∀ (c : ConfigManager) (x : String), (c.setSteamApiKey x).steamApiKey = x) ∧
    (∀ (c : ConfigManager) (x : Bool), (c.setUseSteamApi x).useSteamApi = x) ∧
    (∀ (c : ConfigManager) (x : QDateTime), (c.setLastApiUpdate x).lastApiUpdate = x) ∧
    (∀ (c : ConfigManager) (x : Bool), (c.setShowTrayWarning x).showTrayWarning = x) ∧
    (∀ (c : ConfigManager) (x : Bool), (c.setWNELAddonEnabled x).isWNELAddonEnabled = x) ∧
    (∀ (c : ConfigManager) (x : String), (c.setExternalWallpapersPath x).externalWallpapersPath = x) ∧
    (∀ (c : ConfigManager) (x : String), (c.setWNELBinaryPath x).wnelBinaryPath = x) ∧
    (∀ (c : ConfigManager) (id : String) (x : String), (c.setWallpaperScreenRoot id x).getWallpaperScreenRoot id = x) ∧
    (∀ (c : ConfigManager) (id : String) (x : String), (c.setWallpaperAudioDevice id x).getWallpaperAudioDevice id = x) ∧
    (∀ (c : ConfigManager) (id : String) (x : Int), (c.setWallpaperMasterVolume id x).getWallpaperMasterVolume id = x) ∧
    (∀ (c : ConfigManager) (id : String) (x : Bool), (c.setWallpaperNoAutoMute id x).getWallpaperNoAutoMute id = x) ∧
    (∀ (c : ConfigManager) (id : String) (x : Bool), (c.setWallpaperNoAudioProcessing id x).getWallpaperNoAudioProcessing id = x) ∧
    (∀ (c : ConfigManager) (id : String) (x : String), (c.setWallpaperWindowMode id x).getWallpaperWindowMode id = x) ∧
    (∀ (c : ConfigManager) (id : String) (x : Bool), (c.setWallpaperSilent id x).getWallpaperSilent id = x) := by
  refine ⟨?_, ?_, ?_, ?_, ?_, ?_, ?_, ?_, ?_, ?_, ?_, ?_, ?_, ?_, ?_, ?_, ?_, ?_, ?_, ?_, ?_, ?_, ?_, ?_, ?_, ?_, ?_, ?_, ?_, ?_, ?_, ?_, ?_, ?_, ?_, ?_, ?_, ?_, ?_, ?_, ?_, ?_, ?_, ?_, ?_, ?_, ?_, ?_, ?_, ?_, ?_, ?_, ?_⟩ <;> intros <;>
    simp [ConfigManager.setValue, ConfigManager.value, ConfigManager.getWallpaperValue,
      ConfigManager.setWallpaperValue, QSettings.value_sync, QSettings.value_setValue_same,
      QVariant.toInt, QVariant.toBool, QVariant.toQString, QVariant.toStringList,
      QVariant.toByteArray, QVariant.toDateTime,
      ConfigManager.getWallpaperEnginePath,
      ConfigManager.wallpaperEnginePath,
      ConfigManager.steamPath,
      ConfigManager.steamLibraryPaths,
      ConfigManager.getAssetsDir,
      ConfigManager.masterVolume,
      ConfigManager.audioDevice,
      ConfigManager.muteOnFocus,
      ConfigManager.muteOnFullscreen,
      ConfigManager.noAutoMute,
      ConfigManager.noAudioProcessing,
      ConfigManager.targetFps,
      ConfigManager.cpuLimitEnabled,
      ConfigManager.cpuLimit,
      ConfigManager.pauseOnFocus,
      ConfigManager.pauseOnFullscreen,
      ConfigManager.disableMouse,
      ConfigManager.disableParallax,
      ConfigManager.renderMode,
      ConfigManager.msaaLevel,
      ConfigManager.anisotropicFiltering,
      ConfigManager.vsyncEnabled,
      ConfigManager.bloomEnabled,
      ConfigManager.reflectionsEnabled,
      ConfigManager.windowMode,
      ConfigManager.screenRoot,
      ConfigManager.clampingMode,
      ConfigManager.getScaling,
      ConfigManager.getSilent,
      ConfigManager.theme,
      ConfigManager.qtTheme,
      ConfigManager.windowGeometry,
      ConfigManager.windowState,
      ConfigManager.getSplitterState,
      ConfigManager.isFirstRun,
      ConfigManager.lastSelectedWallpaper,
      ConfigManager.refreshInterval,
      ConfigManager.lastSessionUsedPlaylist,
      ConfigManager.steamApiKey,
      ConfigManager.useSteamApi,
      ConfigManager.lastApiUpdate,
      ConfigManager.showTrayWarning,
      ConfigManager.isWNELAddonEnabled,
      ConfigManager.externalWallpapersPath,
      ConfigManager.wnelBinaryPath,
      ConfigManager.setWallpaperEnginePath,
      ConfigManager.setSteamPath,
      ConfigManager.setSteamLibraryPaths,
      ConfigManager.setAssetsDir,
      ConfigManager.setMasterVolume,
      ConfigManager.setAudioDevice,
      ConfigManager.setMuteOnFocus,
      ConfigManager.setMuteOnFullscreen,
      ConfigManager.setNoAutoMute,
      ConfigManager.setNoAudioProcessing,
      ConfigManager.setTargetFps,
      ConfigManager.setCpuLimitEnabled,
      ConfigManager.setCpuLimit,
      ConfigManager.setPauseOnFocus,
      ConfigManager.setPauseOnFullscreen,
      ConfigManager.setDisableMouse,
      ConfigManager.setDisableParallax,
      ConfigManager.setRenderMode,
      ConfigManager.setMsaaLevel,
      ConfigManager.setAnisotropicFiltering,
      ConfigManager.setVsyncEnabled,
      ConfigManager.setBloomEnabled,
      ConfigManager.setReflectionsEnabled,
      ConfigManager.setWindowMode,
      ConfigManager.setScreenRoot,
      ConfigManager.setClampingMode,
      ConfigManager.setScaling,
      ConfigManager.setSilent,
      ConfigManager.setTheme,
      ConfigManager.setQtTheme,
      ConfigManager.setWindowGeometry,
      ConfigManager.setWindowState,
      ConfigManager.setSplitterState,
      ConfigManager.setFirstRun,
      ConfigManager.setLastSelectedWallpaper,
      ConfigManager.setRefreshInterval,
      ConfigManager.setLastSessionUsedPlaylist,
      ConfigManager.setSteamApiKey,
      ConfigManager.setUseSteamApi,
      ConfigManager.setLastApiUpdate,
      ConfigManager.setShowTrayWarning,
      ConfigManager.setWNELAddonEnabled,
      ConfigManager.setExternalWallpapersPath,
      ConfigManager.setWNELBinaryPath,
      ConfigManager.getWallpaperScreenRoot,
      ConfigManager.getWallpaperAudioDevice,
      ConfigManager.getWallpaperMasterVolume,
      ConfigManager.getWallpaperNoAutoMute,
      ConfigManager.getWallpaperNoAudioProcessing,
      ConfigManager.getWallpaperWindowMode,
      ConfigManager.getWallpaperSilent,
      ConfigManager.setWallpaperScreenRoot,
      ConfigManager.setWallpaperAudioDevice,
      ConfigManager.setWallpaperMasterVolume,
      ConfigManager.setWallpaperNoAutoMute,
      ConfigManager.setWallpaperNoAudioProcessing,
      ConfigManager.setWallpaperWindowMode,
      ConfigManager.setWallpaperSilent]

/-- C2: per-item key naming. `setWallpaperValue(id, key, v)` is the generic write of v
under the flat key "wallpapers/<id>/<key>", so afterwards that key holds v and both
`value("wallpapers/" + id + "/" + key, d)` and `getWallpaperValue(id, key, d)` return v
for every default d; and in every store state `getWallpaperValue(id, key, d)` equals
`value("wallpapers/<id>/<key>", d)`. -/
theorem ConfigManager.wallpaper_key_naming (c : ConfigManager) (id key : String)
    (v d : QVariant) :
    c.setWallpaperValue id key v = c.setValue ("wallpapers/" ++ id ++ "/" ++ key) v ∧
    (c.setWallpaperValue id key v).m_settings.memory.lookup
        ("wallpapers/" ++ id ++ "/" ++ key) = some v ∧
    (c.setWallpaperValue id key v).value ("wallpapers/" ++ id ++ "/" ++ key) d = v ∧
    (c.setWallpaperValue id key v).getWallpaperValue id key d = v ∧
    c.getWallpaperValue id key d = c.value ("wallpapers/" ++ id ++ "/" ++ key) d := by
  refine ⟨rfl, ?_, ?_, ?_, rfl⟩
  · simp [ConfigManager.setWallpaperValue, ConfigManager.wallpaperKey, QSettings.setValue,
      QSettings.sync, List.lookup]
  · simp [ConfigManager.setWallpaperValue, ConfigManager.value, ConfigManager.wallpaperKey,
      QSettings.value_sync, QSettings.value_setValue_same]
  · simp [ConfigManager.setWallpaperValue, ConfigManager.getWallpaperValue,
      QSettings.value_sync, QSettings.value_setValue_same]

/-- C3: override layering. Each per-wallpaper getter returns the value stored under the
wallpaper's own key when there is one (read through the getter's conversion), and
otherwise the current value of the corresponding global getter. -/
theorem ConfigManager.override_layering (c : ConfigManager) (id : String) :
    c.getWallpaperScreenRoot id =
      (match c.m_settings.memory.lookup ("wallpapers/" ++ id ++ "/screen_root") with
        | some v => v.toQString
        | none => c.screenRoot) ∧
    c.getWallpaperAudioDevice id =
      (match c.m_settings.memory.lookup ("wallpapers/" ++ id ++ "/audio_device") with
        | some v => v.toQString
        | none => c.audioDevice) ∧
    c.getWallpaperMasterVolume id =
      (match c.m_settings.memory.lookup ("wallpapers/" ++ id ++ "/master_volume") with
        | some v => v.toInt
        | none => c.masterVolume) ∧
    c.getWallpaperNoAutoMute id =
      (match c.m_settings.memory.lookup ("wallpapers/" ++ id ++ "/no_auto_mute") with
        | some v => v.toBool
        | none => c.noAutoMute) ∧
    c.getWallpaperNoAudioProcessing id =
      (match c.m_settings.memory.lookup ("wallpapers/" ++ id ++ "/no_audio_processing") with
        | some v => v.toBool
        | none => c.noAudioProcessing) ∧
    c.getWallpaperWindowMode id =
      (match c.m_settings.memory.lookup ("wallpapers/" ++ id ++ "/window_mode") with
        | some v => v.toQString
        | none => c.windowMode) ∧
    c.getWallpaperSilent id =
      (match c.m_settings.memory.lookup ("wallpapers/" ++ id ++ "/silent") with
        | some v => v.toBool
        | none => c.getSilent) := by
  refine ⟨?_, ?_, ?_, ?_, ?_, ?_, ?_⟩
  · have hk : "wallpapers/" ++ id ++ "/" ++ "screen_root" = "wallpapers/" ++ id ++ "/screen_root" := by
      rw [String.append_assoc ("wallpapers/" ++ id)]; rfl
    cases h : List.lookup ("wallpapers/" ++ id ++ "/screen_root") c.m_settings.memory <;>
      simp [ConfigManager.getWallpaperScreenRoot, ConfigManager.getWallpaperValue,
        ConfigManager.wallpaperKey, QSettings.value, hk, h, QVariant.toQString]
  · have hk : "wallpapers/" ++ id ++ "/" ++ "audio_device" = "wallpapers/" ++ id ++ "/audio_device" := by
      rw [String.append_assoc ("wallpapers/" ++ id)]; rfl
    cases h : List.lookup ("wallpapers/" ++ id ++ "/audio_device") c.m_settings.memory <;>
      simp [ConfigManager.getWallpaperAudioDevice, ConfigManager.getWallpaperValue,
        ConfigManager.wallpaperKey, QSettings.value, hk, h, QVariant.toQString]
  · have hk : "wallpapers/" ++ id ++ "/" ++ "master_volume" = "wallpapers/" ++ id ++ "/master_volume" := by
      rw [String.append_assoc ("wallpapers/" ++ id)]; rfl
    cases h : List.lookup ("wallpapers/" ++ id ++ "/master_volume") c.m_settings.memory <;>
      simp [ConfigManager.getWallpaperMasterVolume, ConfigManager.getWallpaperValue,
        ConfigManager.wallpaperKey, QSettings.value, hk, h, QVariant.toInt]
  · have hk : "wallpapers/" ++ id ++ "/" ++ "no_auto_mute" = "wallpapers/" ++ id ++ "/no_auto_mute" := by
      rw [String.append_assoc ("wallpapers/" ++ id)]; rfl
    cases h : List.lookup ("wallpapers/" ++ id ++ "/no_auto_mute") c.m_settings.memory <;>
      simp [ConfigManager.getWallpaperNoAutoMute, ConfigManager.getWallpaperValue,
        ConfigManager.wallpaperKey, QSettings.value, hk, h, QVariant.toBool]
  · have hk : "wallpapers/" ++ id ++ "/" ++ "no_audio_processing" = "wallpapers/" ++ id ++ "/no_audio_processing" := by
      rw [String.append_assoc ("wallpapers/" ++ id)]; rfl
    cases h : List.lookup ("wallpapers/" ++ id ++ "/no_audio_processing") c.m_settings.memory <;>
      simp [ConfigManager.getWallpaperNoAudioProcessing, ConfigManager.getWallpaperValue,
        ConfigManager.wallpaperKey, QSettings.value, hk, h, QVariant.toBool]
  · have hk : "wallpapers/" ++ id ++ "/" ++ "window_mode" = "wallpapers/" ++ id ++ "/window_mode" := by
      rw [String.append_assoc ("wallpapers/" ++ id)]; rfl
    cases h : List.lookup ("wallpapers/" ++ id ++ "/window_mode") c.m_settings.memory <;>
      simp [ConfigManager.getWallpaperWindowMode, ConfigManager.getWallpaperValue,
        ConfigManager.wallpaperKey, QSettings.value, hk, h, QVariant.toQString]
  · have hk : "wallpapers/" ++ id ++ "/" ++ "silent" = "wallpapers/" ++ id ++ "/silent" := by
      rw [String.append_assoc ("wallpapers/" ++ id)]; rfl
    cases h : List.lookup ("wallpapers/" ++ id ++ "/silent") c.m_settings.memory <;>
      simp [ConfigManager.getWallpaperSilent, ConfigManager.getWallpaperValue,
        ConfigManager.wallpaperKey, QSettings.value, hk, h, QVariant.toBool]

/-- C4: defaults on missing keys. In a store with no keys every typed getter returns its
hard-coded default (15 for the master volume, "default" for the audio device, 30 for
the target fps, 50 for the cpu limit, and so on), and `resetToDefaults()` leaves such a
store. -/
theorem ConfigManager.defaults_on_missing_keys :
    (∀ c : ConfigManager, c.resetToDefaults.m_settings.memory = []) ∧
    (∀ c : ConfigManager, c.m_settings.memory = [] →
      (c.wallpaperEnginePath = "" ∧
       c.getWallpaperEnginePath = "" ∧
       c.steamPath = "" ∧
       c.steamLibraryPaths = [] ∧
       c.getAssetsDir = "" ∧
       c.masterVolume = 15 ∧
       c.audioDevice = "default" ∧
       c.muteOnFocus = false ∧
       c.muteOnFullscreen = false ∧
       c.noAutoMute = false ∧
       c.noAudioProcessing = false ∧
       c.targetFps = 30 ∧
       c.cpuLimitEnabled = false ∧
       c.cpuLimit = 50 ∧
       c.pauseOnFocus = false ∧
       c.pauseOnFullscreen = true ∧
       c.disableMouse = false ∧
       c.disableParallax = false ∧
       c.renderMode = "Auto" ∧
       c.msaaLevel = "Off" ∧
       c.anisotropicFiltering = 1 ∧
       c.vsyncEnabled = true ∧
       c.bloomEnabled = true ∧
       c.reflectionsEnabled = true ∧
       c.windowMode = "" ∧
       c.screenRoot = "" ∧
       c.clampingMode = "clamp" ∧
       c.getScaling = "" ∧
       c.getSilent = false ∧
       c.theme = "" ∧
       c.qtTheme = "System Default" ∧
       c.windowGeometry = [] ∧
       c.windowState = [] ∧
       c.getSplitterState = [] ∧
       c.isFirstRun = true ∧
       c.lastSelectedWallpaper = "" ∧
       c.refreshInterval = 30 ∧
       c.lastSessionUsedPlaylist = false ∧
       c.steamApiKey = "" ∧
       c.useSteamApi = true ∧
       c.lastApiUpdate = ⟨none⟩ ∧
       c.showTrayWarning = true ∧
       c.isWNELAddonEnabled = false ∧
       c.externalWallpapersPath = c.homeLocation ++ "/external_wallpapers" ∧
       c.wnelBinaryPath = "" ∧
       (∀ id : String, c.getWallpaperScreenRoot id = "") ∧
       (∀ id : String, c.getWallpaperAudioDevice id = "default") ∧
       (∀ id : String, c.getWallpaperMasterVolume id = 15) ∧
       (∀ id : String, c.getWallpaperNoAutoMute id = false) ∧
       (∀ id : String, c.getWallpaperNoAudioProcessing id = false) ∧
       (∀ id : String, c.getWallpaperWindowMode id = "") ∧
       (∀ id : String, c.getWallpaperSilent id = false))) := by
  refine ⟨fun _ => rfl, ?_⟩
  intro c h
  have hv : ∀ (k : String) (d : QVariant), c.m_settings.value k d = d :=
    fun k d => QSettings.value_of_empty _ h k d
  refine ⟨?_, ?_, ?_, ?_, ?_, ?_, ?_, ?_, ?_, ?_, ?_, ?_, ?_, ?_, ?_, ?_, ?_, ?_, ?_, ?_, ?_, ?_, ?_, ?_, ?_, ?_, ?_, ?_, ?_, ?_, ?_, ?_, ?_, ?_, ?_, ?_, ?_, ?_, ?_, ?_, ?_, ?_, ?_, ?_, ?_, ?_, ?_, ?_, ?_, ?_, ?_, ?_⟩ <;> intros <;>
    simp [hv, ConfigManager.getWallpaperValue,
      QVariant.toInt, QVariant.toBool, QVariant.toQString, QVariant.toStringList,
      QVariant.toByteArray, QVariant.toDateTime,
      ConfigManager.getWallpaperEnginePath,
      ConfigManager.wallpaperEnginePath,
      ConfigManager.steamPath,
      ConfigManager.steamLibraryPaths,
      ConfigManager.getAssetsDir,
      ConfigManager.masterVolume,
      ConfigManager.audioDevice,
      ConfigManager.muteOnFocus,
      ConfigManager.muteOnFullscreen,
      ConfigManager.noAutoMute,
      ConfigManager.noAudioProcessing,
      ConfigManager.targetFps,
      ConfigManager.cpuLimitEnabled,
      ConfigManager.cpuLimit,
      ConfigManager.pauseOnFocus,
      ConfigManager.pauseOnFullscreen,
      ConfigManager.disableMouse,
      ConfigManager.disableParallax,
      ConfigManager.renderMode,
      ConfigManager.msaaLevel,
      ConfigManager.anisotropicFiltering,
      ConfigManager.vsyncEnabled,
      ConfigManager.bloomEnabled,
      ConfigManager.reflectionsEnabled,
      ConfigManager.windowMode,
      ConfigManager.screenRoot,
      ConfigManager.clampingMode,
      ConfigManager.getScaling,
      ConfigManager.getSilent,
      ConfigManager.theme,
      ConfigManager.qtTheme,
      ConfigManager.windowGeometry,
      ConfigManager.windowState,
      ConfigManager.getSplitterState,
      ConfigManager.isFirstRun,
      ConfigManager.lastSelectedWallpaper,
      ConfigManager.refreshInterval,
      ConfigManager.lastSessionUsedPlaylist,
      ConfigManager.steamApiKey,
      ConfigManager.useSteamApi,
      ConfigManager.lastApiUpdate,
      ConfigManager.showTrayWarning,
      ConfigManager.isWNELAddonEnabled,
      ConfigManager.externalWallpapersPath,
      ConfigManager.wnelBinaryPath,
      ConfigManager.getWallpaperScreenRoot,
      ConfigManager.getWallpaperAudioDevice,
      ConfigManager.getWallpaperMasterVolume,
      ConfigManager.getWallpaperNoAutoMute,
      ConfigManager.getWallpaperNoAudioProcessing,
      ConfigManager.getWallpaperWindowMode,
      ConfigManager.getWallpaperSilent]

/-- Witness for C4: the master volume read from a store that was just reset. -/
theorem ConfigManager.defaults_on_missing_keys_witness :
    ((ConfigManager.mk ⟨[("audio/master_volume", QVariant.int 80)], []⟩
      "/home/u").resetToDefaults).masterVolume = 15 :=
  (ConfigManager.defaults_on_missing_keys.2
    ((ConfigManager.mk ⟨[("audio/master_volume", QVariant.int 80)], []⟩
      "/home/u").resetToDefaults) rfl).2.2.2.2.2.1

/-- C5: immediate persistence. With the store seen as an in-memory map plus the map
written to the file, after every write operation of ConfigManager (`setValue`,
`setWallpaperValue`, `resetToDefaults` and each typed setter) the two maps are equal. -/
theorem ConfigManager.every_write_is_persisted :
    (∀ (c : ConfigManager) (k : String) (v : QVariant),
      (c.setValue k v).m_settings.persisted = (c.setValue k v).m_settings.memory) ∧
    (∀ (c : ConfigManager) (id key : String) (v : QVariant),
      (c.setWallpaperValue id key v).m_settings.persisted =
        (c.setWallpaperValue id key v).m_settings.memory) ∧
    (∀ c : ConfigManager,
      c.resetToDefaults.m_settings.persisted = c.resetToDefaults.m_settings.memory) ∧
    (∀ (c : ConfigManager) (x : String),
      (c.setWallpaperEnginePath x).m_settings.persisted = (c.setWallpaperEnginePath x).m_settings.memory) ∧
    (∀ (c : ConfigManager) (x : String),
      (c.setSteamPath x).m_settings.persisted = (c.setSteamPath x).m_settings.memory) ∧
    (∀ (c : ConfigManager) (x : List String),
      (c.setSteamLibraryPaths x).m_settings.persisted = (c.setSteamLibraryPaths x).m_settings.memory) ∧
    (∀ (c : ConfigManager) (x : String),
      (c.setAssetsDir x).m_settings.persisted = (c.setAssetsDir x).m_settings.memory) ∧
    (∀ (c : ConfigManager) (x : Int),
      (c.setMasterVolume x).m_settings.persisted = (c.setMasterVolume x).m_settings.memory) ∧
    (∀ (c : ConfigManager) (x : String),
      (c.setAudioDevice x).m_settings.persisted = (c.setAudioDevice x).m_settings.memory) ∧
    (∀ (c : ConfigManager) (x : Bool),
      (c.setMuteOnFocus x).m_settings.persisted = (c.setMuteOnFocus x).m_settings.memory) ∧
    (∀ (c : ConfigManager) (x : Bool),
      (c.setMuteOnFullscreen x).m_settings.persisted = (c.setMuteOnFullscreen x).m_settings.memory) ∧
    (∀ (c : ConfigManager) (x : Bool),
      (c.setNoAutoMute x).m_settings.persisted = (c.setNoAutoMute x).m_settings.memory) ∧
    (∀ (c : ConfigManager) (x : Bool),
      (c.setNoAudioProcessing x).m_settings.persisted = (c.setNoAudioProcessing x).m_settings.memory) ∧
    (∀ (c : ConfigManager) (x : Int),
      (c.setTargetFps x).m_settings.persisted = (c.setTargetFps x).m_settings.memory) ∧
    (∀ (c : ConfigManager) (x : Bool),
      (c.setCpuLimitEnabled x).m_settings.persisted = (c.setCpuLimitEnabled x).m_settings.memory) ∧
    (∀ (c : ConfigManager) (x : Int),
      (c.setCpuLimit x).m_settings.persisted = (c.setCpuLimit x).m_settings.memory) ∧
    (∀ (c : ConfigManager) (x : Bool),
      (c.setPauseOnFocus x).m_settings.persisted = (c.setPauseOnFocus x).m_settings.memory) ∧
    (∀ (c : ConfigManager) (x : Bool),
      (c.setPauseOnFullscreen x).m_settings.persisted = (c.setPauseOnFullscreen x).m_settings.memory) ∧
    (∀ (c : ConfigManager) (x : Bool),
      (c.setDisableMouse x).m_settings.persisted = (c.setDisableMouse x).m_settings.memory) ∧
    (∀ (c : ConfigManager) (x : Bool),
      (c.setDisableParallax x).m_settings.persisted = (c.setDisableParallax x).m_settings.memory) ∧
    (∀ (c : ConfigManager) (x : String),
      (c.setRenderMode x).m_settings.persisted = (c.setRenderMode x).m_settings.memory) ∧
    (∀ (c : ConfigManager) (x : String),
      (c.setMsaaLevel x).m_settings.persisted = (c.setMsaaLevel x).m_settings.memory) ∧
    (∀ (c : ConfigManager) (x : Int),
      (c.setAnisotropicFiltering x).m_settings.persisted = (c.setAnisotropicFiltering x).m_settings.memory) ∧
    (∀ (c : ConfigManager) (x : Bool),
      (c.setVsyncEnabled x).m_settings.persisted = (c.setVsyncEnabled x).m_settings.memory) ∧
    (∀ (c : ConfigManager) (x : Bool),
      (c.setBloomEnabled x).m_settings.persisted = (c.setBloomEnabled x).m_settings.memory) ∧
    (∀ (c : ConfigManager) (x : Bool),
      (c.setReflectionsEnabled x).m_settings.persisted = (c.setReflectionsEnabled x).m_settings.memory) ∧
    (∀ (c : ConfigManager) (x : String),
      (c.setWindowMode x).m_settings.persisted = (c.setWindowMode x).m_settings.memory) ∧
    (∀ (c : ConfigManager) (x : String),
      (c.setScreenRoot x).m_settings.persisted = (c.setScreenRoot x).m_settings.memory) ∧
    (∀ (c : ConfigManager) (x : String),
      (c.setClampingMode x).m_settings.persisted = (c.setClampingMode x).m_settings.memory) ∧
    (∀ (c : ConfigManager) (x : String),
      (c.setScaling x).m_settings.persisted = (c.setScaling x).m_settings.memory) ∧
    (∀ (c : ConfigManager) (x : Bool),
      (c.setSilent x).m_settings.persisted = (c.setSilent x).m_settings.memory) ∧
    (∀ (c : ConfigManager) (x : String),
      (c.setTheme x).m_settings.persisted = (c.setTheme x).m_settings.memory) ∧
    (∀ (c : ConfigManager) (x : String),
      (c.setQtTheme x).m_settings.persisted = (c.setQtTheme x).m_settings.memory) ∧
    (∀ (c : ConfigManager) (x : List Nat),
      (c.setWindowGeometry x).m_settings.persisted = (c.setWindowGeometry x).m_settings.memory) ∧
    (∀ (c : ConfigManager) (x : List Nat),
      (c.setWindowState x).m_settings.persisted = (c.setWindowState x).m_settings.memory) ∧
    (∀ (c : ConfigManager) (x : List Nat),
      (c.setSplitterState x).m_settings.persisted = (c.setSplitterState x).m_settings.memory) ∧
    (∀ (c : ConfigManager) (x : Bool),
      (c.setFirstRun x).m_settings.persisted = (c.setFirstRun x).m_settings.memory) ∧
    (∀ (c : ConfigManager) (x : String),
      (c.setLastSelectedWallpaper x).m_settings.persisted = (c.setLastSelectedWallpaper x).m_settings.memory) ∧
    (∀ (c : ConfigManager) (x : Int),
      (c.setRefreshInterval x).m_settings.persisted = (c.setRefreshInterval x).m_settings.memory) ∧
    (∀ (c : ConfigManager) (x : Bool),
      (c.setLastSessionUsedPlaylist x).m_settings.persisted = (c.setLastSessionUsedPlaylist x).m_settings.memory) ∧
    (∀ (c : ConfigManager) (x : String),
      (c.setSteamApiKey x).m_settings.persisted = (c.setSteamApiKey x).m_settings.memory) ∧
    (∀ (c : ConfigManager) (x : Bool),
      (c.setUseSteamApi x).m_settings.persisted = (c.setUseSteamApi x).m_settings.memory) ∧
    (∀ (c : ConfigManager) (x : QDateTime),
      (c.setLastApiUpdate x).m_settings.persisted = (c.setLastApiUpdate x).m_settings.memory) ∧
    (∀ (c : ConfigManager) (x : Bool),
      (c.setShowTrayWarning x).m_settings.persisted = (c.setShowTrayWarning x).m_settings.memory) ∧
    (∀ (c : ConfigManager) (x : Bool),
      (c.setWNELAddonEnabled x).m_settings.persisted = (c.setWNELAddonEnabled x).m_settings.memory) ∧
    (∀ (c : ConfigManager) (x : String),
      (c.setExternalWallpapersPath x).m_settings.persisted = (c.setExternalWallpapersPath x).m_settings.memory) ∧
    (∀ (c : ConfigManager) (x : String),
      (c.setWNELBinaryPath x).m_settings.persisted = (c.setWNELBinaryPath x).m_settings.memory) ∧
    (∀ (c : ConfigManager) (id : String) (x : String),
      (c.setWallpaperScreenRoot id x).m_settings.persisted = (c.setWallpaperScreenRoot id x).m_settings.memory) ∧
    (∀ (c : ConfigManager) (id : String) (x : String),
      (c.setWallpaperAudioDevice id x).m_settings.persisted = (c.setWallpaperAudioDevice id x).m_settings.memory) ∧
    (∀ (c : ConfigManager) (id : String) (x : Int),
      (c.setWallpaperMasterVolume id x).m_settings.persisted = (c.setWallpaperMasterVolume id x).m_settings.memory) ∧
    (∀ (c : ConfigManager) (id : String) (x : Bool),
      (c.setWallpaperNoAutoMute id x).m_settings.persisted = (c.setWallpaperNoAutoMute id x).m_settings.memory) ∧
    (∀ (c : ConfigManager) (id : String) (x : Bool),
      (c.setWallpaperNoAudioProcessing id x).m_settings.persisted = (c.setWallpaperNoAudioProcessing id x).m_settings.memory) ∧
    (∀ (c : ConfigManager) (id : String) (x : String),
      (c.setWallpaperWindowMode id x).m_settings.persisted = (c.setWallpaperWindowMode id x).m_settings.memory) ∧
    (∀ (c : ConfigManager) (id : String) (x : Bool),
      (c.setWallpaperSilent id x).m_settings.persisted = (c.setWallpaperSilent id x).m_settings.memory) := by
  refine ⟨?_, ?_, ?_, ?_, ?_, ?_, ?_, ?_, ?_, ?_, ?_, ?_, ?_, ?_, ?_, ?_, ?_, ?_, ?_, ?_, ?_, ?_, ?_, ?_, ?_, ?_, ?_, ?_, ?_, ?_, ?_, ?_, ?_, ?_, ?_, ?_, ?_, ?_, ?_, ?_, ?_, ?_, ?_, ?_, ?_, ?_, ?_, ?_, ?_, ?_, ?_, ?_, ?_, ?_⟩ <;> intros <;> rfl


/-! ## Facts about the launchers -/

/-- Reading a log in two parts. -/
theorem ownedAfter_append (owned : List Nat) (l₁ l₂ : List ProcessCall) :
    ownedAfter owned (l₁ ++ l₂) = ownedAfter (ownedAfter owned l₁) l₂ := by
  induction l₁ generalizing owned with
  | nil => rfl
  | cons c l₁ ih => cases c <;> simp [ownedAfter, ih]

/-- Owned children after a log was extended. -/
theorem ownedProcesses_append (l₁ l₂ : List ProcessCall) :
    ownedProcesses (l₁ ++ l₂) = ownedAfter (ownedProcesses l₁) l₂ :=
  ownedAfter_append [] l₁ l₂

/-- Dropping the only owned process leaves none. -/
theorem dropProcess_singleton (p : Nat) : dropProcess p [p] = [] := by
  simp [dropProcess]

namespace WallpaperManager

/-- A stop with no process held changes nothing. -/
theorem stopWallpaper_of_none (m : WallpaperManager) (o : StopOutcome)
    (h : m.m_wallpaperProcess = none) : m.stopWallpaper o = m := by
  simp [stopWallpaper, h]

/-- State after a stop: pointer, current id, list and counter. -/
theorem stopWallpaper_fields (m : WallpaperManager) (o : StopOutcome) :
    (m.stopWallpaper o).m_wallpaperProcess = none ∧
    (m.stopWallpaper o).nextProcess = m.nextProcess ∧
    (m.stopWallpaper o).m_wallpapers = m.m_wallpapers := by
  unfold stopWallpaper
  cases hp : m.m_wallpaperProcess with
  | none => simp [hp]
  | some p =>
    rcases o with ⟨t, k⟩
    cases t <;> cases k <;>
      simp [hp, emit, call, processFinished, onProcessFinished]

/-- Log after a stop of the held process p. -/
theorem stopWallpaper_log (m : WallpaperManager) (o : StopOutcome) (p : Nat)
    (h : m.m_wallpaperProcess = some p) :
    (m.stopWallpaper o).processLog = m.processLog ++
      (ProcessCall.terminate p ::
        (match o.afterTerminate with
          | some _ => [ProcessCall.finished p, ProcessCall.deleteLater p]
          | none => ProcessCall.kill p ::
            (match o.afterKill with
              | some _ => [ProcessCall.finished p, ProcessCall.deleteLater p]
              | none => [ProcessCall.destroy p]))) := by
  unfold stopWallpaper
  rcases o with ⟨t, k⟩
  cases t <;> cases k <;>
    simp [h, emit, call, processFinished, onProcessFinished]

/-- A launch that is refused before anything is stopped: no engine path, or an id that
names no scanned wallpaper. Only an error signal is emitted. -/
theorem launchWallpaper_refused (m : WallpaperManager) (config : ConfigManager)
    (env : Environment) (id : String) (args : List String) (o : LaunchOutcome)
    (h : config.wallpaperEnginePath.isEmpty = true ∨ (m.getWallpaperById id).id.isEmpty = true) :
    (m.launchWallpaper config env id args o).1 = false ∧
    (m.launchWallpaper config env id args o).2.m_wallpaperProcess = m.m_wallpaperProcess ∧
    (m.launchWallpaper config env id args o).2.m_currentWallpaperId = m.m_currentWallpaperId ∧
    (m.launchWallpaper config env id args o).2.processLog = m.processLog ∧
    (m.launchWallpaper config env id args o).2.nextProcess = m.nextProcess ∧
    (m.launchWallpaper config env id args o).2.m_wallpapers = m.m_wallpapers := by
  unfold launchWallpaper
  by_cases hb : config.wallpaperEnginePath.isEmpty = true
  · simp [hb, emit]
  · rcases h with h | h
    · exact absurd h hb
    · simp [hb, h, emit]

/-- A launch that passes both checks: it stops what is held, creates process object
number `nextProcess`, starts it, and keeps it exactly when the start succeeded. -/
theorem launchWallpaper_attempted (m : WallpaperManager) (config : ConfigManager)
    (env : Environment) (id : String) (args : List String) (o : LaunchOutcome)
    (hb : config.wallpaperEnginePath.isEmpty = false)
    (hid : (m.getWallpaperById id).id.isEmpty = false) :
    (m.launchWallpaper config env id args o).1 = o.started ∧
    (m.launchWallpaper config env id args o).2.m_wallpaperProcess =
      (if o.started then some m.nextProcess else none) ∧
    (m.launchWallpaper config env id args o).2.m_currentWallpaperId =
      (if o.started then id else (m.stopWallpaper o.stop).m_currentWallpaperId) ∧
    (m.launchWallpaper config env id args o).2.processLog =
      (m.stopWallpaper o.stop).processLog ++
        [ProcessCall.create m.nextProcess,
         ProcessCall.start m.nextProcess config.wallpaperEnginePath
          (baseArguments config (m.getWallpaperById id) id args ++
            backupPropertyArguments env (m.getWallpaperById id))] ++
        (if o.started then [] else [ProcessCall.destroy m.nextProcess]) ∧
    (m.launchWallpaper config env id args o).2.nextProcess = m.nextProcess + 1 ∧
    (m.launchWallpaper config env id args o).2.m_wallpapers = m.m_wallpapers := by
  have hf := stopWallpaper_fields m o.stop
  unfold launchWallpaper
  cases hs : o.started <;>
    by_cases hp : (backupPropertyArguments env (m.getWallpaperById id)).isEmpty = true <;>
    simp [hb, hid, hs, hp, emit, call, hf.1, hf.2.1, hf.2.2]

/-- What a stop appends to the log: no start call; when a process p is held, a terminate
and a release of p; and if the log owned exactly the held process before, nothing is
owned afterwards. -/
theorem stopWallpaper_delta (m : WallpaperManager) (o : StopOutcome) :
    ∃ sd : List ProcessCall,
      (m.stopWallpaper o).processLog = m.processLog ++ sd ∧
      (∀ q prog as, ProcessCall.start q prog as ∉ sd) ∧
      (∀ p, m.m_wallpaperProcess = some p →
        ProcessCall.terminate p ∈ sd ∧
        (ProcessCall.destroy p ∈ sd ∨ ProcessCall.deleteLater p ∈ sd)) ∧
      (ownedProcesses m.processLog = m.m_wallpaperProcess.toList →
        ownedProcesses (m.processLog ++ sd) = []) := by
  cases hp : m.m_wallpaperProcess with
  | none =>
    refine ⟨[], ?_, ?_, ?_, ?_⟩
    · simp [stopWallpaper_of_none m o hp]
    · simp
    · simp
    · intro h
      simpa [hp] using h
  | some p =>
    refine ⟨_, stopWallpaper_log m o p hp, ?_, ?_, ?_⟩
    · rcases o with ⟨t, k⟩
      cases t <;> cases k <;> simp
    · intro p' hp'
      cases hp'
      rcases o with ⟨t, k⟩
      cases t <;> cases k <;> simp
    · intro h
      rw [ownedProcesses_append, h]
      rcases o with ⟨t, k⟩
      cases t <;> cases k <;> simp [ownedAfter, dropProcess]

/-- After a stop nothing is owned, provided the log owned exactly the held process. -/
theorem stopWallpaper_owned (m : WallpaperManager) (o : StopOutcome)
    (h : ownedProcesses m.processLog = m.m_wallpaperProcess.toList) :
    ownedProcesses (m.stopWallpaper o).processLog = [] := by
  obtain ⟨sd, hlog, _, _, hown⟩ := stopWallpaper_delta m o
  rw [hlog]
  exact hown h

/-- The held process finishing keeps the log and the pointer in step. -/
theorem processFinished_owned (m : WallpaperManager) (e : ExitInfo)
    (h : ownedProcesses m.processLog = m.m_wallpaperProcess.toList) :
    ownedProcesses (m.processFinished e).processLog =
      (m.processFinished e).m_wallpaperProcess.toList := by
  cases hp : m.m_wallpaperProcess with
  | none =>
    simpa [processFinished, onProcessFinished, hp, emit, call] using h
  | some p =>
    have h' : ownedProcesses m.processLog = [p] := by simpa [hp] using h
    have hl : (m.processFinished e).processLog =
        m.processLog ++ [ProcessCall.finished p, ProcessCall.deleteLater p] := by
      simp [processFinished, onProcessFinished, hp, emit, call]
    have hq : (m.processFinished e).m_wallpaperProcess = none := by
      simp [processFinished, onProcessFinished, hp, emit, call]
    rw [hl, hq, ownedProcesses_append, h']
    simp [ownedAfter, dropProcess]

/-- A launch keeps the log and the pointer in step. -/
theorem launchWallpaper_owned (m : WallpaperManager) (config : ConfigManager)
    (env : Environment) (id : String) (args : List String) (o : LaunchOutcome)
    (h : ownedProcesses m.processLog = m.m_wallpaperProcess.toList) :
    ownedProcesses (m.launchWallpaper config env id args o).2.processLog =
      (m.launchWallpaper config env id args o).2.m_wallpaperProcess.toList := by
  by_cases hr : config.wallpaperEnginePath.isEmpty = true ∨
      (m.getWallpaperById id).id.isEmpty = true
  · obtain ⟨_, hp, _, hl, _, _⟩ := launchWallpaper_refused m config env id args o hr
    rw [hl, hp]
    exact h
  · have hb : config.wallpaperEnginePath.isEmpty = false := by
      cases hx : config.wallpaperEnginePath.isEmpty
      · rfl
      · exact absurd (Or.inl hx) hr
    have hid : (m.getWallpaperById id).id.isEmpty = false := by
      cases hx : (m.getWallpaperById id).id.isEmpty
      · rfl
      · exact absurd (Or.inr hx) hr
    obtain ⟨_, hp, _, hl, _, _⟩ := launchWallpaper_attempted m config env id args o hb hid
    rw [hl, hp, ownedProcesses_append, ownedProcesses_append, stopWallpaper_owned m o.stop h]
    cases o.started <;> simp [ownedAfter, dropProcess]

/-- Every event keeps the log and the pointer in step. -/
theorem step_owned (m : WallpaperManager) (e : Event)
    (h : ownedProcesses m.processLog = m.m_wallpaperProcess.toList) :
    ownedProcesses (m.step e).processLog = (m.step e).m_wallpaperProcess.toList := by
  cases e with
  | launch config env id args o => exact launchWallpaper_owned m config env id args o h
  | stop o =>
    simp only [step]
    rw [stopWallpaper_owned m o h, (stopWallpaper_fields m o).1]
    rfl
  | finished e => exact processFinished_owned m e h

/-- In every state reached from one where the log and the pointer are in step, they
still are. -/
theorem run_owned (es : List Event) (m : WallpaperManager)
    (h : ownedProcesses m.processLog = m.m_wallpaperProcess.toList) :
    ownedProcesses (m.run es).processLog = (m.run es).m_wallpaperProcess.toList := by
  induction es generalizing m with
  | nil => exact h
  | cons e es ih => exact ih (m.step e) (step_owned m e h)

/-- What a launch that starts a process did before the start. -/
theorem launchWallpaper_start_after_release (m : WallpaperManager) (config : ConfigManager)
    (env : Environment) (id : String) (args : List String) (o : LaunchOutcome)
    (h : ownedProcesses m.processLog = m.m_wallpaperProcess.toList)
    (q : Nat) (prog : String) (as : List String)
    (hstart : ProcessCall.start q prog as ∈
      (m.launchWallpaper config env id args o).2.processLog.drop m.processLog.length) :
    ∃ pre post : List ProcessCall,
      (m.launchWallpaper config env id args o).2.processLog =
        m.processLog ++ pre ++ ProcessCall.create q :: ProcessCall.start q prog as :: post ∧
      ownedProcesses (m.processLog ++ pre) = [] ∧
      ∀ p, m.m_wallpaperProcess = some p →
        ProcessCall.terminate p ∈ pre ∧
        (ProcessCall.destroy p ∈ pre ∨ ProcessCall.deleteLater p ∈ pre) := by
  by_cases hr : config.wallpaperEnginePath.isEmpty = true ∨
      (m.getWallpaperById id).id.isEmpty = true
  · obtain ⟨_, _, _, hl, _, _⟩ := launchWallpaper_refused m config env id args o hr
    rw [hl] at hstart
    simp at hstart
  · have hb : config.wallpaperEnginePath.isEmpty = false := by
      cases hx : config.wallpaperEnginePath.isEmpty
      · rfl
      · exact absurd (Or.inl hx) hr
    have hid : (m.getWallpaperById id).id.isEmpty = false := by
      cases hx : (m.getWallpaperById id).id.isEmpty
      · rfl
      · exact absurd (Or.inr hx) hr
    obtain ⟨_, _, _, hl, _, _⟩ := launchWallpaper_attempted m config env id args o hb hid
    obtain ⟨sd, hsd, hnostart, hrel, hown⟩ := stopWallpaper_delta m o.stop
    rw [hl, hsd, List.append_assoc, List.append_assoc, List.drop_left] at hstart
    rw [hl, hsd]
    have hmem : ProcessCall.start q prog as ∈
        [ProcessCall.create m.nextProcess,
         ProcessCall.start m.nextProcess config.wallpaperEnginePath
          (baseArguments config (m.getWallpaperById id) id args ++
            backupPropertyArguments env (m.getWallpaperById id))] ++
        (if o.started then [] else [ProcessCall.destroy m.nextProcess]) := by
      rcases List.mem_append.mp hstart with h1 | h2
      · exact absurd h1 (hnostart q prog as)
      · exact h2
    have heq : ProcessCall.start q prog as =
        ProcessCall.start m.nextProcess config.wallpaperEnginePath
          (baseArguments config (m.getWallpaperById id) id args ++
            backupPropertyArguments env (m.getWallpaperById id)) := by
      cases hs : o.started <;> simpa [hs] using hmem
    injection heq with hq hprog has
    subst hq hprog has
    refine ⟨sd, (if o.started then [] else [ProcessCall.destroy m.nextProcess]), ?_,
      hown h, hrel⟩
    simp

end WallpaperManager

namespace WNELAddon

/-- A stop with no process held changes nothing. -/
theorem addon_stop_of_none (a : WNELAddon) (o : StopOutcome)
    (h : a.m_wallpaperProcess = none) : a.stopWallpaper o = a := by
  simp [stopWallpaper, h]

/-- State after a stop: pointer, counter, list and enabled flag. -/
theorem addon_stop_fields (a : WNELAddon) (o : StopOutcome) :
    (a.stopWallpaper o).m_wallpaperProcess = none ∧
    (a.stopWallpaper o).nextProcess = a.nextProcess ∧
    (a.stopWallpaper o).m_externalWallpapers = a.m_externalWallpapers ∧
    (a.stopWallpaper o).m_enabled = a.m_enabled := by
  unfold stopWallpaper
  cases hp : a.m_wallpaperProcess with
  | none => simp [hp]
  | some p =>
    rcases o with ⟨t, k⟩
    cases t <;> cases k <;> simp [hp, emit, call]

/-- Log after a stop of the held process p. -/
theorem addon_stop_log (a : WNELAddon) (o : StopOutcome) (p : Nat)
    (h : a.m_wallpaperProcess = some p) :
    (a.stopWallpaper o).processLog = a.processLog ++
      ([ProcessCall.disconnect p, ProcessCall.terminate p] ++
        (match o.afterTerminate with
          | some _ => [ProcessCall.finished p]
          | none => ProcessCall.kill p ::
            (match o.afterKill with
              | some _ => [ProcessCall.finished p]
              | none => [])) ++
        [ProcessCall.deleteLater p]) := by
  unfold stopWallpaper
  rcases o with ⟨t, k⟩
  cases t <;> cases k <;> simp [h, emit, call]

/-- What a stop appends to the log: no start call; when a process p is held, a terminate
and a release of p; and if the log owned exactly the held process before, nothing is
owned afterwards. -/
theorem addon_stop_delta (a : WNELAddon) (o : StopOutcome) :
    ∃ sd : List ProcessCall,
      (a.stopWallpaper o).processLog = a.processLog ++ sd ∧
      (∀ q prog as, ProcessCall.start q prog as ∉ sd) ∧
      (∀ p, a.m_wallpaperProcess = some p →
        ProcessCall.terminate p ∈ sd ∧
        (ProcessCall.destroy p ∈ sd ∨ ProcessCall.deleteLater p ∈ sd)) ∧
      (ownedProcesses a.processLog = a.m_wallpaperProcess.toList →
        ownedProcesses (a.processLog ++ sd) = []) := by
  cases hp : a.m_wallpaperProcess with
  | none =>
    refine ⟨[], ?_, ?_, ?_, ?_⟩
    · simp [addon_stop_of_none a o hp]
    · simp
    · simp
    · intro h
      simpa [hp] using h
  | some p =>
    refine ⟨_, addon_stop_log a o p hp, ?_, ?_, ?_⟩
    · rcases o with ⟨t, k⟩
      cases t <;> cases k <;> simp
    · intro p' hp'
      cases hp'
      rcases o with ⟨t, k⟩
      cases t <;> cases k <;> simp
    · intro h
      rw [ownedProcesses_append, h]
      rcases o with ⟨t, k⟩
      cases t <;> cases k <;> simp [ownedAfter, dropProcess]

/-- After a stop nothing is owned, provided the log owned exactly the held process. -/
theorem addon_stop_owned (a : WNELAddon) (o : StopOutcome)
    (h : ownedProcesses a.processLog = a.m_wallpaperProcess.toList) :
    ownedProcesses (a.stopWallpaper o).processLog = [] := by
  obtain ⟨sd, hlog, _, _, hown⟩ := addon_stop_delta a o
  rw [hlog]
  exact hown h

/-- The held process finishing keeps the log and the pointer in step. -/
theorem addon_finished_owned (a : WNELAddon) (e : ExitInfo)
    (h : ownedProcesses a.processLog = a.m_wallpaperProcess.toList) :
    ownedProcesses (a.processFinished e).processLog =
      (a.processFinished e).m_wallpaperProcess.toList := by
  cases hp : a.m_wallpaperProcess with
  | none =>
    simpa [processFinished, onProcessFinished, hp, emit, call] using h
  | some p =>
    have h' : ownedProcesses a.processLog = [p] := by simpa [hp] using h
    have hl : (a.processFinished e).processLog = a.processLog ++ [ProcessCall.finished p] := by
      simp [processFinished, onProcessFinished, hp, emit, call]
    have hq : (a.processFinished e).m_wallpaperProcess = none := by
      simp [processFinished, onProcessFinished, hp, emit, call]
    rw [hl, hq, ownedProcesses_append, h']
    simp [ownedAfter, dropProcess]

/-- A launch that is refused before anything is stopped: the addon is disabled, or the
id names no external wallpaper. The state is untouched. -/
theorem launchExternalWallpaper_refused (a : WNELAddon) (config : ConfigManager)
    (env : Environment) (id : String) (args : List String) (o : LaunchOutcome)
    (h : a.m_enabled = false ∨ (a.getExternalWallpaperById id).id.isEmpty = true) :
    a.launchExternalWallpaper config env id args o = (false, a) := by
  unfold launchExternalWallpaper
  cases he : a.m_enabled
  · simp
  · rcases h with h | h
    · rw [he] at h
      cases h
    · simp [h]

/-- A launch that fails a check made after the stop: the binary is missing or not
executable, or the media symlink is missing. What is left is the stopped state plus an
error signal. -/
theorem launchExternalWallpaper_invalid (a : WNELAddon) (config : ConfigManager)
    (env : Environment) (id : String) (args : List String) (o : LaunchOutcome)
    (he : a.m_enabled = true) (hid : (a.getExternalWallpaperById id).id.isEmpty = false)
    (hv : env.fileExists config.wnelBinaryPath = false ∨
      env.isExecutable config.wnelBinaryPath = false ∨
      env.fileExists (a.getExternalWallpaperById id).symlinkPath = false) :
    (a.launchExternalWallpaper config env id args o).1 = false ∧
    (a.launchExternalWallpaper config env id args o).2.m_wallpaperProcess = none ∧
    (a.launchExternalWallpaper config env id args o).2.m_currentWallpaperId =
      (a.stopWallpaper o.stop).m_currentWallpaperId ∧
    (a.launchExternalWallpaper config env id args o).2.processLog =
      (a.stopWallpaper o.stop).processLog := by
  have hf := addon_stop_fields a o.stop
  unfold launchExternalWallpaper
  cases h1 : env.fileExists config.wnelBinaryPath
  · simp [he, hid, emit, hf.1, h1]
  · cases h2 : env.isExecutable config.wnelBinaryPath
    · simp [he, hid, emit, hf.1, h1, h2]
    · cases h3 : env.fileExists (a.getExternalWallpaperById id).symlinkPath
      · simp [he, hid, emit, hf.1, h1, h2, h3]
      · simp [h1, h2, h3] at hv

/-- A launch that passes every check: it creates process object number `nextProcess`
after the stop, starts it, and keeps it exactly when the start succeeded. -/
theorem launchExternalWallpaper_attempted (a : WNELAddon) (config : ConfigManager)
    (env : Environment) (id : String) (args : List String) (o : LaunchOutcome)
    (he : a.m_enabled = true) (hid : (a.getExternalWallpaperById id).id.isEmpty = false)
    (h1 : env.fileExists config.wnelBinaryPath = true)
    (h2 : env.isExecutable config.wnelBinaryPath = true)
    (h3 : env.fileExists (a.getExternalWallpaperById id).symlinkPath = true) :
    (a.launchExternalWallpaper config env id args o).1 = o.started ∧
    (a.launchExternalWallpaper config env id args o).2.m_wallpaperProcess =
      (if o.started then some a.nextProcess else none) ∧
    (a.launchExternalWallpaper config env id args o).2.m_currentWallpaperId =
      (if o.started then id else (a.stopWallpaper o.stop).m_currentWallpaperId) ∧
    (a.launchExternalWallpaper config env id args o).2.processLog =
      (a.stopWallpaper o.stop).processLog ++
        [ProcessCall.create a.nextProcess,
         ProcessCall.start a.nextProcess config.wnelBinaryPath
          (launchArguments config (a.getExternalWallpaperById id) id args)] ++
        (if o.started then [] else [ProcessCall.deleteLater a.nextProcess]) := by
  have hf := addon_stop_fields a o.stop
  unfold launchExternalWallpaper
  cases hs : o.started <;> simp [he, hid, h1, h2, h3, hs, emit, call, hf.1, hf.2.1]

/-- The three ways a launch can go. -/
theorem launchExternalWallpaper_cases (a : WNELAddon) (config : ConfigManager)
    (env : Environment) (id : String) :
    (a.m_enabled = false ∨ (a.getExternalWallpaperById id).id.isEmpty = true) ∨
    (a.m_enabled = true ∧ (a.getExternalWallpaperById id).id.isEmpty = false ∧
      (env.fileExists config.wnelBinaryPath = false ∨
       env.isExecutable config.wnelBinaryPath = false ∨
       env.fileExists (a.getExternalWallpaperById id).symlinkPath = false)) ∨
    (a.m_enabled = true ∧ (a.getExternalWallpaperById id).id.isEmpty = false ∧
      env.fileExists config.wnelBinaryPath = true ∧
      env.isExecutable config.wnelBinaryPath = true ∧
      env.fileExists (a.getExternalWallpaperById id).symlinkPath = true) := by
  cases a.m_enabled <;> cases (a.getExternalWallpaperById id).id.isEmpty <;>
    cases env.fileExists config.wnelBinaryPath <;>
    cases env.isExecutable config.wnelBinaryPath <;>
    cases env.fileExists (a.getExternalWallpaperById id).symlinkPath <;> simp

/-- A launch keeps the log and the pointer in step. -/
theorem launchExternalWallpaper_owned (a : WNELAddon) (config : ConfigManager)
    (env : Environment) (id : String) (args : List String) (o : LaunchOutcome)
    (h : ownedProcesses a.processLog = a.m_wallpaperProcess.toList) :
    ownedProcesses (a.launchExternalWallpaper config env id args o).2.processLog =
      (a.launchExternalWallpaper config env id args o).2.m_wallpaperProcess.toList := by
  rcases launchExternalWallpaper_cases a config env id with hr | ⟨he, hid, hv⟩ |
    ⟨he, hid, h1, h2, h3⟩
  · rw [launchExternalWallpaper_refused a config env id args o hr]
    exact h
  · obtain ⟨_, hp, _, hl⟩ := launchExternalWallpaper_invalid a config env id args o he hid hv
    rw [hl, hp, addon_stop_owned a o.stop h]
    rfl
  · obtain ⟨_, hp, _, hl⟩ :=
      launchExternalWallpaper_attempted a config env id args o he hid h1 h2 h3
    rw [hl, hp, ownedProcesses_append, ownedProcesses_append, addon_stop_owned a o.stop h]
    cases o.started <;> simp [ownedAfter, dropProcess]

/-- Every event keeps the log and the pointer in step. -/
theorem addon_step_owned (a : WNELAddon) (e : Event)
    (h : ownedProcesses a.processLog = a.m_wallpaperProcess.toList) :
    ownedProcesses (a.step e).processLog = (a.step e).m_wallpaperProcess.toList := by
  cases e with
  | launch config env id args o => exact launchExternalWallpaper_owned a config env id args o h
  | stop o =>
    simp only [step]
    rw [addon_stop_owned a o h, (addon_stop_fields a o).1]
    rfl
  | finished e => exact addon_finished_owned a e h

/-- In every state reached from one where the log and the pointer are in step, they
still are. -/
theorem addon_run_owned (es : List Event) (a : WNELAddon)
    (h : ownedProcesses a.processLog = a.m_wallpaperProcess.toList) :
    ownedProcesses (a.run es).processLog = (a.run es).m_wallpaperProcess.toList := by
  induction es generalizing a with
  | nil => exact h
  | cons e es ih => exact ih (a.step e) (addon_step_owned a e h)

/-- What a launch that starts a process did before the start. -/
theorem launchExternalWallpaper_start_after_release (a : WNELAddon)
    (config : ConfigManager) (env : Environment) (id : String) (args : List String)
    (o : LaunchOutcome)
    (h : ownedProcesses a.processLog = a.m_wallpaperProcess.toList)
    (q : Nat) (prog : String) (as : List String)
    (hstart : ProcessCall.start q prog as ∈
      (a.launchExternalWallpaper config env id args o).2.processLog.drop a.processLog.length) :
    ∃ pre post : List ProcessCall,
      (a.launchExternalWallpaper config env id args o).2.processLog =
        a.processLog ++ pre ++ ProcessCall.create q :: ProcessCall.start q prog as :: post ∧
      ownedProcesses (a.processLog ++ pre) = [] ∧
      ∀ p, a.m_wallpaperProcess = some p →
        ProcessCall.terminate p ∈ pre ∧
        (ProcessCall.destroy p ∈ pre ∨ ProcessCall.deleteLater p ∈ pre) := by
  obtain ⟨sd, hsd, hnostart, hrel, hown⟩ := addon_stop_delta a o.stop
  rcases launchExternalWallpaper_cases a config env id with hr | ⟨he, hid, hv⟩ |
    ⟨he, hid, h1, h2, h3⟩
  · rw [launchExternalWallpaper_refused a config env id args o hr] at hstart
    simp at hstart
  · obtain ⟨_, _, _, hl⟩ := launchExternalWallpaper_invalid a config env id args o he hid hv
    rw [hl, hsd, List.drop_left] at hstart
    exact absurd hstart (hnostart q prog as)
  · obtain ⟨_, _, _, hl⟩ :=
      launchExternalWallpaper_attempted a config env id args o he hid h1 h2 h3
    rw [hl, hsd, List.append_assoc, List.append_assoc, List.drop_left] at hstart
    rw [hl, hsd]
    have hmem : ProcessCall.start q prog as ∈
        [ProcessCall.create a.nextProcess,
         ProcessCall.start a.nextProcess config.wnelBinaryPath
          (launchArguments config (a.getExternalWallpaperById id) id args)] ++
        (if o.started then [] else [ProcessCall.deleteLater a.nextProcess]) := by
      rcases List.mem_append.mp hstart with h1 | h2
      · exact absurd h1 (hnostart q prog as)
      · exact h2
    have heq : ProcessCall.start q prog as =
        ProcessCall.start a.nextProcess config.wnelBinaryPath
          (launchArguments config (a.getExternalWallpaperById id) id args) := by
      cases hs : o.started <;> simpa [hs] using hmem
    injection heq with hq hprog has
    subst hq hprog has
    refine ⟨sd, (if o.started then [] else [ProcessCall.deleteLater a.nextProcess]), ?_,
      hown h, hrel⟩
    simp

end WNELAddon

/-! ## Claims about the launchers -/

/-- C6: at most one process per launcher. In every state reached from the constructor
state by launch, stop and process-finished events, the children the launcher still owns
(created, not finished, not released) are exactly the process its pointer holds, so at
most one; and whenever a launch call gets as far as starting a new process, the calls it
made before creating that process include a terminate and a release of the process held
before the call, and leave no child owned. This holds for WallpaperManager and for
WNELAddon. -/
theorem launchers_hold_at_most_one_process :
    (∀ (ws : List WallpaperInfo) (es : List WallpaperManager.Event),
      ownedProcesses ((WallpaperManager.initial ws).run es).processLog =
        ((WallpaperManager.initial ws).run es).m_wallpaperProcess.toList ∧
      (ownedProcesses ((WallpaperManager.initial ws).run es).processLog).length ≤ 1) ∧
    (∀ (ws : List WallpaperInfo) (es : List WallpaperManager.Event) (config : ConfigManager)
        (env : Environment) (id : String) (args : List String) (o : LaunchOutcome)
        (q : Nat) (prog : String) (as : List String),
      ProcessCall.start q prog as ∈
        ((((WallpaperManager.initial ws).run es).launchWallpaper config env id args
          o).2.processLog.drop ((WallpaperManager.initial ws).run es).processLog.length) →
      ∃ pre post : List ProcessCall,
        (((WallpaperManager.initial ws).run es).launchWallpaper config env id args
          o).2.processLog =
          ((WallpaperManager.initial ws).run es).processLog ++ pre ++
            ProcessCall.create q :: ProcessCall.start q prog as :: post ∧
        ownedProcesses (((WallpaperManager.initial ws).run es).processLog ++ pre) = [] ∧
        ∀ p, ((WallpaperManager.initial ws).run es).m_wallpaperProcess = some p →
          ProcessCall.terminate p ∈ pre ∧
          (ProcessCall.destroy p ∈ pre ∨ ProcessCall.deleteLater p ∈ pre)) ∧
    (∀ (enabled : Bool) (path : String) (ws : List ExternalWallpaperInfo)
        (es : List WNELAddon.Event),
      ownedProcesses ((WNELAddon.initial enabled path ws).run es).processLog =
        ((WNELAddon.initial enabled path ws).run es).m_wallpaperProcess.toList ∧
      (ownedProcesses ((WNELAddon.initial enabled path ws).run es).processLog).length ≤ 1) ∧
    (∀ (enabled : Bool) (path : String) (ws : List ExternalWallpaperInfo)
        (es : List WNELAddon.Event) (config : ConfigManager)
        (env : Environment) (id : String) (args : List String) (o : LaunchOutcome)
        (q : Nat) (prog : String) (as : List String),
      ProcessCall.start q prog as ∈
        ((((WNELAddon.initial enabled path ws).run es).launchExternalWallpaper config env id
          args o).2.processLog.drop
            ((WNELAddon.initial enabled path ws).run es).processLog.length) →
      ∃ pre post : List ProcessCall,
        (((WNELAddon.initial enabled path ws).run es).launchExternalWallpaper config env id
          args o).2.processLog =
          ((WNELAddon.initial enabled path ws).run es).processLog ++ pre ++
            ProcessCall.create q :: ProcessCall.start q prog as :: post ∧
        ownedProcesses (((WNELAddon.initial enabled path ws).run es).processLog ++ pre) = [] ∧
        ∀ p, ((WNELAddon.initial enabled path ws).run es).m_wallpaperProcess = some p →
          ProcessCall.terminate p ∈ pre ∧
          (ProcessCall.destroy p ∈ pre ∨ ProcessCall.deleteLater p ∈ pre)) := by
  have hm : ∀ (ws : List WallpaperInfo) (es : List WallpaperManager.Event),
      ownedProcesses ((WallpaperManager.initial ws).run es).processLog =
        ((WallpaperManager.initial ws).run es).m_wallpaperProcess.toList :=
    fun ws es => WallpaperManager.run_owned es (WallpaperManager.initial ws) rfl
  have ha : ∀ (enabled : Bool) (path : String) (ws : List ExternalWallpaperInfo)
      (es : List WNELAddon.Event),
      ownedProcesses ((WNELAddon.initial enabled path ws).run es).processLog =
        ((WNELAddon.initial enabled path ws).run es).m_wallpaperProcess.toList :=
    fun enabled path ws es => WNELAddon.addon_run_owned es (WNELAddon.initial enabled path ws) rfl
  refine ⟨?_, ?_, ?_, ?_⟩
  · intro ws es
    refine ⟨hm ws es, ?_⟩
    rw [hm ws es]
    cases ((WallpaperManager.initial ws).run es).m_wallpaperProcess <;> simp
  · intro ws es config env id args o q prog as hstart
    exact WallpaperManager.launchWallpaper_start_after_release _ config env id args o
      (hm ws es) q prog as hstart
  · intro enabled path ws es
    refine ⟨ha enabled path ws es, ?_⟩
    rw [ha enabled path ws es]
    cases ((WNELAddon.initial enabled path ws).run es).m_wallpaperProcess <;> simp
  · intro enabled path ws es config env id args o q prog as hstart
    exact WNELAddon.launchExternalWallpaper_start_after_release _ config env id args o
      (ha enabled path ws es) q prog as hstart

/-- Witness for C6: a second launch while process 0 is held starts process 1 only after
process 0 was terminated and released. -/
theorem launchers_hold_at_most_one_process_witness :
    ∃ pre post : List ProcessCall,
      (((WallpaperManager.initial [sampleWallpaper]).run
        [WallpaperManager.Event.launch sampleConfig sampleEnvironment "123" []
          startedOutcome]).launchWallpaper sampleConfig sampleEnvironment "123" []
          startedOutcome).2.processLog =
        ((WallpaperManager.initial [sampleWallpaper]).run
          [WallpaperManager.Event.launch sampleConfig sampleEnvironment "123" []
            startedOutcome]).processLog ++ pre ++
          ProcessCall.create 1 ::
            ProcessCall.start 1 "/usr/bin/linux-wallpaperengine" ["/ws/123"] :: post ∧
      ownedProcesses (((WallpaperManager.initial [sampleWallpaper]).run
        [WallpaperManager.Event.launch sampleConfig sampleEnvironment "123" []
          startedOutcome]).processLog ++ pre) = [] ∧
      ∀ p, ((WallpaperManager.initial [sampleWallpaper]).run
        [WallpaperManager.Event.launch sampleConfig sampleEnvironment "123" []
          startedOutcome]).m_wallpaperProcess = some p →
        ProcessCall.terminate p ∈ pre ∧
        (ProcessCall.destroy p ∈ pre ∨ ProcessCall.deleteLater p ∈ pre) :=
  launchers_hold_at_most_one_process.2.1 [sampleWallpaper]
    [WallpaperManager.Event.launch sampleConfig sampleEnvironment "123" [] startedOutcome]
    sampleConfig sampleEnvironment "123" [] startedOutcome 1
    "/usr/bin/linux-wallpaperengine" ["/ws/123"] (by decide)

namespace MainWindow

/-- The stop slot touches neither launcher. -/
theorem onWallpaperStopped_launchers (w : MainWindow) :
    w.onWallpaperStopped.m_wallpaperManager = w.m_wallpaperManager ∧
    w.onWallpaperStopped.m_wnelAddon = w.m_wnelAddon := by
  unfold onWallpaperStopped
  split <;> simp

/-- Delivering signals touches neither launcher. -/
theorem deliver_launchers (signals : List Signal) (w : MainWindow) :
    (w.deliver signals).m_wallpaperManager = w.m_wallpaperManager ∧
    (w.deliver signals).m_wnelAddon = w.m_wnelAddon := by
  induction signals generalizing w with
  | nil => exact ⟨rfl, rfl⟩
  | cons s signals ih =>
    simp only [deliver, List.foldl_cons]
    by_cases hs : s = Signal.wallpaperStopped
    · have h := ih w.onWallpaperStopped
      simp only [deliver] at h
      simp only [hs, if_true]
      exact ⟨h.1.trans (onWallpaperStopped_launchers w).1,
        h.2.trans (onWallpaperStopped_launchers w).2⟩
    · have h := ih w
      simp only [deliver] at h
      simp only [hs, if_false]
      exact h

/-- The launch proper leaves the renderer that is not being launched without a
process. -/
theorem launchRenderer_other_stopped (w : MainWindow) (env : Environment)
    (wallpaper : WallpaperInfo) (args : List String) (otherStop : StopOutcome)
    (o : LaunchOutcome) :
    (w.launchRenderer env wallpaper args otherStop o).2.m_wallpaperManager.m_wallpaperProcess
        = none ∨
    (w.launchRenderer env wallpaper args otherStop o).2.m_wnelAddon.m_wallpaperProcess
        = none := by
  unfold launchRenderer
  by_cases hx : (wallpaper.type == "External" && w.m_wnelAddon.isEnabled) = true
  · left
    rw [if_pos hx]
    show (w.stopWallpaperManager otherStop).m_wallpaperManager.m_wallpaperProcess = none
    unfold stopWallpaperManager
    rw [(deliver_launchers _ _).1]
    exact (WallpaperManager.stopWallpaper_fields _ _).1
  · right
    rw [if_neg hx]
    show (deliver _ _).m_wnelAddon.m_wallpaperProcess = none
    rw [(deliver_launchers _ _).2]
    exact (WNELAddon.addon_stop_fields _ _).1

/-- Saving the launch configuration touches neither launcher. -/
theorem saveLaunchConfiguration_launchers (w : MainWindow) (wallpaper : WallpaperInfo)
    (b : Bool) :
    (w.saveLaunchConfiguration wallpaper b).m_wallpaperManager = w.m_wallpaperManager ∧
    (w.saveLaunchConfiguration wallpaper b).m_wnelAddon = w.m_wnelAddon := by
  unfold saveLaunchConfiguration
  split_ifs <;> exact ⟨rfl, rfl⟩

end MainWindow

/-- C7: exclusivity across the two renderers. If before `onWallpaperLaunched` at most one
of WallpaperManager and WNELAddon holds a child process, then after the call at most
one of them does, for every wallpaper (external or not) and every outcome of the stop
and of the launch. -/
theorem MainWindow.renderers_stay_exclusive (w : MainWindow) (env : Environment)
    (wallpaper : WallpaperInfo) (otherStop : StopOutcome) (o : LaunchOutcome)
    (h : w.m_wallpaperManager.m_wallpaperProcess = none ∨
      w.m_wnelAddon.m_wallpaperProcess = none) :
    (w.onWallpaperLaunched env wallpaper otherStop o).m_wallpaperManager.m_wallpaperProcess
        = none ∨
    (w.onWallpaperLaunched env wallpaper otherStop o).m_wnelAddon.m_wallpaperProcess
        = none := by
  unfold MainWindow.onWallpaperLaunched
  by_cases hb : w.m_config.wallpaperEnginePath.isEmpty = true
  · simp only [hb, if_true]
    exact h
  · simp only [hb, Bool.false_eq_true, if_false]
    have hr := MainWindow.launchRenderer_other_stopped { w with m_isLaunchingWallpaper := true }
      env wallpaper
      (MainWindow.additionalArguments w.m_config wallpaper w.m_propertiesPanel) otherStop o
    split_ifs
    · rw [(MainWindow.saveLaunchConfiguration_launchers _ _ _).1,
        (MainWindow.saveLaunchConfiguration_launchers _ _ _).2]
      exact hr
    · exact hr

/-- Witness for C7: an external wallpaper is launched while the workshop launcher holds
a process. -/
theorem MainWindow.renderers_stay_exclusive_witness :
    ((MainWindow.mk sampleConfig runningManager
        (WNELAddon.initial true "/ext" [sampleExternal]) true false false
        LaunchSource.Manual).onWallpaperLaunched sampleEnvironment
        { id := "ext_Ab12Cd", type := "External" } ⟨none, none⟩
        startedOutcome).m_wallpaperManager.m_wallpaperProcess = none ∨
    ((MainWindow.mk sampleConfig runningManager
        (WNELAddon.initial true "/ext" [sampleExternal]) true false false
        LaunchSource.Manual).onWallpaperLaunched sampleEnvironment
        { id := "ext_Ab12Cd", type := "External" } ⟨none, none⟩
        startedOutcome).m_wnelAddon.m_wallpaperProcess = none :=
  MainWindow.renderers_stay_exclusive _ sampleEnvironment
    { id := "ext_Ab12Cd", type := "External" } ⟨none, none⟩ startedOutcome (Or.inr rfl)

/-- C8: stop sequence. When `stopWallpaper()` is called while process p is held, the
calls it makes on p begin with terminate (in WNELAddon after the signals were
disconnected); kill is among them exactly when the process did not finish within the
wait that follows terminate; and p is released and the pointer cleared in every case,
also when the process is still not finished after the kill. The full call sequences are
given for both launchers. -/
theorem stop_sequence :
    (∀ (m : WallpaperManager) (p : Nat) (o : StopOutcome), m.m_wallpaperProcess = some p →
      (m.stopWallpaper o).processLog = m.processLog ++
        (ProcessCall.terminate p ::
          (match o.afterTerminate with
            | some _ => [ProcessCall.finished p, ProcessCall.deleteLater p]
            | none => ProcessCall.kill p ::
              (match o.afterKill with
                | some _ => [ProcessCall.finished p, ProcessCall.deleteLater p]
                | none => [ProcessCall.destroy p]))) ∧
      (ProcessCall.kill p ∈ (m.stopWallpaper o).processLog.drop m.processLog.length ↔
        o.afterTerminate = none) ∧
      (ProcessCall.destroy p ∈ (m.stopWallpaper o).processLog.drop m.processLog.length ∨
        ProcessCall.deleteLater p ∈
          (m.stopWallpaper o).processLog.drop m.processLog.length) ∧
      (m.stopWallpaper o).m_wallpaperProcess = none) ∧
    (∀ (a : WNELAddon) (p : Nat) (o : StopOutcome), a.m_wallpaperProcess = some p →
      (a.stopWallpaper o).processLog = a.processLog ++
        ([ProcessCall.disconnect p, ProcessCall.terminate p] ++
          (match o.afterTerminate with
            | some _ => [ProcessCall.finished p]
            | none => ProcessCall.kill p ::
              (match o.afterKill with
                | some _ => [ProcessCall.finished p]
                | none => [])) ++
          [ProcessCall.deleteLater p]) ∧
      (ProcessCall.kill p ∈ (a.stopWallpaper o).processLog.drop a.processLog.length ↔
        o.afterTerminate = none) ∧
      ProcessCall.deleteLater p ∈ (a.stopWallpaper o).processLog.drop a.processLog.length ∧
      (a.stopWallpaper o).m_wallpaperProcess = none) := by
  constructor
  · intro m p o h
    have hl := WallpaperManager.stopWallpaper_log m o p h
    refine ⟨hl, ?_, ?_, (WallpaperManager.stopWallpaper_fields m o).1⟩
    · rw [hl, List.drop_left]
      rcases o with ⟨t, k⟩
      cases t <;> cases k <;> simp
    · rw [hl, List.drop_left]
      rcases o with ⟨t, k⟩
      cases t <;> cases k <;> simp
  · intro a p o h
    have hl := WNELAddon.addon_stop_log a o p h
    refine ⟨hl, ?_, ?_, (WNELAddon.addon_stop_fields a o).1⟩
    · rw [hl, List.drop_left]
      rcases o with ⟨t, k⟩
      cases t <;> cases k <;> simp
    · rw [hl, List.drop_left]
      simp

/-- Witness for C8: stopping the running workshop launcher when the process ignores
both terminate and kill. -/
theorem stop_sequence_witness :
    (runningManager.stopWallpaper ⟨none, none⟩).processLog = runningManager.processLog ++
      [ProcessCall.terminate 0, ProcessCall.kill 0, ProcessCall.destroy 0] ∧
    (runningManager.stopWallpaper ⟨none, none⟩).m_wallpaperProcess = none :=
  ⟨(stop_sequence.1 runningManager 0 ⟨none, none⟩ (by decide)).1,
   (stop_sequence.1 runningManager 0 ⟨none, none⟩ (by decide)).2.2.2⟩

/-- With no empty id in the scanned list, the lookup finds a record exactly when some
record carries the id. -/
theorem WallpaperManager.getWallpaperById_known (m : WallpaperManager) (id : String)
    (hwf : ∀ w ∈ m.m_wallpapers, w.id ≠ "") :
    (m.getWallpaperById id).id.isEmpty = false ↔ ∃ w ∈ m.m_wallpapers, w.id = id := by
  unfold WallpaperManager.getWallpaperById
  cases hf : m.m_wallpapers.find? (fun w => w.id == id) with
  | none =>
    have hnone := List.find?_eq_none.mp hf
    constructor
    · intro h
      simp [String.isEmpty] at h
    · rintro ⟨w, hw, rfl⟩
      have := hnone w hw
      simp at this
  | some w =>
    have hmem : w ∈ m.m_wallpapers := List.mem_of_find?_eq_some hf
    have hid := List.find?_some hf
    have hid' : w.id = id := by simpa using hid
    constructor
    · intro _
      exact ⟨w, hmem, hid'⟩
    · intro _
      have hne : w.id ≠ "" := hwf w hmem
      cases hx : w.id.isEmpty
      · simpa using hx
      · exact absurd ((String.isEmpty_iff _).mp hx) hne

/-- With no empty id in the external list, the lookup finds a record exactly when
`hasExternalWallpaper` answers true. -/
theorem WNELAddon.getExternalWallpaperById_known (a : WNELAddon) (id : String)
    (hwf : ∀ info ∈ a.m_externalWallpapers, info.id ≠ "") :
    (a.getExternalWallpaperById id).id.isEmpty = false ↔ a.hasExternalWallpaper id = true := by
  unfold WNELAddon.getExternalWallpaperById WNELAddon.hasExternalWallpaper
  cases hf : a.m_externalWallpapers.find? (fun info => info.id == id) with
  | none =>
    have hnone := List.find?_eq_none.mp hf
    constructor
    · intro h
      simp [String.isEmpty] at h
    · intro h
      obtain ⟨w, hw, hwid⟩ := List.any_eq_true.mp h
      exact absurd hwid (hnone w hw)
  | some w =>
    have hmem : w ∈ a.m_externalWallpapers := List.mem_of_find?_eq_some hf
    have hid := List.find?_some hf
    constructor
    · intro _
      exact List.any_eq_true.mpr ⟨w, hmem, hid⟩
    · intro _
      have hne : w.id ≠ "" := hwf w hmem
      cases hx : w.id.isEmpty
      · simpa using hx
      · exact absurd ((String.isEmpty_iff _).mp hx) hne

namespace WNELAddon

/-- After a stop the current id is empty, if it was empty whenever no process was held. -/
theorem stopWallpaper_currentId (a : WNELAddon) (o : StopOutcome)
    (h : a.m_wallpaperProcess = none → a.m_currentWallpaperId = "") :
    (a.stopWallpaper o).m_currentWallpaperId = "" := by
  cases hp : a.m_wallpaperProcess with
  | none =>
    rw [addon_stop_of_none a o hp]
    exact h hp
  | some p =>
    unfold stopWallpaper
    rcases o with ⟨t, k⟩
    cases t <;> cases k <;> simp [hp, emit, call]

/-- Every event keeps the current id empty while no process is held. -/
theorem step_currentId (a : WNELAddon) (e : Event)
    (h : a.m_wallpaperProcess = none → a.m_currentWallpaperId = "") :
    (a.step e).m_wallpaperProcess = none → (a.step e).m_currentWallpaperId = "" := by
  cases e with
  | launch config env id args o =>
    simp only [step]
    rcases launchExternalWallpaper_cases a config env id with hr | ⟨he, hid, hv⟩ |
      ⟨he, hid, h1, h2, h3⟩
    · rw [launchExternalWallpaper_refused a config env id args o hr]
      exact h
    · obtain ⟨_, _, hc, _⟩ := launchExternalWallpaper_invalid a config env id args o he hid hv
      intro _
      rw [hc]
      exact stopWallpaper_currentId a o.stop h
    · obtain ⟨_, hp, hc, _⟩ :=
        launchExternalWallpaper_attempted a config env id args o he hid h1 h2 h3
      rw [hp, hc]
      cases o.started
      · intro _
        simpa using stopWallpaper_currentId a o.stop h
      · intro hcontra
        simp at hcontra
  | stop o =>
    intro _
    exact stopWallpaper_currentId a o h
  | finished e =>
    intro _
    cases hp : a.m_wallpaperProcess <;>
      simp [step, processFinished, onProcessFinished, hp, emit, call]

/-- In every state reached from the constructor state, the current id is empty while
no process is held. -/
theorem run_currentId (es : List Event) (a : WNELAddon)
    (h : a.m_wallpaperProcess = none → a.m_currentWallpaperId = "") :
    (a.run es).m_wallpaperProcess = none → (a.run es).m_currentWallpaperId = "" := by
  induction es generalizing a with
  | nil => exact h
  | cons e es ih => exact ih (a.step e) (step_currentId a e h)

end WNELAddon

/-- C9: WNEL launch result. With no empty id in the external list (the scan and the
media import add only records with an id), `launchExternalWallpaper(id, args)` returns true
if and only if the addon is enabled, id names a known external wallpaper, the
configured WNEL binary exists and is executable, the wallpaper's media symlink exists,
and the process starts within the wait. In every state reached by launch, stop and
process-finished events, when an enabled addon is asked for a known id and the launch
fails because the binary is missing or not executable, the media is missing, or the
start timed out, no process is held afterwards and `getCurrentWallpaper()` is empty. -/
theorem WNELAddon.launch_succeeds_iff :
    (∀ (a : WNELAddon) (config : ConfigManager) (env : Environment) (id : String)
        (args : List String) (o : LaunchOutcome),
      (∀ info ∈ a.m_externalWallpapers, info.id ≠ "") →
      ((a.launchExternalWallpaper config env id args o).1 = true ↔
        (a.m_enabled = true ∧ a.hasExternalWallpaper id = true ∧
          env.fileExists config.wnelBinaryPath = true ∧
          env.isExecutable config.wnelBinaryPath = true ∧
          env.fileExists (a.getExternalWallpaperById id).symlinkPath = true ∧
          o.started = true))) ∧
    (∀ (enabled : Bool) (path : String) (ws : List ExternalWallpaperInfo)
        (es : List WNELAddon.Event) (config : ConfigManager) (env : Environment)
        (id : String) (args : List String) (o : LaunchOutcome),
      (∀ info ∈ ((WNELAddon.initial enabled path ws).run es).m_externalWallpapers,
        info.id ≠ "") →
      ((WNELAddon.initial enabled path ws).run es).m_enabled = true →
      ((WNELAddon.initial enabled path ws).run es).hasExternalWallpaper id = true →
      (env.fileExists config.wnelBinaryPath = false ∨
        env.isExecutable config.wnelBinaryPath = false ∨
        env.fileExists
          (((WNELAddon.initial enabled path ws).run es).getExternalWallpaperById
            id).symlinkPath = false ∨
        o.started = false) →
      (((WNELAddon.initial enabled path ws).run es).launchExternalWallpaper config env id
          args o).2.m_wallpaperProcess = none ∧
      (((WNELAddon.initial enabled path ws).run es).launchExternalWallpaper config env id
          args o).2.getCurrentWallpaper = "") := by
  constructor
  · intro a config env id args o hwf
    have hk := WNELAddon.getExternalWallpaperById_known a id hwf
    rcases WNELAddon.launchExternalWallpaper_cases a config env id with hr | ⟨he, hid, hv⟩ |
      ⟨he, hid, h1, h2, h3⟩
    · rw [WNELAddon.launchExternalWallpaper_refused a config env id args o hr]
      constructor
      · intro h
        cases h
      · rintro ⟨he, hh, _⟩
        rcases hr with hr | hr
        · rw [he] at hr
          cases hr
        · rw [hk.mpr hh] at hr
          cases hr
    · rw [(WNELAddon.launchExternalWallpaper_invalid a config env id args o he hid hv).1]
      constructor
      · intro h
        cases h
      · rintro ⟨_, _, h1, h2, h3, _⟩
        rcases hv with hv | hv | hv
        · rw [h1] at hv
          cases hv
        · rw [h2] at hv
          cases hv
        · rw [h3] at hv
          cases hv
    · rw [(WNELAddon.launchExternalWallpaper_attempted a config env id args o he hid
        h1 h2 h3).1]
      constructor
      · intro hs
        exact ⟨he, hk.mp hid, h1, h2, h3, hs⟩
      · rintro ⟨_, _, _, _, _, hs⟩
        exact hs
  · intro enabled path ws es config env id args o hwf he hh hfail
    have hinv := WNELAddon.run_currentId es (WNELAddon.initial enabled path ws)
      (fun _ => rfl)
    have hid := (WNELAddon.getExternalWallpaperById_known _ id hwf).mpr hh
    have hstopid := WNELAddon.stopWallpaper_currentId
      ((WNELAddon.initial enabled path ws).run es) o.stop hinv
    rcases WNELAddon.launchExternalWallpaper_cases
        ((WNELAddon.initial enabled path ws).run es) config env id with
      hr | ⟨_, _, hv⟩ | ⟨_, _, h1, h2, h3⟩
    · rcases hr with hr | hr
      · rw [he] at hr
        cases hr
      · rw [hid] at hr
        cases hr
    · obtain ⟨_, hp, hc, _⟩ := WNELAddon.launchExternalWallpaper_invalid _ config env id
        args o he hid hv
      exact ⟨hp, by rw [WNELAddon.getCurrentWallpaper, hc, hstopid]⟩
    · obtain ⟨_, hp, hc, _⟩ := WNELAddon.launchExternalWallpaper_attempted _ config env id
        args o he hid h1 h2 h3
      have hs : o.started = false := by
        rcases hfail with hf | hf | hf | hf
        · rw [h1] at hf
          cases hf
        · rw [h2] at hf
          cases hf
        · rw [h3] at hf
          cases hf
        · exact hf
      rw [hs] at hp hc
      exact ⟨by simpa using hp, by rw [WNELAddon.getCurrentWallpaper, hc]; simpa using hstopid⟩

/-- Witness for C9: with the media present and the binary in place the launch of the
sample media succeeds; and on a machine where no file exists, a launch while process 0
is held fails and leaves no process and no current wallpaper. -/
theorem WNELAddon.launch_succeeds_iff_witness :
    (((WNELAddon.initial true "/ext" [sampleExternal]).launchExternalWallpaper sampleConfig
        sampleEnvironment "ext_Ab12Cd" [] startedOutcome).1 = true ↔
      ((WNELAddon.initial true "/ext" [sampleExternal]).m_enabled = true ∧
        (WNELAddon.initial true "/ext" [sampleExternal]).hasExternalWallpaper "ext_Ab12Cd"
          = true ∧
        sampleEnvironment.fileExists sampleConfig.wnelBinaryPath = true ∧
        sampleEnvironment.isExecutable sampleConfig.wnelBinaryPath = true ∧
        sampleEnvironment.fileExists
          ((WNELAddon.initial true "/ext" [sampleExternal]).getExternalWallpaperById
            "ext_Ab12Cd").symlinkPath = true ∧
        startedOutcome.started = true)) ∧
    (((WNELAddon.initial true "/ext" [sampleExternal]).run
        [WNELAddon.Event.launch sampleConfig sampleEnvironment "ext_Ab12Cd" []
          startedOutcome]).launchExternalWallpaper sampleConfig emptyEnvironment
        "ext_Ab12Cd" [] startedOutcome).2.m_wallpaperProcess = none ∧
    (((WNELAddon.initial true "/ext" [sampleExternal]).run
        [WNELAddon.Event.launch sampleConfig sampleEnvironment "ext_Ab12Cd" []
          startedOutcome]).launchExternalWallpaper sampleConfig emptyEnvironment
        "ext_Ab12Cd" [] startedOutcome).2.getCurrentWallpaper = "" :=
  ⟨WNELAddon.launch_succeeds_iff.1 (WNELAddon.initial true "/ext" [sampleExternal])
      sampleConfig sampleEnvironment "ext_Ab12Cd" [] startedOutcome (by decide),
   WNELAddon.launch_succeeds_iff.2 true "/ext" [sampleExternal]
      [WNELAddon.Event.launch sampleConfig sampleEnvironment "ext_Ab12Cd" [] startedOutcome]
      sampleConfig emptyEnvironment "ext_Ab12Cd" [] startedOutcome (by decide) (by decide)
      (by decide) (Or.inl rfl)⟩

/-- C10, counterexample: the engine path is configured as the bare command name
`linux-wallpaperengine`, which the process start resolves through the search path; the
binary lies in `/usr/bin` and no file is at the configured path. The process starts
and `launchWallpaper` returns true, holding the new process with the current id
"123": the function tests only that the configured path is not empty. -/
theorem WallpaperManager.launch_starts_without_file :
    bareNameConfig.wallpaperEnginePath = "linux-wallpaperengine" ∧
    searchPathEnvironment.fileExists bareNameConfig.wallpaperEnginePath = false ∧
    ((WallpaperManager.initial [sampleWallpaper]).launchWallpaper bareNameConfig
      searchPathEnvironment "123" [] startedOutcome).1 = true ∧
    ((WallpaperManager.initial [sampleWallpaper]).launchWallpaper bareNameConfig
      searchPathEnvironment "123" [] startedOutcome).2.m_wallpaperProcess = some 0 ∧
    ((WallpaperManager.initial [sampleWallpaper]).launchWallpaper bareNameConfig
      searchPathEnvironment "123" [] startedOutcome).2.m_currentWallpaperId = "123" := by
  decide

/-- C10, amended: workshop launch result. With no empty id in the scanned list (the
scan only adds records with an id), `launchWallpaper(id, args)` returns false exactly
when the engine path is not configured, the id names no scanned wallpaper, or the
process fails to start within the wait, and true otherwise, whatever files exist: a
missing file at the configured path makes it return false only through the failed
start. When it fails because the path is not configured or the id is unknown, the held
process and the current id are left unchanged. -/
theorem WallpaperManager.launch_fails_iff :
    (∀ (m : WallpaperManager) (config : ConfigManager) (env : Environment) (id : String)
        (args : List String) (o : LaunchOutcome),
      (∀ w ∈ m.m_wallpapers, w.id ≠ "") →
      ((m.launchWallpaper config env id args o).1 = false ↔
        (config.wallpaperEnginePath = "" ∨
          (¬ ∃ w ∈ m.m_wallpapers, w.id = id) ∨
          o.started = false)) ∧
      ((m.launchWallpaper config env id args o).1 = true ↔
        (config.wallpaperEnginePath ≠ "" ∧
          (∃ w ∈ m.m_wallpapers, w.id = id) ∧
          o.started = true))) ∧
    (∀ (m : WallpaperManager) (config : ConfigManager) (env : Environment) (id : String)
        (args : List String) (o : LaunchOutcome),
      (∀ w ∈ m.m_wallpapers, w.id ≠ "") →
      (config.wallpaperEnginePath = "" ∨ ¬ ∃ w ∈ m.m_wallpapers, w.id = id) →
      (m.launchWallpaper config env id args o).1 = false ∧
      (m.launchWallpaper config env id args o).2.m_wallpaperProcess = m.m_wallpaperProcess ∧
      (m.launchWallpaper config env id args o).2.m_currentWallpaperId =
        m.m_currentWallpaperId) := by
  have hrefuse : ∀ (m : WallpaperManager) (config : ConfigManager) (id : String),
      (∀ w ∈ m.m_wallpapers, w.id ≠ "") →
      (config.wallpaperEnginePath = "" ∨ ¬ ∃ w ∈ m.m_wallpapers, w.id = id) →
      (config.wallpaperEnginePath.isEmpty = true ∨
        (m.getWallpaperById id).id.isEmpty = true) := by
    intro m config id hwf h
    rcases h with h | h
    · exact Or.inl ((String.isEmpty_iff _).mpr h)
    · right
      cases hx : (m.getWallpaperById id).id.isEmpty
      · exact absurd ((WallpaperManager.getWallpaperById_known m id hwf).mp hx) h
      · rfl
  have hfalse : ∀ (m : WallpaperManager) (config : ConfigManager) (env : Environment)
      (id : String) (args : List String) (o : LaunchOutcome),
      (∀ w ∈ m.m_wallpapers, w.id ≠ "") →
      ((m.launchWallpaper config env id args o).1 = false ↔
        (config.wallpaperEnginePath = "" ∨
          (¬ ∃ w ∈ m.m_wallpapers, w.id = id) ∨
          o.started = false)) := by
    intro m config env id args o hwf
    by_cases hr : config.wallpaperEnginePath.isEmpty = true ∨
        (m.getWallpaperById id).id.isEmpty = true
    · rw [(WallpaperManager.launchWallpaper_refused m config env id args o hr).1]
      refine ⟨fun _ => ?_, fun _ => rfl⟩
      rcases hr with hr | hr
      · exact Or.inl ((String.isEmpty_iff _).mp hr)
      · right; left
        intro hex
        rw [(WallpaperManager.getWallpaperById_known m id hwf).mpr hex] at hr
        cases hr
    · have hb : config.wallpaperEnginePath.isEmpty = false := by
        cases hx : config.wallpaperEnginePath.isEmpty
        · rfl
        · exact absurd (Or.inl hx) hr
      have hid : (m.getWallpaperById id).id.isEmpty = false := by
        cases hx : (m.getWallpaperById id).id.isEmpty
        · rfl
        · exact absurd (Or.inr hx) hr
      rw [(WallpaperManager.launchWallpaper_attempted m config env id args o hb hid).1]
      constructor
      · intro hs
        exact Or.inr (Or.inr hs)
      · rintro (h | h | h)
        · rw [(String.isEmpty_iff _).mpr h] at hb
          cases hb
        · exact absurd ((WallpaperManager.getWallpaperById_known m id hwf).mp hid) h
        · exact h
  constructor
  · intro m config env id args o hwf
    refine ⟨hfalse m config env id args o hwf, ?_⟩
    have h := hfalse m config env id args o hwf
    constructor
    · intro ht
      have hn : ¬ (config.wallpaperEnginePath = "" ∨
          (¬ ∃ w ∈ m.m_wallpapers, w.id = id) ∨ o.started = false) := by
        intro hd
        rw [h.mpr hd] at ht
        cases ht
      refine ⟨fun hp => hn (Or.inl hp), ?_, ?_⟩
      · by_contra hx
        exact hn (Or.inr (Or.inl hx))
      · cases hs : o.started
        · exact absurd (Or.inr (Or.inr hs)) hn
        · rfl
    · rintro ⟨hp, hx, hs⟩
      cases hl : (m.launchWallpaper config env id args o).1
      · rcases h.mp hl with h1 | h1 | h1
        · exact absurd h1 hp
        · exact absurd hx h1
        · rw [hs] at h1
          cases h1
      · rfl
  · intro m config env id args o hwf h
    obtain ⟨h1, h2, h3, _⟩ :=
      WallpaperManager.launchWallpaper_refused m config env id args o (hrefuse m config id hwf h)
    exact ⟨h1, h2, h3⟩

/-- Witness for C10: on a machine without any file the sample wallpaper is found and
the launch fails through the failed start; an unknown id is refused while process 0
stays held. -/
theorem WallpaperManager.launch_fails_iff_witness :
    ((((WallpaperManager.initial [sampleWallpaper]).launchWallpaper sampleConfig
        emptyEnvironment "123" [] failedOutcome).1 = false ↔
      (sampleConfig.wallpaperEnginePath = "" ∨
        (¬ ∃ w ∈ (WallpaperManager.initial [sampleWallpaper]).m_wallpapers, w.id = "123") ∨
        failedOutcome.started = false)) ∧
     (((WallpaperManager.initial [sampleWallpaper]).launchWallpaper sampleConfig
        emptyEnvironment "123" [] failedOutcome).1 = true ↔
      (sampleConfig.wallpaperEnginePath ≠ "" ∧
        (∃ w ∈ (WallpaperManager.initial [sampleWallpaper]).m_wallpapers, w.id = "123") ∧
        failedOutcome.started = true))) ∧
    ((runningManager.launchWallpaper sampleConfig sampleEnvironment "999" []
        startedOutcome).1 = false ∧
      (runningManager.launchWallpaper sampleConfig sampleEnvironment "999" []
        startedOutcome).2.m_wallpaperProcess = runningManager.m_wallpaperProcess ∧
      (runningManager.launchWallpaper sampleConfig sampleEnvironment "999" []
        startedOutcome).2.m_currentWallpaperId = runningManager.m_currentWallpaperId) :=
  ⟨WallpaperManager.launch_fails_iff.1 (WallpaperManager.initial [sampleWallpaper])
      sampleConfig emptyEnvironment "123" [] failedOutcome (by decide),
   WallpaperManager.launch_fails_iff.2 runningManager sampleConfig sampleEnvironment "999" []
      startedOutcome (by decide) (Or.inr (by decide))⟩

/-! ## The current wallpaper id -/

/-- The lookup returns a record carrying the id asked for, or the default record. -/
theorem WallpaperManager.getWallpaperById_id (m : WallpaperManager) (id : String) :
    (m.getWallpaperById id).id = id ∨ (m.getWallpaperById id).id = "" := by
  unfold WallpaperManager.getWallpaperById
  cases hf : m.m_wallpapers.find? (fun w => w.id == id) with
  | none => right; rfl
  | some w =>
    left
    have hid := List.find?_some hf
    simpa using hid

/-- The lookup returns a record carrying the id asked for, or the default record. -/
theorem WNELAddon.getExternalWallpaperById_id (a : WNELAddon) (id : String) :
    (a.getExternalWallpaperById id).id = id ∨ (a.getExternalWallpaperById id).id = "" := by
  unfold WNELAddon.getExternalWallpaperById
  cases hf : a.m_externalWallpapers.find? (fun info => info.id == id) with
  | none => right; rfl
  | some w =>
    left
    have hid := List.find?_some hf
    simpa using hid

/-- A lookup that found a record was asked for a non-empty id. -/
theorem WallpaperManager.id_ne_empty_of_found (m : WallpaperManager) (id : String)
    (h : (m.getWallpaperById id).id.isEmpty = false) : id ≠ "" := by
  rcases WallpaperManager.getWallpaperById_id m id with h1 | h1
  · intro hid
    rw [h1, hid] at h
    cases h
  · rw [h1] at h
    cases h

/-- A lookup that found a record was asked for a non-empty id. -/
theorem WNELAddon.addon_id_ne_empty_of_found (a : WNELAddon) (id : String)
    (h : (a.getExternalWallpaperById id).id.isEmpty = false) : id ≠ "" := by
  rcases WNELAddon.getExternalWallpaperById_id a id with h1 | h1
  · intro hid
    rw [h1, hid] at h
    cases h
  · rw [h1] at h
    cases h

/-- After a stop the current id is empty, if it was empty whenever no process was held. -/
theorem WallpaperManager.manager_stop_currentId (m : WallpaperManager) (o : StopOutcome)
    (h : m.m_wallpaperProcess = none → m.m_currentWallpaperId = "") :
    (m.stopWallpaper o).m_currentWallpaperId = "" := by
  cases hp : m.m_wallpaperProcess with
  | none =>
    rw [WallpaperManager.stopWallpaper_of_none m o hp]
    exact h hp
  | some p =>
    unfold WallpaperManager.stopWallpaper
    rcases o with ⟨t, k⟩
    cases t <;> cases k <;>
      simp [hp, WallpaperManager.emit, WallpaperManager.call,
        WallpaperManager.processFinished, WallpaperManager.onProcessFinished]

/-- Every event of the workshop launcher keeps: the current id is non-empty exactly
when a process is held. -/
theorem WallpaperManager.manager_step_currentId (m : WallpaperManager)
    (e : WallpaperManager.Event)
    (h : m.m_currentWallpaperId ≠ "" ↔ m.m_wallpaperProcess.isSome = true) :
    (m.step e).m_currentWallpaperId ≠ "" ↔ (m.step e).m_wallpaperProcess.isSome = true := by
  have hnone : m.m_wallpaperProcess = none → m.m_currentWallpaperId = "" := by
    intro hp
    by_contra hne
    have := h.mp hne
    rw [hp] at this
    cases this
  cases e with
  | launch config env id args o =>
    simp only [WallpaperManager.step]
    by_cases hr : config.wallpaperEnginePath.isEmpty = true ∨
        (m.getWallpaperById id).id.isEmpty = true
    · obtain ⟨_, hp, hc, _⟩ := WallpaperManager.launchWallpaper_refused m config env id args o hr
      rw [hp, hc]
      exact h
    · have hb : config.wallpaperEnginePath.isEmpty = false := by
        cases hx : config.wallpaperEnginePath.isEmpty
        · rfl
        · exact absurd (Or.inl hx) hr
      have hid : (m.getWallpaperById id).id.isEmpty = false := by
        cases hx : (m.getWallpaperById id).id.isEmpty
        · rfl
        · exact absurd (Or.inr hx) hr
      obtain ⟨_, hp, hc, _⟩ :=
        WallpaperManager.launchWallpaper_attempted m config env id args o hb hid
      rw [hp, hc]
      cases o.started
      · simp [WallpaperManager.manager_stop_currentId m o.stop hnone]
      · simpa using WallpaperManager.id_ne_empty_of_found m id hid
  | stop o =>
    simp only [WallpaperManager.step]
    rw [WallpaperManager.manager_stop_currentId m o hnone,
      (WallpaperManager.stopWallpaper_fields m o).1]
    simp
  | finished e =>
    cases hp : m.m_wallpaperProcess <;>
      simp [WallpaperManager.step, WallpaperManager.processFinished,
        WallpaperManager.onProcessFinished, hp, WallpaperManager.emit, WallpaperManager.call]

/-- In every state the workshop launcher reaches, the current id is non-empty exactly
when a process is held. -/
theorem WallpaperManager.manager_run_currentId (es : List WallpaperManager.Event)
    (m : WallpaperManager)
    (h : m.m_currentWallpaperId ≠ "" ↔ m.m_wallpaperProcess.isSome = true) :
    (m.run es).m_currentWallpaperId ≠ "" ↔ (m.run es).m_wallpaperProcess.isSome = true := by
  induction es generalizing m with
  | nil => exact h
  | cons e es ih => exact ih (m.step e) (WallpaperManager.manager_step_currentId m e h)

/-- Every event of the external-media launcher keeps: the current id is non-empty
exactly when a process is held. -/
theorem WNELAddon.addon_step_currentId (a : WNELAddon) (e : WNELAddon.Event)
    (h : a.m_currentWallpaperId ≠ "" ↔ a.m_wallpaperProcess.isSome = true) :
    (a.step e).m_currentWallpaperId ≠ "" ↔ (a.step e).m_wallpaperProcess.isSome = true := by
  have hnone : a.m_wallpaperProcess = none → a.m_currentWallpaperId = "" := by
    intro hp
    by_contra hne
    have := h.mp hne
    rw [hp] at this
    cases this
  cases e with
  | launch config env id args o =>
    simp only [WNELAddon.step]
    rcases WNELAddon.launchExternalWallpaper_cases a config env id with hr | ⟨he, hid, hv⟩ |
      ⟨he, hid, h1, h2, h3⟩
    · rw [WNELAddon.launchExternalWallpaper_refused a config env id args o hr]
      exact h
    · obtain ⟨_, hp, hc, _⟩ :=
        WNELAddon.launchExternalWallpaper_invalid a config env id args o he hid hv
      rw [hp, hc, WNELAddon.stopWallpaper_currentId a o.stop hnone]
      simp
    · obtain ⟨_, hp, hc, _⟩ :=
        WNELAddon.launchExternalWallpaper_attempted a config env id args o he hid h1 h2 h3
      rw [hp, hc]
      cases o.started
      · simp [WNELAddon.stopWallpaper_currentId a o.stop hnone]
      · simpa using WNELAddon.addon_id_ne_empty_of_found a id hid
  | stop o =>
    simp only [WNELAddon.step]
    rw [WNELAddon.stopWallpaper_currentId a o hnone, (WNELAddon.addon_stop_fields a o).1]
    simp
  | finished e =>
    cases hp : a.m_wallpaperProcess <;>
      simp [WNELAddon.step, WNELAddon.processFinished, WNELAddon.onProcessFinished, hp,
        WNELAddon.emit, WNELAddon.call]

/-- In every state the external-media launcher reaches, the current id is non-empty
exactly when a process is held. -/
theorem WNELAddon.addon_run_currentId (es : List WNELAddon.Event) (a : WNELAddon)
    (h : a.m_currentWallpaperId ≠ "" ↔ a.m_wallpaperProcess.isSome = true) :
    (a.run es).m_currentWallpaperId ≠ "" ↔ (a.run es).m_wallpaperProcess.isSome = true := by
  induction es generalizing a with
  | nil => exact h
  | cons e es ih => exact ih (a.step e) (WNELAddon.addon_step_currentId a e h)

/-- C11: current-id invariant. In every state of WallpaperManager, and of WNELAddon,
reached from the constructor state by launch, stop and process-finished events,
`getCurrentWallpaper()` is non-empty if and only if a child process is held; after a
launch of id that returns true `getCurrentWallpaper()` is id; and after
`stopWallpaper()` it is empty and `isWallpaperRunning()` is false, whatever the process
states are. -/
theorem current_id_invariant :
    (∀ (ws : List WallpaperInfo) (es : List WallpaperManager.Event),
      ((WallpaperManager.initial ws).run es).getCurrentWallpaper ≠ "" ↔
        ((WallpaperManager.initial ws).run es).m_wallpaperProcess.isSome = true) ∧
    (∀ (ws : List WallpaperInfo) (es : List WallpaperManager.Event) (config : ConfigManager)
        (env : Environment) (id : String) (args : List String) (o : LaunchOutcome),
      (((WallpaperManager.initial ws).run es).launchWallpaper config env id args o).1 = true →
      (((WallpaperManager.initial ws).run es).launchWallpaper config env id args
        o).2.getCurrentWallpaper = id) ∧
    (∀ (ws : List WallpaperInfo) (es : List WallpaperManager.Event) (o : StopOutcome)
        (running : Nat → Bool),
      (((WallpaperManager.initial ws).run es).stopWallpaper o).getCurrentWallpaper = "" ∧
      (((WallpaperManager.initial ws).run es).stopWallpaper o).isWallpaperRunning running
        = false) ∧
    (∀ (enabled : Bool) (path : String) (ws : List ExternalWallpaperInfo)
        (es : List WNELAddon.Event),
      ((WNELAddon.initial enabled path ws).run es).getCurrentWallpaper ≠ "" ↔
        ((WNELAddon.initial enabled path ws).run es).m_wallpaperProcess.isSome = true) ∧
    (∀ (enabled : Bool) (path : String) (ws : List ExternalWallpaperInfo)
        (es : List WNELAddon.Event) (config : ConfigManager) (env : Environment)
        (id : String) (args : List String) (o : LaunchOutcome),
      (((WNELAddon.initial enabled path ws).run es).launchExternalWallpaper config env id
        args o).1 = true →
      (((WNELAddon.initial enabled path ws).run es).launchExternalWallpaper config env id
        args o).2.getCurrentWallpaper = id) ∧
    (∀ (enabled : Bool) (path : String) (ws : List ExternalWallpaperInfo)
        (es : List WNELAddon.Event) (o : StopOutcome) (running : Nat → Bool),
      (((WNELAddon.initial enabled path ws).run es).stopWallpaper o).getCurrentWallpaper
        = "" ∧
      (((WNELAddon.initial enabled path ws).run es).stopWallpaper o).isWallpaperRunning
        running = false) := by
  have hm : ∀ (ws : List WallpaperInfo) (es : List WallpaperManager.Event),
      ((WallpaperManager.initial ws).run es).m_currentWallpaperId ≠ "" ↔
        ((WallpaperManager.initial ws).run es).m_wallpaperProcess.isSome = true :=
    fun ws es => WallpaperManager.manager_run_currentId es (WallpaperManager.initial ws)
      (by simp [WallpaperManager.initial])
  have ha : ∀ (enabled : Bool) (path : String) (ws : List ExternalWallpaperInfo)
      (es : List WNELAddon.Event),
      ((WNELAddon.initial enabled path ws).run es).m_currentWallpaperId ≠ "" ↔
        ((WNELAddon.initial enabled path ws).run es).m_wallpaperProcess.isSome = true :=
    fun enabled path ws es => WNELAddon.addon_run_currentId es
      (WNELAddon.initial enabled path ws) (by simp [WNELAddon.initial])
  refine ⟨hm, ?_, ?_, ha, ?_, ?_⟩
  · intro ws es config env id args o hret
    by_cases hr : config.wallpaperEnginePath.isEmpty = true ∨
        (((WallpaperManager.initial ws).run es).getWallpaperById id).id.isEmpty = true
    · rw [(WallpaperManager.launchWallpaper_refused _ config env id args o hr).1] at hret
      cases hret
    · have hb : config.wallpaperEnginePath.isEmpty = false := by
        cases hx : config.wallpaperEnginePath.isEmpty
        · rfl
        · exact absurd (Or.inl hx) hr
      have hid : (((WallpaperManager.initial ws).run es).getWallpaperById id).id.isEmpty
          = false := by
        cases hx : (((WallpaperManager.initial ws).run es).getWallpaperById id).id.isEmpty
        · rfl
        · exact absurd (Or.inr hx) hr
      obtain ⟨h1, _, hc, _⟩ :=
        WallpaperManager.launchWallpaper_attempted _ config env id args o hb hid
      rw [h1] at hret
      rw [WallpaperManager.getCurrentWallpaper, hc, hret]
      rfl
  · intro ws es o running
    have hnone : ((WallpaperManager.initial ws).run es).m_wallpaperProcess = none →
        ((WallpaperManager.initial ws).run es).m_currentWallpaperId = "" := by
      intro hp
      by_contra hne
      have := (hm ws es).mp hne
      rw [hp] at this
      cases this
    refine ⟨WallpaperManager.manager_stop_currentId _ o hnone, ?_⟩
    simp [WallpaperManager.isWallpaperRunning, (WallpaperManager.stopWallpaper_fields _ o).1]
  · intro enabled path ws es config env id args o hret
    rcases WNELAddon.launchExternalWallpaper_cases
        ((WNELAddon.initial enabled path ws).run es) config env id with
      hr | ⟨he, hid, hv⟩ | ⟨he, hid, h1, h2, h3⟩
    · rw [WNELAddon.launchExternalWallpaper_refused _ config env id args o hr] at hret
      cases hret
    · rw [(WNELAddon.launchExternalWallpaper_invalid _ config env id args o he hid hv).1]
        at hret
      cases hret
    · obtain ⟨hs, _, hc, _⟩ :=
        WNELAddon.launchExternalWallpaper_attempted _ config env id args o he hid h1 h2 h3
      rw [hs] at hret
      rw [WNELAddon.getCurrentWallpaper, hc, hret]
      rfl
  · intro enabled path ws es o running
    have hnone : ((WNELAddon.initial enabled path ws).run es).m_wallpaperProcess = none →
        ((WNELAddon.initial enabled path ws).run es).m_currentWallpaperId = "" := by
      intro hp
      by_contra hne
      have := (ha enabled path ws es).mp hne
      rw [hp] at this
      cases this
    refine ⟨WNELAddon.stopWallpaper_currentId _ o hnone, ?_⟩
    simp [WNELAddon.isWallpaperRunning, (WNELAddon.addon_stop_fields _ o).1]

/-- Witness for C11: the sample wallpaper is launched from the constructor state, and
the launch returns true. -/
theorem current_id_invariant_witness :
    (((WallpaperManager.initial [sampleWallpaper]).run []).launchWallpaper sampleConfig
      sampleEnvironment "123" [] startedOutcome).2.getCurrentWallpaper = "123" :=
  current_id_invariant.2.1 [sampleWallpaper] [] sampleConfig sampleEnvironment "123" []
    startedOutcome (by decide)

/-! ## The settings translator -/

/-- A conditional append is an append of a conditional segment. -/
theorem append_cond_segment (b : Bool) (a x : List String) :
    (if b = true then a ++ x else a) = a ++ (if b = true then x else []) := by
  cases b <;> simp

/-- A two-way append is an append of a two-way segment. -/
theorem append_either_segment (b : Bool) (a x y : List String) :
    (if b = true then a ++ x else a ++ y) = a ++ (if b = true then x else y) := by
  cases b <;> simp

/-- The translator's output as a concatenation of one segment per setting. -/
theorem WallpaperSettings.toCommandLineArgs_segments (s : WallpaperSettings) (ext : Bool) :
    s.toCommandLineArgs ext =
      (if s.silent = true then ["--silent"] else []) ++
      ((if (s.volume != 15) = true then ["--volume", formatHundredths s.volume] else []) ++
      ((if s.noAutoMute = true then ["--noautomute"] else []) ++
      ((if (s.fps != 30) = true then ["--fps", toString s.fps] else []) ++
      ((if (!s.customScreenRoot.isEmpty || !s.screenRoot.isEmpty) = true then
          [if ext = true then "--output" else "--screen-root",
           if (!s.customScreenRoot.isEmpty) = true then s.customScreenRoot else s.screenRoot]
        else []) ++
      ((if (s.scaling != "default") = true then ["--scaling", s.scaling] else []) ++
      ((if s.noLoop = true then ["--no-loop"] else []) ++
      ((if s.noHardwareDecode = true then ["--no-hardware-decode"] else []) ++
      ((if s.forceX11 = true then ["--force-x11"] else []) ++
      ((if s.forceWayland = true then ["--force-wayland"] else []) ++
      ((if s.verbose = true then ["--verbose"] else []) ++
      ((if (s.logLevel != "info") = true then ["--log-level", s.logLevel] else []) ++
      (if (!s.mpvOptions.isEmpty) = true then ["--mpv-options", s.mpvOptions]
        else [])))))))))))) := by
  unfold WallpaperSettings.toCommandLineArgs
  cases ext <;>
    simp only [append_cond_segment, Bool.false_eq_true, if_false, if_true] <;>
    simp only [List.nil_append, List.append_assoc]

/-- Reading a list that begins with a bare flag. -/
theorem readOptions_bare (flags : List String) (b : Bool) (flag : String)
    (rest : List String) (h : flag ∉ flags) :
    readOptions flags ((if b = true then [flag] else []) ++ rest) =
      (if b = true then [(flag, none)] else []) ++ readOptions flags rest := by
  cases b
  · simp
  · cases rest with
    | nil => simp [readOptions]
    | cons v rest => simp [readOptions, h]

/-- Reading a list that begins with a flag and its value. -/
theorem readOptions_valued (flags : List String) (b : Bool) (flag value : String)
    (rest : List String) (h : flag ∈ flags) :
    readOptions flags ((if b = true then [flag, value] else []) ++ rest) =
      (if b = true then [(flag, some value)] else []) ++
        readOptions flags rest := by
  cases b
  · simp
  · simp [readOptions, h]

/-- Emptiness test against the empty string. -/
theorem String.isEmpty_eq_false_iff (s : String) : s.isEmpty = false ↔ s ≠ "" := by
  cases h : s.isEmpty
  · simp only [true_iff]
    intro hs
    rw [(String.isEmpty_iff s).mpr hs] at h
    cases h
  · simp only [Bool.true_eq_false, false_iff, not_not]
    exact (String.isEmpty_iff s).mp h

/-- A segment whose flag fails the test leaves nothing after filtering. -/
theorem filter_segment_drop (p : String → Bool) (b : Bool) (flag : String)
    (v : Option String) (h : p flag = false) :
    List.filter (fun o : String × Option String => p o.1)
      (if b = true then [(flag, v)] else []) = [] := by
  cases b <;> simp [List.filter, h]

/-- C12: screen flag by target. Read as options, the output of
`toCommandLineArgs(isExternal)` holds no screen option when both `customScreenRoot` and
`screenRoot` are empty; otherwise it holds exactly one, whose flag is "--output" when
`isExternal` is true and "--screen-root" when it is false, and whose value, the element
right after the flag, is `customScreenRoot` if that is non-empty and `screenRoot`
otherwise. -/
theorem WallpaperSettings.screen_flag_by_target (s : WallpaperSettings) (isExternal : Bool) :
    screenOptions WallpaperSettings.valueFlags (s.toCommandLineArgs isExternal) =
      (if s.customScreenRoot = "" ∧ s.screenRoot = "" then []
       else [(if isExternal = true then "--output" else "--screen-root",
              some (if s.customScreenRoot ≠ "" then s.customScreenRoot else s.screenRoot))]) ∧
    (¬ (s.customScreenRoot = "" ∧ s.screenRoot = "") →
      ∃ pre post : List String,
        s.toCommandLineArgs isExternal =
          pre ++ [if isExternal = true then "--output" else "--screen-root",
                  if s.customScreenRoot ≠ "" then s.customScreenRoot else s.screenRoot] ++
            post) := by
  have hboth : (!s.customScreenRoot.isEmpty || !s.screenRoot.isEmpty) = true ↔
      ¬ (s.customScreenRoot = "" ∧ s.screenRoot = "") := by
    rw [← String.isEmpty_iff, ← String.isEmpty_iff]
    cases s.customScreenRoot.isEmpty <;> cases s.screenRoot.isEmpty <;> simp
  have hval : (if (!s.customScreenRoot.isEmpty) = true then s.customScreenRoot
      else s.screenRoot) =
      (if s.customScreenRoot ≠ "" then s.customScreenRoot else s.screenRoot) := by
    by_cases hx : s.customScreenRoot = ""
    · have he : s.customScreenRoot.isEmpty = true := (String.isEmpty_iff _).mpr hx
      rw [he]
      simp [hx]
    · simp [hx, (String.isEmpty_eq_false_iff _).mpr hx]
  constructor
  · unfold screenOptions
    have hflag : (if isExternal = true then "--output" else "--screen-root") ∈
        WallpaperSettings.valueFlags := by
      cases isExternal <;> decide
    have hlast : readOptions WallpaperSettings.valueFlags
        (if (!s.mpvOptions.isEmpty) = true then ["--mpv-options", s.mpvOptions] else []) =
        (if (!s.mpvOptions.isEmpty) = true then [("--mpv-options", some s.mpvOptions)]
          else []) := by
      split <;> simp [readOptions, WallpaperSettings.valueFlags]
    rw [WallpaperSettings.toCommandLineArgs_segments,
      readOptions_bare WallpaperSettings.valueFlags _ _ _ (by decide),
      readOptions_valued WallpaperSettings.valueFlags _ _ _ _ (by decide),
      readOptions_bare WallpaperSettings.valueFlags _ _ _ (by decide),
      readOptions_valued WallpaperSettings.valueFlags _ _ _ _ (by decide),
      readOptions_valued WallpaperSettings.valueFlags _ _ _ _ hflag,
      readOptions_valued WallpaperSettings.valueFlags _ _ _ _ (by decide),
      readOptions_bare WallpaperSettings.valueFlags _ _ _ (by decide),
      readOptions_bare WallpaperSettings.valueFlags _ _ _ (by decide),
      readOptions_bare WallpaperSettings.valueFlags _ _ _ (by decide),
      readOptions_bare WallpaperSettings.valueFlags _ _ _ (by decide),
      readOptions_bare WallpaperSettings.valueFlags _ _ _ (by decide),
      readOptions_valued WallpaperSettings.valueFlags _ _ _ _ (by decide), hlast, hval]
    simp only [List.filter_append]
    rw [filter_segment_drop (fun f => f == "--output" || f == "--screen-root") _ "--silent" _
        (by decide),
      filter_segment_drop (fun f => f == "--output" || f == "--screen-root") _ "--volume" _
        (by decide),
      filter_segment_drop (fun f => f == "--output" || f == "--screen-root") _ "--noautomute" _
        (by decide),
      filter_segment_drop (fun f => f == "--output" || f == "--screen-root") _ "--fps" _
        (by decide),
      filter_segment_drop (fun f => f == "--output" || f == "--screen-root") _ "--scaling" _
        (by decide),
      filter_segment_drop (fun f => f == "--output" || f == "--screen-root") _ "--no-loop" _
        (by decide),
      filter_segment_drop (fun f => f == "--output" || f == "--screen-root") _ "--no-hardware-decode" _
        (by decide),
      filter_segment_drop (fun f => f == "--output" || f == "--screen-root") _ "--force-x11" _
        (by decide),
      filter_segment_drop (fun f => f == "--output" || f == "--screen-root") _ "--force-wayland" _
        (by decide),
      filter_segment_drop (fun f => f == "--output" || f == "--screen-root") _ "--verbose" _
        (by decide),
      filter_segment_drop (fun f => f == "--output" || f == "--screen-root") _ "--log-level" _
        (by decide),
      filter_segment_drop (fun f => f == "--output" || f == "--screen-root") _ "--mpv-options" _
        (by decide)]
    by_cases hb : s.customScreenRoot = "" ∧ s.screenRoot = ""
    · have hb' : (!s.customScreenRoot.isEmpty || !s.screenRoot.isEmpty) = false := by
        cases hx : (!s.customScreenRoot.isEmpty || !s.screenRoot.isEmpty)
        · rfl
        · exact absurd hb (hboth.mp hx)
      rw [if_pos hb, hb']
      simp
    · have hb' : (!s.customScreenRoot.isEmpty || !s.screenRoot.isEmpty) = true := hboth.mpr hb
      rw [if_neg hb, hb']
      cases isExternal <;> simp [List.filter]
  · intro hb
    have hb' : (!s.customScreenRoot.isEmpty || !s.screenRoot.isEmpty) = true := hboth.mpr hb
    rw [WallpaperSettings.toCommandLineArgs_segments, hb', hval]
    refine ⟨(if s.silent = true then ["--silent"] else []) ++
      ((if (s.volume != 15) = true then ["--volume", formatHundredths s.volume] else []) ++
      ((if s.noAutoMute = true then ["--noautomute"] else []) ++
      (if (s.fps != 30) = true then ["--fps", toString s.fps] else []))),
      (if (s.scaling != "default") = true then ["--scaling", s.scaling] else []) ++
      ((if s.noLoop = true then ["--no-loop"] else []) ++
      ((if s.noHardwareDecode = true then ["--no-hardware-decode"] else []) ++
      ((if s.forceX11 = true then ["--force-x11"] else []) ++
      ((if s.forceWayland = true then ["--force-wayland"] else []) ++
      ((if s.verbose = true then ["--verbose"] else []) ++
      ((if (s.logLevel != "info") = true then ["--log-level", s.logLevel] else []) ++
      (if (!s.mpvOptions.isEmpty) = true then ["--mpv-options", s.mpvOptions]
        else []))))))), ?_⟩
    simp only [if_true, List.append_assoc]

/-- Witness for C12: an external wallpaper with screen root DP-1. -/
theorem WallpaperSettings.screen_flag_by_target_witness :
    ∃ pre post : List String,
      ({ screenRoot := "DP-1" } : WallpaperSettings).toCommandLineArgs true =
        pre ++ [if true = true then "--output" else "--screen-root",
                if ({ screenRoot := "DP-1" } : WallpaperSettings).customScreenRoot ≠ ""
                then ({ screenRoot := "DP-1" } : WallpaperSettings).customScreenRoot
                else ({ screenRoot := "DP-1" } : WallpaperSettings).screenRoot] ++ post :=
  (WallpaperSettings.screen_flag_by_target { screenRoot := "DP-1" } true).2 (by decide)

/-- C13: volume encoding in the settings translator, evaluated at volume 50 for the
linux-wallpaperengine target (`isExternalWallpaper` false): the translator emits
"--volume" followed by "0.50", the decimal form it also emits for the WNEL target, and
not the integer percentage "50". -/
theorem WallpaperSettings.volume_for_engine_target :
    ({ volume := 50 } : WallpaperSettings).toCommandLineArgs false = ["--volume", "0.50"] ∧
    ({ volume := 50 } : WallpaperSettings).toCommandLineArgs true = ["--volume", "0.50"] ∧
    ({ volume := 15 } : WallpaperSettings).toCommandLineArgs false = [] ∧
    ({ volume := 15 } : WallpaperSettings).toCommandLineArgs true = [] := by
  decide

/-! ## Volume options built by the launchers -/

/-- Reading a list that consists of one optional flag with its value. -/
theorem readOptions_valued_last (flags : List String) (b : Bool) (flag value : String)
    (h : flag ∈ flags) :
    readOptions flags (if b = true then [flag, value] else []) =
      (if b = true then [(flag, some value)] else []) := by
  have := readOptions_valued flags b flag value [] h
  simpa [readOptions] using this

/-- The configuration part of the engine's argument list, one segment per setting. -/
theorem WallpaperManager.settingsArguments_segments (config : ConfigManager) (id : String) :
    WallpaperManager.settingsArguments config id =
      (if (!(config.getWallpaperScreenRoot id).isEmpty) = true
        then ["--screen-root", config.getWallpaperScreenRoot id] else []) ++
      ((if (config.getWallpaperMasterVolume id != 15) = true
        then ["--volume", toString (config.getWallpaperMasterVolume id)] else []) ++
      ((if config.getWallpaperNoAutoMute id = true then ["--noautomute"] else []) ++
      ((if config.getWallpaperNoAudioProcessing id = true
        then ["--no-audio-processing"] else []) ++
      ((if config.getWallpaperSilent id = true then ["--silent"] else []) ++
      ((if (!(config.getWallpaperWindowMode id).isEmpty) = true
        then ["--window", config.getWallpaperWindowMode id] else []) ++
      (if (!(config.getWallpaperAudioDevice id).isEmpty &&
          config.getWallpaperAudioDevice id != "default") = true
        then ["--audio-device", config.getWallpaperAudioDevice id] else [])))))) := by
  unfold WallpaperManager.settingsArguments
  simp only [append_cond_segment]
  simp only [List.nil_append, List.append_assoc]

/-- The configuration part of the WNEL argument list, one segment per setting. -/
theorem WNELAddon.addon_settingsArguments_segments (config : ConfigManager) (id : String) :
    WNELAddon.settingsArguments config id =
      (if (!(config.getWallpaperScreenRoot id).isEmpty) = true
        then ["--output", config.getWallpaperScreenRoot id] else []) ++
      ((if (config.getWallpaperMasterVolume id != 15) = true
        then ["--volume", formatHundredths (config.getWallpaperMasterVolume id)] else []) ++
      ((if config.getWallpaperNoAutoMute id = true then ["--noautomute"] else []) ++
      ((if config.getWallpaperNoAudioProcessing id = true
        then ["--no-audio-processing"] else []) ++
      ((if config.getWallpaperSilent id = true then ["--silent"] else []) ++
      (if (!(config.getWallpaperAudioDevice id).isEmpty &&
          config.getWallpaperAudioDevice id != "default") = true
        then ["--audio-device", config.getWallpaperAudioDevice id] else []))))) := by
  unfold WNELAddon.settingsArguments
  simp only [append_cond_segment]
  simp only [List.nil_append, List.append_assoc]

/-- The engine's argument list begins with its configuration part. -/
theorem WallpaperManager.baseArguments_eq (config : ConfigManager) (wallpaper : WallpaperInfo)
    (id : String) (additionalArgs : List String) :
    WallpaperManager.baseArguments config wallpaper id additionalArgs =
      WallpaperManager.settingsArguments config id ++
        (additionalArgs ++
          ((if (!config.getAssetsDir.isEmpty &&
              !(WallpaperManager.settingsArguments config id ++ additionalArgs).contains
                "--assets-dir") = true
            then ["--assets-dir", config.getAssetsDir] else []) ++ [wallpaper.path])) := by
  unfold WallpaperManager.baseArguments WallpaperManager.settingsArguments
  simp only [append_cond_segment (!config.getAssetsDir.isEmpty && _)]
  simp only [List.append_assoc]

/-- The WNEL argument list begins with its configuration part. -/
theorem WNELAddon.launchArguments_eq (config : ConfigManager) (info : ExternalWallpaperInfo)
    (id : String) (additionalArgs : List String) :
    WNELAddon.launchArguments config info id additionalArgs =
      WNELAddon.settingsArguments config id ++
        (WNELAddon.convertArguments additionalArgs ++ [info.symlinkPath]) := by
  unfold WNELAddon.launchArguments WNELAddon.settingsArguments
  simp only [List.append_assoc]

/-- The volume option of the engine's configuration part. -/
theorem WallpaperManager.settingsArguments_volume (config : ConfigManager) (id : String) :
    volumeOptions WallpaperManager.settingsValueFlags
        (WallpaperManager.settingsArguments config id) =
      (if config.getWallpaperMasterVolume id = 15 then []
       else [("--volume", some (toString (config.getWallpaperMasterVolume id)))]) := by
  unfold volumeOptions
  rw [WallpaperManager.settingsArguments_segments,
    readOptions_valued WallpaperManager.settingsValueFlags _ _ _ _ (by decide),
    readOptions_valued WallpaperManager.settingsValueFlags _ _ _ _ (by decide),
    readOptions_bare WallpaperManager.settingsValueFlags _ _ _ (by decide),
    readOptions_bare WallpaperManager.settingsValueFlags _ _ _ (by decide),
    readOptions_bare WallpaperManager.settingsValueFlags _ _ _ (by decide),
    readOptions_valued WallpaperManager.settingsValueFlags _ _ _ _ (by decide),
    readOptions_valued_last WallpaperManager.settingsValueFlags _ _ _ (by decide)]
  simp only [List.filter_append]
  rw [filter_segment_drop (fun f => f == "--volume") _ "--screen-root" _ (by decide),
    filter_segment_drop (fun f => f == "--volume") _ "--noautomute" _ (by decide),
    filter_segment_drop (fun f => f == "--volume") _ "--no-audio-processing" _ (by decide),
    filter_segment_drop (fun f => f == "--volume") _ "--silent" _ (by decide),
    filter_segment_drop (fun f => f == "--volume") _ "--window" _ (by decide),
    filter_segment_drop (fun f => f == "--volume") _ "--audio-device" _ (by decide)]
  by_cases hv : config.getWallpaperMasterVolume id = 15
  · simp [hv]
  · simp [hv, List.filter]

/-- The volume option of the WNEL configuration part. -/
theorem WNELAddon.addon_settingsArguments_volume (config : ConfigManager) (id : String) :
    volumeOptions WNELAddon.settingsValueFlags (WNELAddon.settingsArguments config id) =
      (if config.getWallpaperMasterVolume id = 15 then []
       else [("--volume", some (formatHundredths (config.getWallpaperMasterVolume id)))]) := by
  unfold volumeOptions
  rw [WNELAddon.addon_settingsArguments_segments,
    readOptions_valued WNELAddon.settingsValueFlags _ _ _ _ (by decide),
    readOptions_valued WNELAddon.settingsValueFlags _ _ _ _ (by decide),
    readOptions_bare WNELAddon.settingsValueFlags _ _ _ (by decide),
    readOptions_bare WNELAddon.settingsValueFlags _ _ _ (by decide),
    readOptions_bare WNELAddon.settingsValueFlags _ _ _ (by decide),
    readOptions_valued_last WNELAddon.settingsValueFlags _ _ _ (by decide)]
  simp only [List.filter_append]
  rw [filter_segment_drop (fun f => f == "--volume") _ "--output" _ (by decide),
    filter_segment_drop (fun f => f == "--volume") _ "--noautomute" _ (by decide),
    filter_segment_drop (fun f => f == "--volume") _ "--no-audio-processing" _ (by decide),
    filter_segment_drop (fun f => f == "--volume") _ "--silent" _ (by decide),
    filter_segment_drop (fun f => f == "--volume") _ "--audio-device" _ (by decide)]
  by_cases hv : config.getWallpaperMasterVolume id = 15
  · simp [hv]
  · simp [hv, List.filter]

/-- A per-wallpaper volume that was stored is the one read back. -/
theorem ConfigManager.getWallpaperMasterVolume_stored (config : ConfigManager) (id : String)
    (v : Int) : (config.setWallpaperMasterVolume id v).getWallpaperMasterVolume id = v := by
  simp [ConfigManager.setWallpaperMasterVolume, ConfigManager.getWallpaperMasterVolume,
    ConfigManager.setWallpaperValue, ConfigManager.getWallpaperValue, QSettings.value_sync,
    QSettings.value_setValue_same, QVariant.toInt]

/-- C14: volume encoding in the two launchers. With the per-wallpaper volume v stored,
the configuration part of the list built by `WallpaperManager::launchWallpaper`, read as
options, holds for v other than 15 exactly one volume option, "--volume" followed by the
decimal integer string of v, and the configuration part of the list built by
`WNELAddon::launchExternalWallpaper` holds exactly one, "--volume" followed by v/100
written with two fractional digits (50 gives "0.50", 7 gives "0.07", 100 gives "1.00");
for v = 15 neither holds a volume option. Each full list begins with its configuration
part, so for v other than 15 it contains the two elements side by side, and it is the
list handed to the process that a launch starts. -/
theorem volume_encoding_in_launchers :
    (∀ (config : ConfigManager) (id : String) (v : Int) (wallpaper : WallpaperInfo)
        (additionalArgs : List String),
      volumeOptions WallpaperManager.settingsValueFlags
          (WallpaperManager.settingsArguments (config.setWallpaperMasterVolume id v) id) =
        (if v = 15 then [] else [("--volume", some (toString v))]) ∧
      (∃ rest : List String,
        WallpaperManager.baseArguments (config.setWallpaperMasterVolume id v) wallpaper id
            additionalArgs =
          WallpaperManager.settingsArguments (config.setWallpaperMasterVolume id v) id ++
            rest) ∧
      (v ≠ 15 → ∃ pre post : List String,
        WallpaperManager.baseArguments (config.setWallpaperMasterVolume id v) wallpaper id
            additionalArgs = pre ++ ["--volume", toString v] ++ post)) ∧
    (∀ (config : ConfigManager) (id : String) (v : Int) (info : ExternalWallpaperInfo)
        (additionalArgs : List String),
      volumeOptions WNELAddon.settingsValueFlags
          (WNELAddon.settingsArguments (config.setWallpaperMasterVolume id v) id) =
        (if v = 15 then [] else [("--volume", some (formatHundredths v))]) ∧
      (∃ rest : List String,
        WNELAddon.launchArguments (config.setWallpaperMasterVolume id v) info id
            additionalArgs =
          WNELAddon.settingsArguments (config.setWallpaperMasterVolume id v) id ++ rest) ∧
      (v ≠ 15 → ∃ pre post : List String,
        WNELAddon.launchArguments (config.setWallpaperMasterVolume id v) info id
            additionalArgs = pre ++ ["--volume", formatHundredths v] ++ post)) ∧
    (formatHundredths 50 = "0.50" ∧ formatHundredths 7 = "0.07" ∧
      formatHundredths 100 = "1.00") ∧
    (∀ (m : WallpaperManager) (config : ConfigManager) (env : Environment) (id : String)
        (args : List String) (o : LaunchOutcome),
      config.wallpaperEnginePath.isEmpty = false →
      (m.getWallpaperById id).id.isEmpty = false →
      ProcessCall.start m.nextProcess config.wallpaperEnginePath
          (WallpaperManager.baseArguments config (m.getWallpaperById id) id args ++
            WallpaperManager.backupPropertyArguments env (m.getWallpaperById id)) ∈
        (m.launchWallpaper config env id args o).2.processLog) ∧
    (∀ (a : WNELAddon) (config : ConfigManager) (env : Environment) (id : String)
        (args : List String) (o : LaunchOutcome),
      (a.launchExternalWallpaper config env id args o).1 = true →
      ProcessCall.start a.nextProcess config.wnelBinaryPath
          (WNELAddon.launchArguments config (a.getExternalWallpaperById id) id args) ∈
        (a.launchExternalWallpaper config env id args o).2.processLog) := by
  refine ⟨?_, ?_, by decide, ?_, ?_⟩
  · intro config id v wallpaper additionalArgs
    have hv := ConfigManager.getWallpaperMasterVolume_stored config id v
    refine ⟨?_, ⟨_, WallpaperManager.baseArguments_eq _ wallpaper id additionalArgs⟩, ?_⟩
    · rw [WallpaperManager.settingsArguments_volume, hv]
    · intro hne
      obtain ⟨rest, hrest⟩ : ∃ rest : List String,
          WallpaperManager.baseArguments (config.setWallpaperMasterVolume id v) wallpaper id
              additionalArgs =
            WallpaperManager.settingsArguments (config.setWallpaperMasterVolume id v) id ++
              rest := ⟨_, WallpaperManager.baseArguments_eq _ wallpaper id additionalArgs⟩
      have hb : (v != 15) = true := by simpa using hne
      rw [hrest, WallpaperManager.settingsArguments_segments, hv, hb]
      simp only [if_true, List.append_assoc]
      exact ⟨_, _, rfl⟩
  · intro config id v info additionalArgs
    have hv := ConfigManager.getWallpaperMasterVolume_stored config id v
    refine ⟨?_, ⟨_, WNELAddon.launchArguments_eq _ info id additionalArgs⟩, ?_⟩
    · rw [WNELAddon.addon_settingsArguments_volume, hv]
    · intro hne
      obtain ⟨rest, hrest⟩ : ∃ rest : List String,
          WNELAddon.launchArguments (config.setWallpaperMasterVolume id v) info id
              additionalArgs =
            WNELAddon.settingsArguments (config.setWallpaperMasterVolume id v) id ++ rest :=
        ⟨_, WNELAddon.launchArguments_eq _ info id additionalArgs⟩
      have hb : (v != 15) = true := by simpa using hne
      rw [hrest, WNELAddon.addon_settingsArguments_segments, hv, hb]
      simp only [if_true, List.append_assoc]
      exact ⟨_, _, rfl⟩
  · intro m config env id args o hb hid
    rw [(WallpaperManager.launchWallpaper_attempted m config env id args o hb hid).2.2.2.1]
    simp
  · intro a config env id args o hret
    rcases WNELAddon.launchExternalWallpaper_cases a config env id with hr | ⟨he, hid, hv⟩ |
      ⟨he, hid, h1, h2, h3⟩
    · rw [WNELAddon.launchExternalWallpaper_refused a config env id args o hr] at hret
      cases hret
    · rw [(WNELAddon.launchExternalWallpaper_invalid a config env id args o he hid hv).1]
        at hret
      cases hret
    · rw [(WNELAddon.launchExternalWallpaper_attempted a config env id args o he hid
        h1 h2 h3).2.2.2]
      simp

/-- Witness for C14: the stored volume 50 in the list built for the sample wallpaper. -/
theorem volume_encoding_in_launchers_witness :
    ∃ pre post : List String,
      WallpaperManager.baseArguments (sampleConfig.setWallpaperMasterVolume "123" 50)
          sampleWallpaper "123" [] = pre ++ ["--volume", toString (50 : Int)] ++ post :=
  (volume_encoding_in_launchers.1 sampleConfig "123" 50 sampleWallpaper []).2.2 (by decide)

/-! ## The WNEL argument translation table -/

/-- The loop copies a bare "--silent" and goes on with the rest. -/
theorem WNELAddon.convertArguments_silent (rest : List String) :
    WNELAddon.convertArguments ("--silent" :: rest) =
      "--silent" :: WNELAddon.convertArguments rest := by
  cases rest <;> simp [WNELAddon.convertArguments]

/-- The loop copies a bare "--no-loop" and goes on with the rest. -/
theorem WNELAddon.convertArguments_noLoop (rest : List String) :
    WNELAddon.convertArguments ("--no-loop" :: rest) =
      "--no-loop" :: WNELAddon.convertArguments rest := by
  cases rest <;> simp [WNELAddon.convertArguments]

/-- The loop copies a bare "--no-hardware-decode" and goes on with the rest. -/
theorem WNELAddon.convertArguments_noHardwareDecode (rest : List String) :
    WNELAddon.convertArguments ("--no-hardware-decode" :: rest) =
      "--no-hardware-decode" :: WNELAddon.convertArguments rest := by
  cases rest <;> simp [WNELAddon.convertArguments]

/-- The loop copies a bare "--noautomute" and goes on with the rest. -/
theorem WNELAddon.convertArguments_noAutoMute (rest : List String) :
    WNELAddon.convertArguments ("--noautomute" :: rest) =
      "--noautomute" :: WNELAddon.convertArguments rest := by
  cases rest <;> simp [WNELAddon.convertArguments]

/-- The loop turns one recognised option at the head of the list into its image and
goes on with the rest. -/
theorem WNELAddon.convertArguments_option (o : WNELAddon.RecognisedOption)
    (rest : List String) :
    WNELAddon.convertArguments (o.tokens ++ rest) =
      o.image ++ WNELAddon.convertArguments rest := by
  cases o with
  | volume v =>
    cases h : QString.toInt v <;>
      simp [WNELAddon.RecognisedOption.tokens, WNELAddon.RecognisedOption.image,
        WNELAddon.convertArguments, h]
  | fps v =>
    simp [WNELAddon.RecognisedOption.tokens, WNELAddon.RecognisedOption.image,
      WNELAddon.convertArguments]
  | screenRoot v =>
    simp [WNELAddon.RecognisedOption.tokens, WNELAddon.RecognisedOption.image,
      WNELAddon.convertArguments]
  | scaling v =>
    simp [WNELAddon.RecognisedOption.tokens, WNELAddon.RecognisedOption.image,
      WNELAddon.convertArguments]
  | mpvOptions v =>
    simp [WNELAddon.RecognisedOption.tokens, WNELAddon.RecognisedOption.image,
      WNELAddon.convertArguments]
  | logLevel v =>
    simp [WNELAddon.RecognisedOption.tokens, WNELAddon.RecognisedOption.image,
      WNELAddon.convertArguments]
  | silent =>
    simpa [WNELAddon.RecognisedOption.tokens, WNELAddon.RecognisedOption.image] using
      WNELAddon.convertArguments_silent rest
  | noLoop =>
    simpa [WNELAddon.RecognisedOption.tokens, WNELAddon.RecognisedOption.image] using
      WNELAddon.convertArguments_noLoop rest
  | noHardwareDecode =>
    simpa [WNELAddon.RecognisedOption.tokens, WNELAddon.RecognisedOption.image] using
      WNELAddon.convertArguments_noHardwareDecode rest
  | noAutoMute =>
    simpa [WNELAddon.RecognisedOption.tokens, WNELAddon.RecognisedOption.image] using
      WNELAddon.convertArguments_noAutoMute rest

/-- The loop maps a concatenation of recognised options to the concatenation of their
images. -/
theorem WNELAddon.convertArguments_optionTokens (opts : List WNELAddon.RecognisedOption) :
    WNELAddon.convertArguments (WNELAddon.optionTokens opts) =
      WNELAddon.optionImages opts := by
  induction opts with
  | nil => simp [WNELAddon.optionTokens, WNELAddon.optionImages, WNELAddon.convertArguments]
  | cons o opts ih =>
    have h := WNELAddon.convertArguments_option o (WNELAddon.optionTokens opts)
    rw [ih] at h
    simpa [WNELAddon.optionTokens, WNELAddon.optionImages] using h

/-- C15: the WNEL argument translation table. For every `additionalArgs` list that is a
concatenation of recognised options, the conversion loop of
`WNELAddon::launchExternalWallpaper` produces the in-order concatenation of the images
of the options, and that is the part of the argument list between the configuration
part and the media path. The image of "--screen-root V" is "--output V"; the image of
"--volume N" is "--volume" with N/100 to two decimals when N parses as an integer and
nothing otherwise; every other recognised option is its own image. -/
theorem WNELAddon.argument_translation_table :
    (∀ (opts : List WNELAddon.RecognisedOption),
      WNELAddon.convertArguments (WNELAddon.optionTokens opts) =
        WNELAddon.optionImages opts) ∧
    (∀ (config : ConfigManager) (info : ExternalWallpaperInfo) (id : String)
        (opts : List WNELAddon.RecognisedOption),
      WNELAddon.launchArguments config info id (WNELAddon.optionTokens opts) =
        WNELAddon.settingsArguments config id ++
          (WNELAddon.optionImages opts ++ [info.symlinkPath])) ∧
    (∀ (o : WNELAddon.RecognisedOption) (opts : List WNELAddon.RecognisedOption),
      WNELAddon.optionTokens (o :: opts) = o.tokens ++ WNELAddon.optionTokens opts ∧
      WNELAddon.optionImages (o :: opts) = o.image ++ WNELAddon.optionImages opts) ∧
    (WNELAddon.optionTokens [] = [] ∧ WNELAddon.optionImages [] = []) ∧
    (∀ v : String,
      (WNELAddon.RecognisedOption.screenRoot v).tokens = ["--screen-root", v] ∧
      (WNELAddon.RecognisedOption.screenRoot v).image = ["--output", v] ∧
      (WNELAddon.RecognisedOption.volume v).tokens = ["--volume", v] ∧
      (WNELAddon.RecognisedOption.volume v).image =
        (match QString.toInt v with
          | some n => ["--volume", formatHundredths n]
          | none => []) ∧
      (WNELAddon.RecognisedOption.fps v).tokens = ["--fps", v] ∧
      (WNELAddon.RecognisedOption.fps v).image = ["--fps", v] ∧
      (WNELAddon.RecognisedOption.scaling v).tokens = ["--scaling", v] ∧
      (WNELAddon.RecognisedOption.scaling v).image = ["--scaling", v] ∧
      (WNELAddon.RecognisedOption.mpvOptions v).tokens = ["--mpv-options", v] ∧
      (WNELAddon.RecognisedOption.mpvOptions v).image = ["--mpv-options", v] ∧
      (WNELAddon.RecognisedOption.logLevel v).tokens = ["--log-level", v] ∧
      (WNELAddon.RecognisedOption.logLevel v).image = ["--log-level", v]) ∧
    (WNELAddon.RecognisedOption.silent.tokens = ["--silent"] ∧
      WNELAddon.RecognisedOption.silent.image = ["--silent"] ∧
      WNELAddon.RecognisedOption.noLoop.tokens = ["--no-loop"] ∧
      WNELAddon.RecognisedOption.noLoop.image = ["--no-loop"] ∧
      WNELAddon.RecognisedOption.noHardwareDecode.tokens = ["--no-hardware-decode"] ∧
      WNELAddon.RecognisedOption.noHardwareDecode.image = ["--no-hardware-decode"] ∧
      WNELAddon.RecognisedOption.noAutoMute.tokens = ["--noautomute"] ∧
      WNELAddon.RecognisedOption.noAutoMute.image = ["--noautomute"]) := by
  refine ⟨WNELAddon.convertArguments_optionTokens, ?_, ?_, ⟨rfl, rfl⟩, ?_, ?_⟩
  · intro config info id opts
    rw [WNELAddon.launchArguments_eq, WNELAddon.convertArguments_optionTokens]
  · intro o opts
    exact ⟨rfl, rfl⟩
  · intro v
    exact ⟨rfl, rfl, rfl, rfl, rfl, rfl, rfl, rfl, rfl, rfl, rfl, rfl⟩
  · exact ⟨rfl, rfl, rfl, rfl, rfl, rfl, rfl, rfl⟩

/-! ## Paths and JSON objects -/

/-- A scan that stops at `a` after a run `l` on which the test holds takes exactly `l`. -/
theorem takeWhile_append_stop {α : Type} (p : α → Bool) (l r : List α) (a : α)
    (hl : ∀ x ∈ l, p x = true) (ha : p a = false) : (l ++ a :: r).takeWhile p = l := by
  induction l with
  | nil => simp [List.takeWhile, ha]
  | cons x xs ih =>
    have hx : p x = true := hl x (List.mem_cons_self _ _)
    have hxs : ∀ y ∈ xs, p y = true := fun y hy => hl y (List.mem_cons_of_mem _ hy)
    simp [List.takeWhile, hx, ih hxs]

/-- The same scan drops exactly `l`. -/
theorem dropWhile_append_stop {α : Type} (p : α → Bool) (l r : List α) (a : α)
    (hl : ∀ x ∈ l, p x = true) (ha : p a = false) : (l ++ a :: r).dropWhile p = a :: r := by
  induction l with
  | nil => simp [List.dropWhile, ha]
  | cons x xs ih =>
    have hx : p x = true := hl x (List.mem_cons_self _ _)
    have hxs : ∀ y ∈ xs, p y = true := fun y hy => hl y (List.mem_cons_of_mem _ hy)
    simp [List.dropWhile, hx, ih hxs]

/-- After the last separator comes the part that holds none. -/
theorem afterLast_append (c : Char) (d n : List Char) (h : c ∉ n) :
    afterLast c (d ++ c :: n) = n := by
  unfold afterLast
  have hrev : (d ++ c :: n).reverse = n.reverse ++ c :: d.reverse := by simp
  rw [hrev, takeWhile_append_stop _ _ _ _ (fun x hx => ?_) (by simp), List.reverse_reverse]
  have hx2 : x ∈ n := List.mem_reverse.mp hx
  have hne : x ≠ c := fun e => h (e ▸ hx2)
  simpa using hne

/-- Before the last separator comes everything that precedes it. -/
theorem beforeLast_append (c : Char) (d n : List Char) (h : c ∉ n) :
    beforeLast c (d ++ c :: n) = d := by
  unfold beforeLast
  have hrev : (d ++ c :: n).reverse = n.reverse ++ c :: d.reverse := by simp
  rw [hrev, dropWhile_append_stop _ _ _ _ (fun x hx => ?_) (by simp)]
  · simp
  · have hx2 : x ∈ n := List.mem_reverse.mp hx
    have hne : x ≠ c := fun e => h (e ▸ hx2)
    simpa using hne

/-- The file name of `dir/name` is `name` when `name` holds no slash. -/
theorem QFileInfo.fileName_join (dir name : String) (h : '/' ∉ name.data) :
    QFileInfo.fileName (dir ++ "/" ++ name) = name := by
  unfold QFileInfo.fileName
  have hd : (dir ++ "/" ++ name).data = dir.data ++ '/' :: name.data := by
    simp [String.data_append]
  rw [hd, afterLast_append _ _ _ h]

/-- The directory part of `dir/name` is `dir` when `name` holds no slash and `dir` is
not empty. -/
theorem QFileInfo.path_join (dir name : String) (h : '/' ∉ name.data) (hdir : dir ≠ "") :
    QFileInfo.path (dir ++ "/" ++ name) = dir := by
  unfold QFileInfo.path
  have hd : (dir ++ "/" ++ name).data = dir.data ++ '/' :: name.data := by
    simp [String.data_append]
  rw [hd, beforeLast_append _ _ _ h]
  have hmem : '/' ∈ dir.data ++ '/' :: name.data := by simp
  rw [if_pos hmem]
  have hne : dir.data ≠ [] := by
    intro e
    apply hdir
    cases dir
    simp_all
  cases hdd : dir.data with
  | nil => exact absurd hdd hne
  | cons x xs =>
    simp only
    rw [← hdd]

/-- The last character of `dir/name` is that of `name`. -/
theorem getLast_join (dir name : String) (hname : name ≠ "") :
    (dir ++ "/" ++ name).data.getLast? = name.data.getLast? := by
  have hd : (dir ++ "/" ++ name).data = (dir.data ++ ['/']) ++ name.data := by
    simp [String.data_append]
  have hne : name.data ≠ [] := by
    intro e
    apply hname
    cases name
    simp_all
  rw [hd, List.getLast?_append_of_ne_nil _ hne]

/-- A name without a slash does not end in one. -/
theorem getLast_ne_slash (name : String) (h : '/' ∉ name.data) :
    name.data.getLast? ≠ some '/' := by
  intro e
  exact h (List.mem_of_getLast?_eq_some e)

/-- A `QDir` keeps a path that does not end in a slash as it is. -/
theorem QDir.path_plain (dirPath : String) (h : dirPath.data.getLast? ≠ some '/') :
    QDir.path dirPath = dirPath := by
  unfold QDir.path
  rw [if_neg (fun hc => h hc.1)]

/-- In a directory whose path does not end in a slash, the path of a plain file name is
the directory, a slash, and the name. -/
theorem QDir.filePath_plain (dirPath fileName : String)
    (hdir : dirPath.data.getLast? ≠ some '/') (hne : dirPath ≠ "")
    (hname : fileName ≠ "") (h1 : fileName.data.head? ≠ some '/')
    (h2 : fileName.data.head? ≠ some ':') :
    QDir.filePath dirPath fileName = dirPath ++ "/" ++ fileName := by
  unfold QDir.filePath
  simp only [QDir.path_plain dirPath hdir]
  have he : fileName.isEmpty = false := by
    rw [String.isEmpty_eq_false_iff]
    exact hname
  have hde : dirPath.isEmpty = false := by
    rw [String.isEmpty_eq_false_iff]
    exact hne
  rw [if_neg (by tauto), he, hde]
  simp [hdir]

/-- Reading a key looks at the first member and then at the rest. -/
theorem QJsonObject.value_cons (k1 : String) (w : QJsonValue) (rest : QJsonObject)
    (k : String) :
    QJsonObject.value ((k1, w) :: rest) k = if k1 = k then w else QJsonObject.value rest k := by
  unfold QJsonObject.value
  by_cases h : k1 = k
  · simp [List.find?, h]
  · have hb : (k1 == k) = false := by simpa using h
    simp [List.find?, h, hb]

/-- A member just assigned is the one read back. -/
theorem QJsonObject.value_insert_same (o : QJsonObject) (key : String) (v : QJsonValue) :
    QJsonObject.value (QJsonObject.insert o key v) key = v := by
  induction o with
  | nil => simp [QJsonObject.insert, QJsonObject.value_cons]
  | cons m rest ih =>
    obtain ⟨k, w⟩ := m
    unfold QJsonObject.insert
    by_cases h1 : key = k
    · simp [h1, QJsonObject.value_cons]
    · by_cases h2 : key.data < k.data
      · simp [h1, h2, QJsonObject.value_cons]
      · have h3 : ¬ k = key := fun e => h1 e.symm
        simp only [h1, h2, if_false]
        rw [QJsonObject.value_cons, if_neg h3, ih]

/-- Assigning one member leaves the reading of every other key as it was. -/
theorem QJsonObject.value_insert_other (o : QJsonObject) (key k : String) (v : QJsonValue)
    (h : k ≠ key) :
    QJsonObject.value (QJsonObject.insert o key v) k = QJsonObject.value o k := by
  have hk : ¬ key = k := fun e => h e.symm
  induction o with
  | nil => simp [QJsonObject.insert, QJsonObject.value_cons, hk]
  | cons m rest ih =>
    obtain ⟨k1, w⟩ := m
    unfold QJsonObject.insert
    by_cases h1 : key = k1
    · have h4 : ¬ k1 = k := fun e => hk (h1.trans e)
      simp only [h1, if_true]
      rw [QJsonObject.value_cons, QJsonObject.value_cons, if_neg h4, if_neg h4]
    · by_cases h2 : key.data < k1.data
      · simp only [h1, h2, if_false, if_true]
        rw [QJsonObject.value_cons, if_neg hk]
      · simp only [h1, h2, if_false]
        rw [QJsonObject.value_cons, QJsonObject.value_cons, ih]

/-- A member just assigned is contained. -/
theorem QJsonObject.contains_insert_same (o : QJsonObject) (key : String) (v : QJsonValue) :
    QJsonObject.contains (QJsonObject.insert o key v) key = true := by
  induction o with
  | nil => simp [QJsonObject.insert, QJsonObject.contains]
  | cons m rest ih =>
    obtain ⟨k, w⟩ := m
    unfold QJsonObject.insert
    by_cases h1 : key = k
    · simp [h1, QJsonObject.contains]
    · by_cases h2 : key.data < k.data
      · simp [h1, h2, QJsonObject.contains]
      · simp only [h1, h2, if_false]
        unfold QJsonObject.contains at ih ⊢
        simp [ih]

/-- Assigning one member leaves the containment of every other key as it was. -/
theorem QJsonObject.contains_insert_other (o : QJsonObject) (key k : String) (v : QJsonValue)
    (h : k ≠ key) :
    QJsonObject.contains (QJsonObject.insert o key v) k = QJsonObject.contains o k := by
  have hk : ¬ key = k := fun e => h e.symm
  induction o with
  | nil => simp [QJsonObject.insert, QJsonObject.contains, hk]
  | cons m rest ih =>
    obtain ⟨k1, w⟩ := m
    unfold QJsonObject.insert
    by_cases h1 : key = k1
    · have h4 : ¬ k1 = k := fun e => hk (h1.trans e)
      simp [h1, QJsonObject.contains, h4]
    · by_cases h2 : key.data < k1.data
      · simp [h1, h2, QJsonObject.contains, hk]
      · simp only [h1, h2, if_false]
        unfold QJsonObject.contains at ih ⊢
        simp [ih]

/-- Nothing is contained in the empty object and every key reads as null. -/
theorem QJsonObject.empty_reads (k : String) :
    QJsonObject.contains [] k = false ∧ QJsonObject.value [] k = .null := by
  simp [QJsonObject.contains, QJsonObject.value]

/-- An `int` stored as a JSON number is read back by `toInt`. -/
theorem QJsonValue.toInt_ofInt (n : Int) (h1 : -2147483648 ≤ n) (h2 : n ≤ 2147483647) :
    (QJsonValue.ofInt n).toInt = n := by
  simp [QJsonValue.ofInt, QJsonValue.toInt, h1, h2]

/-! ## The descriptor of an imported media file -/

/-- What `parseProjectJson` reads from the object `generateProjectJsonContent` wrote. -/
theorem WNELAddon.generated_members (lib : TextFormats) (info : ExternalWallpaperInfo) :
    ∃ project : QJsonObject,
      WNELAddon.generateProjectJsonContent lib info = ⟨.ofObject project⟩ ∧
      QJsonObject.value project "external" = .bool true ∧
      QJsonObject.value project "title" = .string info.name ∧
      QJsonObject.value project "type" = .string info.type ∧
      QJsonObject.value project "file" = .string (QFileInfo.fileName info.symlinkPath) ∧
      (QJsonObject.value project "codec").toQString = info.codec ∧
      QJsonObject.value project "originalPath" = .string info.originalPath ∧
      (0 < info.width → 0 < info.height →
        QJsonObject.contains project "width" = true ∧
        QJsonObject.contains project "height" = true ∧
        QJsonObject.value project "width" = QJsonValue.ofInt info.width ∧
        QJsonObject.value project "height" = QJsonValue.ofInt info.height) := by
  refine ⟨_, rfl, ?_, ?_, ?_, ?_, ?_, ?_, ?_⟩
  · by_cases hc : info.codec.isEmpty = true <;>
      by_cases hr : (info.width ≤ 0 ∨ info.height ≤ 0) <;>
      simp [hc, hr, QJsonObject.value_insert_same, QJsonObject.value_insert_other]
  · by_cases hc : info.codec.isEmpty = true <;>
      by_cases hr : (info.width ≤ 0 ∨ info.height ≤ 0) <;>
      simp [hc, hr, QJsonObject.value_insert_same, QJsonObject.value_insert_other]
  · by_cases hc : info.codec.isEmpty = true <;>
      by_cases hr : (info.width ≤ 0 ∨ info.height ≤ 0) <;>
      simp [hc, hr, QJsonObject.value_insert_same, QJsonObject.value_insert_other]
  · by_cases hc : info.codec.isEmpty = true <;>
      by_cases hr : (info.width ≤ 0 ∨ info.height ≤ 0) <;>
      simp [hc, hr, QJsonObject.value_insert_same, QJsonObject.value_insert_other]
  · by_cases hc : info.codec.isEmpty = true <;>
      by_cases hr : (info.width ≤ 0 ∨ info.height ≤ 0) <;>
      simp [hc, hr, QJsonObject.value_insert_same, QJsonObject.value_insert_other,
        QJsonObject.empty_reads, QJsonValue.toQString]
    all_goals exact ((String.isEmpty_iff _).mp hc).symm
  · by_cases hc : info.codec.isEmpty = true <;>
      by_cases hr : (info.width ≤ 0 ∨ info.height ≤ 0) <;>
      simp [hc, hr, QJsonObject.value_insert_same, QJsonObject.value_insert_other]
  · intro hw hh
    have hr : ¬ (info.width ≤ 0 ∨ info.height ≤ 0) := by omega
    by_cases hc : info.codec.isEmpty = true <;>
      simp [hc, hr, QJsonObject.value_insert_same, QJsonObject.value_insert_other,
        QJsonObject.contains_insert_same, QJsonObject.contains_insert_other]

/-- A non-empty name added to a directory gives a non-empty path. -/
theorem append_name_ne_empty (dir name : String) : dir ++ "/" ++ name ≠ "" := by
  intro e
  have h := congrArg String.data e
  simp [String.data_append] at h

/-- C16: external descriptor round trip. For a record stored in the directory
root/id, whose media symlink is root/id/file for a plain file name and whose dimensions
are those of an `int`, let the project file root/id/project.json hold the text that
`generateProjectJsonContent` produces for the record, and let root/id be the absolute
form of that directory. Then `WNELAddon::parseProjectJson` on the project file yields
a record with the same id, name, type, codec, original path and symlink path, and with
the same width and height whenever both are positive. -/
theorem WNELAddon.descriptor_round_trip (lib : TextFormats) (fs : FileSystem)
    (info : ExternalWallpaperInfo) (root file : String)
    (hid : info.id ≠ "") (hidPlain : '/' ∉ info.id.data)
    (hfile : file ≠ "") (hfilePlain : '/' ∉ file.data)
    (hfileColon : file.data.head? ≠ some ':')
    (hsym : info.symlinkPath = root ++ "/" ++ info.id ++ "/" ++ file)
    (hread : fs.readAll (root ++ "/" ++ info.id ++ "/" ++ "project.json") =
      some (WNELAddon.generateProjectJsonContent lib info))
    (habs : fs.absolutePath (root ++ "/" ++ info.id ++ "/" ++ "project.json") =
      root ++ "/" ++ info.id)
    (hwidth : info.width ≤ 2147483647) (hheight : info.height ≤ 2147483647) :
    (WNELAddon.parseProjectJson lib fs
        (root ++ "/" ++ info.id ++ "/" ++ "project.json")).id = info.id ∧
    (WNELAddon.parseProjectJson lib fs
        (root ++ "/" ++ info.id ++ "/" ++ "project.json")).name = info.name ∧
    (WNELAddon.parseProjectJson lib fs
        (root ++ "/" ++ info.id ++ "/" ++ "project.json")).type = info.type ∧
    (WNELAddon.parseProjectJson lib fs
        (root ++ "/" ++ info.id ++ "/" ++ "project.json")).codec = info.codec ∧
    (WNELAddon.parseProjectJson lib fs
        (root ++ "/" ++ info.id ++ "/" ++ "project.json")).originalPath = info.originalPath ∧
    (WNELAddon.parseProjectJson lib fs
        (root ++ "/" ++ info.id ++ "/" ++ "project.json")).symlinkPath = info.symlinkPath ∧
    (0 < info.width → 0 < info.height →
      (WNELAddon.parseProjectJson lib fs
          (root ++ "/" ++ info.id ++ "/" ++ "project.json")).width = info.width ∧
      (WNELAddon.parseProjectJson lib fs
          (root ++ "/" ++ info.id ++ "/" ++ "project.json")).height = info.height) := by
  obtain ⟨project, hgen, hext, htitle, htype, hfileName, hcodec, horig, hres⟩ :=
    WNELAddon.generated_members lib info
  have hdirNe : root ++ "/" ++ info.id ≠ "" := append_name_ne_empty root info.id
  have hdirLast : (root ++ "/" ++ info.id).data.getLast? ≠ some '/' := by
    rw [getLast_join root info.id hid]
    exact getLast_ne_slash info.id hidPlain
  have hdir : QFileInfo.dir (root ++ "/" ++ info.id ++ "/" ++ "project.json") =
      root ++ "/" ++ info.id := by
    unfold QFileInfo.dir
    rw [QFileInfo.path_join _ _ (by decide) hdirNe, QDir.path_plain _ hdirLast]
  have hname : QDir.dirName (root ++ "/" ++ info.id) = info.id := by
    unfold QDir.dirName
    rw [QDir.path_plain _ hdirLast, QFileInfo.fileName_join root info.id hidPlain]
  have hfn : QFileInfo.fileName info.symlinkPath = file := by
    rw [hsym, QFileInfo.fileName_join _ file hfilePlain]
  have hfileHead : file.data.head? ≠ some '/' := by
    intro e
    exact hfilePlain (List.mem_of_mem_head? e)
  have hlink : QDir.filePath (root ++ "/" ++ info.id) file =
      root ++ "/" ++ info.id ++ "/" ++ file :=
    QDir.filePath_plain _ _ hdirLast hdirNe hfile hfileHead hfileColon
  have hfe : file.isEmpty = false := (String.isEmpty_eq_false_iff file).mpr hfile
  have hext1 : (QJsonObject.value project "external").toBool = true := by rw [hext]; rfl
  have htitle1 : (QJsonObject.value project "title").toQString = info.name := by
    rw [htitle]; rfl
  have htype1 : (QJsonObject.value project "type").toQString = info.type := by
    rw [htype]; rfl
  have horig1 : (QJsonObject.value project "originalPath").toQString = info.originalPath := by
    rw [horig]; rfl
  have hfile1 : (QJsonObject.value project "file").toQString = file := by
    rw [hfileName, hfn]; rfl
  have hparse : ∀ w h : Int,
      (QJsonObject.contains project "width" && QJsonObject.contains project "height") = true →
      (QJsonObject.value project "width").toInt = w →
      (QJsonObject.value project "height").toInt = h →
      (WNELAddon.parseProjectJson lib fs
          (root ++ "/" ++ info.id ++ "/" ++ "project.json")).width = w ∧
      (WNELAddon.parseProjectJson lib fs
          (root ++ "/" ++ info.id ++ "/" ++ "project.json")).height = h := by
    intro w h hc hw hh
    unfold WNELAddon.parseProjectJson
    simp only [hread, hgen, QJsonDocument.fromJson, QJsonDocument.isObject,
      QJsonDocument.object, hext1, habs, hdir, hname, htitle1, htype1,
      hcodec, horig1, hfile1, hfe, hlink, hc, hw, hh,
      Bool.not_true, Bool.not_false, Bool.false_eq_true, if_false, if_true]
    split_ifs <;> simp
  have hfields :
      (WNELAddon.parseProjectJson lib fs
          (root ++ "/" ++ info.id ++ "/" ++ "project.json")).id = info.id ∧
      (WNELAddon.parseProjectJson lib fs
          (root ++ "/" ++ info.id ++ "/" ++ "project.json")).name = info.name ∧
      (WNELAddon.parseProjectJson lib fs
          (root ++ "/" ++ info.id ++ "/" ++ "project.json")).type = info.type ∧
      (WNELAddon.parseProjectJson lib fs
          (root ++ "/" ++ info.id ++ "/" ++ "project.json")).codec = info.codec ∧
      (WNELAddon.parseProjectJson lib fs
          (root ++ "/" ++ info.id ++ "/" ++ "project.json")).originalPath =
        info.originalPath ∧
      (WNELAddon.parseProjectJson lib fs
          (root ++ "/" ++ info.id ++ "/" ++ "project.json")).symlinkPath =
        info.symlinkPath := by
    unfold WNELAddon.parseProjectJson
    simp only [hread, hgen, QJsonDocument.fromJson, QJsonDocument.isObject,
      QJsonDocument.object, hext1, habs, hdir, hname, htitle1, htype1,
      hcodec, horig1, hfile1, hfe, hlink,
      Bool.not_true, Bool.not_false, Bool.false_eq_true, if_false, if_true]
    rw [hsym]
    split_ifs <;> simp
  refine ⟨hfields.1, hfields.2.1, hfields.2.2.1, hfields.2.2.2.1, hfields.2.2.2.2.1,
    hfields.2.2.2.2.2, ?_⟩
  intro hw hh
  obtain ⟨hcw, hch, hvw, hvh⟩ := hres hw hh
  refine hparse _ _ (by simp [hcw, hch]) ?_ ?_
  · rw [hvw, QJsonValue.toInt_ofInt _ (by omega) hwidth]
  · rw [hvh, QJsonValue.toInt_ofInt _ (by omega) hheight]

/-- Witness for C16: the sample media file with codec and resolution, stored under
/ext. -/
theorem WNELAddon.descriptor_round_trip_witness :
    (WNELAddon.parseProjectJson sampleFormats sampleFiles
        ("/ext" ++ "/" ++ sampleImported.id ++ "/" ++ "project.json")).symlinkPath =
      sampleImported.symlinkPath ∧
    (WNELAddon.parseProjectJson sampleFormats sampleFiles
        ("/ext" ++ "/" ++ sampleImported.id ++ "/" ++ "project.json")).width =
      sampleImported.width :=
  have h := WNELAddon.descriptor_round_trip sampleFormats sampleFiles sampleImported "/ext"
    "media.mp4" (by decide) (by decide) (by decide) (by decide) (by decide) (by decide)
    (by decide) (by decide) (by decide) (by decide)
  ⟨h.2.2.2.2.2.1, (h.2.2.2.2.2.2 (by decide) (by decide)).1⟩

/-! ## The record of a scanned directory -/

/-- The type `detectMediaType` gives is decided by the lower-cased suffix. -/
theorem WNELAddon.detectMediaType_cases (filePath : String) :
    (WNELAddon.detectMediaType filePath = "image" ↔
      QString.toLower (QFileInfo.suffix filePath) ∈
        ["png", "jpg", "jpeg", "bmp", "tiff", "webp"]) ∧
    (WNELAddon.detectMediaType filePath = "video" ↔
      QString.toLower (QFileInfo.suffix filePath) ∈
        ["mp4", "avi", "mkv", "mov", "webm", "m4v"]) ∧
    (WNELAddon.detectMediaType filePath = "gif" ↔
      QString.toLower (QFileInfo.suffix filePath) = "gif") ∧
    (WNELAddon.detectMediaType filePath = "unknown" ↔
      QString.toLower (QFileInfo.suffix filePath) ∉
        ["png", "jpg", "jpeg", "bmp", "tiff", "webp", "mp4", "avi", "mkv", "mov", "webm",
          "m4v", "gif"]) := by
  unfold WNELAddon.detectMediaType
  generalize QString.toLower (QFileInfo.suffix filePath) = suffix
  have hc : ∀ l : List String, (l.contains suffix = true) = (suffix ∈ l) :=
    fun l => propext List.elem_iff
  simp only [hc]
  by_cases h1 : suffix ∈ ["png", "jpg", "jpeg", "bmp", "tiff", "webp"]
  · simp only [h1, if_true, true_iff, iff_true]
    simp only [List.mem_cons, List.mem_singleton, List.not_mem_nil, or_false] at h1
    rcases h1 with h | h | h | h | h | h <;> subst h <;> decide
  · by_cases h2 : suffix ∈ ["mp4", "avi", "mkv", "mov", "webm", "m4v"]
    · simp only [h1, h2, if_true, if_false, true_iff, iff_true]
      simp only [List.mem_cons, List.mem_singleton, List.not_mem_nil, or_false] at h2
      rcases h2 with h | h | h | h | h | h <;> subst h <;> decide
    · by_cases h3 : suffix ∈ ["gif"]
      · simp only [h1, h2, h3, if_true, if_false, true_iff, iff_true]
        simp only [List.mem_cons, List.mem_singleton, List.not_mem_nil, or_false] at h3
        subst h3
        decide
      · simp only [h1, h2, h3, if_false, iff_false, true_iff]
        simp only [List.mem_cons, List.mem_singleton, List.not_mem_nil, or_false,
          not_or] at h1 h2 h3 ⊢
        refine ⟨by decide, by decide, ?_, ?_⟩
        · constructor
          · intro h
            exact absurd h (by decide)
          · intro h
            exact absurd h h3
        · tauto

/-- A failed import returns the empty id; a successful one appends one record, whose id
is the returned one and whose type is what `detectMediaType` gives for the path. -/
theorem WNELAddon.addExternalWallpaper_cases (a : WNELAddon) (mediaPath customName : String)
    (o : ImportOutcome) :
    (a.addExternalWallpaper mediaPath customName o).1 = "" ∨
    ∃ info : ExternalWallpaperInfo,
      (a.addExternalWallpaper mediaPath customName o).2.m_externalWallpapers =
        a.m_externalWallpapers ++ [info] ∧
      info.id = (a.addExternalWallpaper mediaPath customName o).1 ∧
      info.type = WNELAddon.detectMediaType mediaPath := by
  unfold WNELAddon.addExternalWallpaper
  cases a.m_enabled
  · exact Or.inl rfl
  cases o.directoryReady
  · exact Or.inl rfl
  cases o.mediaExists
  · exact Or.inl rfl
  cases o.directoryCreated
  · exact Or.inl rfl
  cases o.symlinkCreated
  · exact Or.inl rfl
  cases o.projectWritten
  · exact Or.inl rfl
  exact Or.inr ⟨_, rfl, rfl, rfl⟩

/-- C18, counterexample: importing the text file /home/u/notes.txt into an enabled
addon, with every step on disk succeeding, returns the id ext_Ab12Cd and records the
media type "unknown", which is none of "image", "video" and "gif". -/
theorem WNELAddon.import_records_unknown_type :
    ((WNELAddon.initial true "/ext" []).addExternalWallpaper "/home/u/notes.txt" "Notes"
        sampleImport).1 = "ext_Ab12Cd" ∧
    ((WNELAddon.initial true "/ext" []).addExternalWallpaper "/home/u/notes.txt" "Notes"
        sampleImport).2.m_externalWallpapers.map (fun info => (info.id, info.type)) =
      [("ext_Ab12Cd", "unknown")] ∧
    WNELAddon.detectMediaType "/home/u/notes.txt" = "unknown" ∧
    "unknown" ∉ ["image", "video", "gif"] := by
  decide

/-- C18, amended: for every media path for which `addExternalWallpaper` succeeds
(returns a non-empty id), exactly one record is appended; its id is the returned one
and its media type is the result of `detectMediaType` on the path, which is one of
"image", "video", "gif" and "unknown": "image", "video" or "gif" exactly when the
lower-cased suffix of the path is in the list of image, video or gif formats, and
"unknown" for every other suffix. -/
theorem WNELAddon.imported_media_type (a : WNELAddon) (mediaPath customName : String)
    (o : ImportOutcome) (h : (a.addExternalWallpaper mediaPath customName o).1 ≠ "") :
    (∃ info : ExternalWallpaperInfo,
      (a.addExternalWallpaper mediaPath customName o).2.m_externalWallpapers =
        a.m_externalWallpapers ++ [info] ∧
      info.id = (a.addExternalWallpaper mediaPath customName o).1 ∧
      info.type = WNELAddon.detectMediaType mediaPath ∧
      (info.type = "image" ∨ info.type = "video" ∨ info.type = "gif" ∨
        info.type = "unknown")) ∧
    (WNELAddon.detectMediaType mediaPath = "image" ↔
      QString.toLower (QFileInfo.suffix mediaPath) ∈
        ["png", "jpg", "jpeg", "bmp", "tiff", "webp"]) ∧
    (WNELAddon.detectMediaType mediaPath = "video" ↔
      QString.toLower (QFileInfo.suffix mediaPath) ∈
        ["mp4", "avi", "mkv", "mov", "webm", "m4v"]) ∧
    (WNELAddon.detectMediaType mediaPath = "gif" ↔
      QString.toLower (QFileInfo.suffix mediaPath) = "gif") ∧
    (WNELAddon.detectMediaType mediaPath = "unknown" ↔
      QString.toLower (QFileInfo.suffix mediaPath) ∉
        ["png", "jpg", "jpeg", "bmp", "tiff", "webp", "mp4", "avi", "mkv", "mov", "webm",
          "m4v", "gif"]) := by
  refine ⟨?_, WNELAddon.detectMediaType_cases mediaPath⟩
  rcases WNELAddon.addExternalWallpaper_cases a mediaPath customName o with he |
    ⟨info, hl, hid, ht⟩
  · exact absurd he h
  · refine ⟨info, hl, hid, ht, ?_⟩
    rw [ht]
    unfold WNELAddon.detectMediaType
    simp only
    split_ifs <;> simp

/-- Witness for the amended C18: the import of a video clip. -/
theorem WNELAddon.imported_media_type_witness :
    ((WNELAddon.initial true "/ext" []).addExternalWallpaper "/home/u/Clip.MP4" ""
        sampleImport).1 ≠ "" ∧
    (WNELAddon.detectMediaType "/home/u/Clip.MP4" = "video" ↔
      QString.toLower (QFileInfo.suffix "/home/u/Clip.MP4") ∈
        ["mp4", "avi", "mkv", "mov", "webm", "m4v"]) :=
  ⟨by decide,
    (WNELAddon.imported_media_type (WNELAddon.initial true "/ext" []) "/home/u/Clip.MP4" ""
      sampleImport (by decide)).2.2.1⟩

/-! ## Property extraction and property overrides -/

/-- C19: the same extraction logic in both places. For every project JSON object, the
property object computed inside `PropertiesPanel::loadPropertiesFromProjectJson` (the
properties of the "general" section merged with those of the root) equals
`WallpaperManager::extractProperties` applied to the same object. Hence, for the
wallpaper the panel shows, what the panel loads from the project file is what
`extractProperties` gives for the object read from that file (and empty when the file
cannot be read or parsed), and `generatePropertyArguments` on the same file builds its
pairs from exactly that property set. -/
theorem PropertiesPanel.same_extraction_logic :
    (∀ projectJson : QJsonObject,
      PropertiesPanel.mergedProperties projectJson =
        WallpaperManager.extractProperties projectJson) ∧
    (∀ (current : WallpaperInfo) (fs : FileSystem), current.projectPath ≠ "" →
      PropertiesPanel.loadPropertiesFromProjectJson current fs current.id =
        (match fs.readAll current.projectPath with
          | none => []
          | some data =>
            if QJsonDocument.parseFailed data then []
            else WallpaperManager.extractProperties (QJsonDocument.fromJson data).object)) ∧
    (∀ (current : WallpaperInfo) (fs : FileSystem) (lib : TextFormats),
      current.projectPath ≠ "" →
      WallpaperManager.generatePropertyArguments lib fs current.projectPath =
        (if !(WallpaperManager.propertyPairs lib
            (PropertiesPanel.loadPropertiesFromProjectJson current fs current.id)).isEmpty
          then "--set-property" :: WallpaperManager.propertyPairs lib
            (PropertiesPanel.loadPropertiesFromProjectJson current fs current.id)
          else [])) := by
  have hsame : ∀ projectJson : QJsonObject,
      PropertiesPanel.mergedProperties projectJson =
        WallpaperManager.extractProperties projectJson := fun _ => rfl
  have hpath : ∀ current : WallpaperInfo, current.projectPath ≠ "" →
      PropertiesPanel.getProjectJsonPath current current.id = current.projectPath := by
    intro current hne
    have he : current.projectPath.isEmpty = false := (String.isEmpty_eq_false_iff _).mpr hne
    simp [PropertiesPanel.getProjectJsonPath, he]
  have hload : ∀ (current : WallpaperInfo) (fs : FileSystem), current.projectPath ≠ "" →
      PropertiesPanel.loadPropertiesFromProjectJson current fs current.id =
        (match fs.readAll current.projectPath with
          | none => []
          | some data =>
            if QJsonDocument.parseFailed data then []
            else WallpaperManager.extractProperties (QJsonDocument.fromJson data).object) := by
    intro current fs hne
    have he : current.projectPath.isEmpty = false := (String.isEmpty_eq_false_iff _).mpr hne
    unfold PropertiesPanel.loadPropertiesFromProjectJson
    simp only [hpath current hne, he, Bool.false_eq_true, if_false]
    cases fs.readAll current.projectPath with
    | none => rfl
    | some data => simp only [hsame]
  refine ⟨hsame, hload, ?_⟩
  intro current fs lib hne
  rw [hload current fs hne]
  unfold WallpaperManager.generatePropertyArguments
  cases fs.readAll current.projectPath with
  | none => simp [WallpaperManager.propertyPairs]
  | some data =>
    by_cases hp : QJsonDocument.parseFailed data = true
    · simp [hp, WallpaperManager.propertyPairs]
    · simp [hp]

/-- Witness for C19: the panel showing the sample wallpaper. -/
theorem PropertiesPanel.same_extraction_logic_witness :
    PropertiesPanel.loadPropertiesFromProjectJson sampleWallpaper sampleFiles
        sampleWallpaper.id =
      (match sampleFiles.readAll sampleWallpaper.projectPath with
        | none => []
        | some data =>
          if QJsonDocument.parseFailed data then []
          else WallpaperManager.extractProperties (QJsonDocument.fromJson data).object) :=
  PropertiesPanel.same_extraction_logic.2.1 sampleWallpaper sampleFiles (by decide)

/-- A member of an object after an assignment is the assigned one or was there before. -/
theorem QJsonObject.mem_insert (o : QJsonObject) (key : String) (v : QJsonValue)
    (m : String × QJsonValue) (h : m ∈ QJsonObject.insert o key v) :
    m = (key, v) ∨ m ∈ o := by
  induction o with
  | nil =>
    simp only [QJsonObject.insert, List.mem_singleton] at h
    exact Or.inl h
  | cons x rest ih =>
    obtain ⟨k, w⟩ := x
    unfold QJsonObject.insert at h
    by_cases h1 : key = k
    · simp only [h1, if_true, List.mem_cons] at h
      rcases h with h | h
      · exact Or.inl (by rw [h, h1])
      · exact Or.inr (List.mem_cons_of_mem _ h)
    · by_cases h2 : key.data < k.data
      · simp only [h1, h2, if_true, if_false, List.mem_cons] at h
        rcases h with h | h | h
        · exact Or.inl h
        · exact Or.inr (by rw [h]; exact List.mem_cons_self _ _)
        · exact Or.inr (List.mem_cons_of_mem _ h)
      · simp only [h1, h2, if_false, List.mem_cons] at h
        rcases h with h | h
        · exact Or.inr (by rw [h]; exact List.mem_cons_self _ _)
        · rcases ih h with h3 | h3
          · exact Or.inl h3
          · exact Or.inr (List.mem_cons_of_mem _ h3)

/-- An assignment keeps the members in strictly ascending key order. -/
theorem QJsonObject.insert_sorted (o : QJsonObject) (key : String) (v : QJsonValue)
    (h : o.Pairwise (fun x y => x.1 < y.1)) :
    (QJsonObject.insert o key v).Pairwise (fun x y => x.1 < y.1) := by
  induction o with
  | nil => simp [QJsonObject.insert]
  | cons x rest ih =>
    obtain ⟨k, w⟩ := x
    rw [List.pairwise_cons] at h
    obtain ⟨hk, hrest⟩ := h
    unfold QJsonObject.insert
    by_cases h1 : key = k
    · simp only [h1, if_true]
      exact List.pairwise_cons.mpr ⟨hk, hrest⟩
    · by_cases h2 : key.data < k.data
      · have h2s : key < k := String.lt_iff_toList_lt.mpr h2
        simp only [h1, h2, if_true, if_false]
        refine List.pairwise_cons.mpr ⟨?_, List.pairwise_cons.mpr ⟨hk, hrest⟩⟩
        intro m hm
        rcases List.mem_cons.mp hm with hm | hm
        · rw [hm]
          exact h2s
        · exact lt_trans h2s (hk m hm)
      · have h3 : k < key := by
          rcases lt_trichotomy key k with h | h | h
          · exact absurd (String.lt_iff_toList_lt.mp h) h2
          · exact absurd h h1
          · exact h
        simp only [h1, h2, if_false]
        refine List.pairwise_cons.mpr ⟨?_, ih hrest⟩
        intro m hm
        rcases QJsonObject.mem_insert rest key v m hm with hm | hm
        · rw [hm]
          exact h3
        · exact hk m hm

/-- Merging keeps the members in strictly ascending key order. -/
theorem QJsonObject.merge_sorted (source target : QJsonObject)
    (h : target.Pairwise (fun x y => x.1 < y.1)) :
    (QJsonObject.merge target source).Pairwise (fun x y => x.1 < y.1) := by
  unfold QJsonObject.merge
  induction source generalizing target with
  | nil => simpa using h
  | cons m ms ih =>
    rw [List.foldl_cons]
    exact ih _ (QJsonObject.insert_sorted target m.1 m.2 h)

/-- The extracted properties are in strictly ascending key order. -/
theorem WallpaperManager.extractProperties_sorted (projectJson : QJsonObject) :
    (WallpaperManager.extractProperties projectJson).Pairwise (fun x y => x.1 < y.1) := by
  unfold WallpaperManager.extractProperties
  simp only
  have h0 : ([] : QJsonObject).Pairwise (fun x y => x.1 < y.1) := List.Pairwise.nil
  split_ifs
  · exact QJsonObject.merge_sorted _ _ (QJsonObject.merge_sorted _ _ h0)
  · exact QJsonObject.merge_sorted _ _ h0
  · exact QJsonObject.merge_sorted _ _ h0
  · exact h0

/-- The pairs are built from the properties that have a "value" member, in order. -/
theorem WallpaperManager.propertyPairs_eq (lib : TextFormats) (properties : QJsonObject) :
    WallpaperManager.propertyPairs lib properties =
      (properties.filter (fun m => QJsonObject.contains m.2.toObject "value")).map
        (fun m => m.1 ++ "=" ++
          WallpaperManager.propertyValueText lib (QJsonObject.value m.2.toObject "value")) := by
  unfold WallpaperManager.propertyPairs
  induction properties with
  | nil => rfl
  | cons m ms ih =>
    by_cases h : QJsonObject.contains m.2.toObject "value" = true
    · simp [List.filterMap_cons, List.filter_cons, h, ih]
    · simp [List.filterMap_cons, List.filter_cons, h, ih]

/-- C20: the format of property overrides. Let the project file hold the JSON object
`projectJson`. `generatePropertyArguments` returns the empty list when no extracted
property object has a "value" member; otherwise it returns "--set-property" followed by
exactly one element `name=value` for each extracted property that has a "value" member,
in the order of the extracted properties, which is strictly ascending by name. A
boolean value is written "true" or "false" and a string value is written verbatim. So
the length of a non-empty result minus one, the count `launchWallpaper` reports, is
the number of such properties. -/
theorem WallpaperManager.property_override_format (lib : TextFormats) (fs : FileSystem)
    (projectJsonPath : String) (projectJson : QJsonObject)
    (hread : fs.readAll projectJsonPath =
      some (QJsonDocument.toJson (.ofObject projectJson))) :
    ((∀ m ∈ WallpaperManager.extractProperties projectJson,
        QJsonObject.contains m.2.toObject "value" = false) →
      WallpaperManager.generatePropertyArguments lib fs projectJsonPath = []) ∧
    ((∃ m ∈ WallpaperManager.extractProperties projectJson,
        QJsonObject.contains m.2.toObject "value" = true) →
      WallpaperManager.generatePropertyArguments lib fs projectJsonPath =
        "--set-property" ::
          ((WallpaperManager.extractProperties projectJson).filter
            (fun m => QJsonObject.contains m.2.toObject "value")).map
            (fun m => m.1 ++ "=" ++ WallpaperManager.propertyValueText lib
              (QJsonObject.value m.2.toObject "value")) ∧
      ((WallpaperManager.generatePropertyArguments lib fs projectJsonPath).length : Int) - 1 =
        (((WallpaperManager.extractProperties projectJson).filter
          (fun m => QJsonObject.contains m.2.toObject "value")).length : Int)) ∧
    ((WallpaperManager.extractProperties projectJson).filter
      (fun m => QJsonObject.contains m.2.toObject "value")).Pairwise
        (fun x y => x.1 < y.1) ∧
    (∀ b : Bool, WallpaperManager.propertyValueText lib (.bool b) =
      if b then "true" else "false") ∧
    (∀ s : String, WallpaperManager.propertyValueText lib (.string s) = s) := by
  have hgen : WallpaperManager.generatePropertyArguments lib fs projectJsonPath =
      if !(WallpaperManager.propertyPairs lib
          (WallpaperManager.extractProperties projectJson)).isEmpty
      then "--set-property" ::
        WallpaperManager.propertyPairs lib (WallpaperManager.extractProperties projectJson)
      else [] := by
    unfold WallpaperManager.generatePropertyArguments
    rw [hread]
    rfl
  refine ⟨?_, ?_, ?_, ?_, ?_⟩
  · intro hnone
    have hf : (WallpaperManager.extractProperties projectJson).filter
        (fun m => QJsonObject.contains m.2.toObject "value") = [] := by
      rw [List.filter_eq_nil_iff]
      intro m hm
      simp [hnone m hm]
    rw [hgen, WallpaperManager.propertyPairs_eq, hf]
    rfl
  · intro hsome
    obtain ⟨m, hm, hv⟩ := hsome
    have hmem : m ∈ (WallpaperManager.extractProperties projectJson).filter
        (fun m => QJsonObject.contains m.2.toObject "value") :=
      List.mem_filter.mpr ⟨hm, hv⟩
    have hne : (WallpaperManager.extractProperties projectJson).filter
        (fun m => QJsonObject.contains m.2.toObject "value") ≠ [] :=
      List.ne_nil_of_mem hmem
    rw [hgen, WallpaperManager.propertyPairs_eq]
    cases hf : (WallpaperManager.extractProperties projectJson).filter
        (fun m => QJsonObject.contains m.2.toObject "value") with
    | nil => exact absurd hf hne
    | cons x xs => simp
  · exact (WallpaperManager.extractProperties_sorted projectJson).filter _
  · intro b
    cases b <;> rfl
  · intro s
    rfl

/-- Witness for C20: the project file of the sample wallpaper, in which two of the
three properties have a "value" member. -/
theorem WallpaperManager.property_override_format_witness :
    WallpaperManager.generatePropertyArguments sampleFormats sampleFiles
        "/ws/123/project.json" =
      "--set-property" ::
        ((WallpaperManager.extractProperties sampleProject).filter
          (fun m => QJsonObject.contains m.2.toObject "value")).map
          (fun m => m.1 ++ "=" ++ WallpaperManager.propertyValueText sampleFormats
            (QJsonObject.value m.2.toObject "value")) ∧
    ((WallpaperManager.generatePropertyArguments sampleFormats sampleFiles
        "/ws/123/project.json").length : Int) - 1 =
      (((WallpaperManager.extractProperties sampleProject).filter
        (fun m => QJsonObject.contains m.2.toObject "value")).length : Int) :=
  (WallpaperManager.property_override_format sampleFormats sampleFiles "/ws/123/project.json"
    sampleProject (by decide)).2.1
    ⟨("bloom", .object [("type", .string "bool"), ("value", .bool true)]), by decide,
      by decide⟩

/-- The overrides computed for the sample project file: the two properties with a
"value" member, by ascending name. -/
theorem WallpaperManager.generatePropertyArguments_sample :
    WallpaperManager.generatePropertyArguments sampleFormats sampleFiles
        "/ws/123/project.json" =
      ["--set-property", "bloom=true", "schemecolor=0 0 0"] := by
  decide

/-! ## Engine-only flags and the WNEL conversion loop -/

/-- The text of a volume holds a decimal point. -/
theorem formatHundredths_has_dot (n : Int) : '.' ∈ (formatHundredths n).data := by
  unfold formatHundredths
  simp [String.data_append]

/-- One round of the conversion loop on a list with at least two elements: what it
emits is a flag WNEL knows, the text of a volume, or the second element after one of
the flags whose value is copied; the rest comes from a later round. -/
theorem WNELAddon.convertArguments_round (a b : String) (rest : List String) (x : String)
    (hx : x ∈ WNELAddon.convertArguments (a :: b :: rest)) :
    x ∈ ["--volume", "--fps", "--output", "--silent", "--scaling", "--no-loop",
      "--no-hardware-decode", "--mpv-options", "--log-level", "--noautomute"] ∨
    (∃ n : Int, x = formatHundredths n) ∨
    (a ∈ ["--fps", "--screen-root", "--scaling", "--mpv-options", "--log-level"] ∧ x = b) ∨
    x ∈ WNELAddon.convertArguments rest ∨
    x ∈ WNELAddon.convertArguments (b :: rest) := by
  rw [WNELAddon.convertArguments] at hx
  by_cases h1 : (a == "--volume") = true
  · rw [if_pos h1] at hx
    rcases List.mem_append.mp hx with hx | hx
    · cases hq : QString.toInt b with
      | none => simp [hq] at hx
      | some v =>
        simp only [hq, List.mem_cons, List.mem_singleton, List.not_mem_nil, or_false] at hx
        rcases hx with hx | hx
        · exact Or.inl (by simp [hx])
        · exact Or.inr (Or.inl ⟨v, hx⟩)
    · exact Or.inr (Or.inr (Or.inr (Or.inl hx)))
  rw [if_neg h1] at hx
  by_cases h2 : (a == "--fps") = true
  · rw [if_pos h2] at hx
    simp only [List.cons_append, List.nil_append, List.mem_cons] at hx
    rcases hx with hx | hx | hx
    · exact Or.inl (by simp [hx])
    · exact Or.inr (Or.inr (Or.inl ⟨by simp [eq_of_beq h2], hx⟩))
    · exact Or.inr (Or.inr (Or.inr (Or.inl hx)))
  rw [if_neg h2] at hx
  by_cases h3 : (a == "--screen-root") = true
  · rw [if_pos h3] at hx
    simp only [List.cons_append, List.nil_append, List.mem_cons] at hx
    rcases hx with hx | hx | hx
    · exact Or.inl (by simp [hx])
    · exact Or.inr (Or.inr (Or.inl ⟨by simp [eq_of_beq h3], hx⟩))
    · exact Or.inr (Or.inr (Or.inr (Or.inl hx)))
  rw [if_neg h3] at hx
  by_cases h4 : (a == "--silent") = true
  · rw [if_pos h4] at hx
    rcases List.mem_cons.mp hx with hx | hx
    · exact Or.inl (by simp [hx])
    · exact Or.inr (Or.inr (Or.inr (Or.inr hx)))
  rw [if_neg h4] at hx
  by_cases h5 : (a == "--scaling") = true
  · rw [if_pos h5] at hx
    simp only [List.cons_append, List.nil_append, List.mem_cons] at hx
    rcases hx with hx | hx | hx
    · exact Or.inl (by simp [hx])
    · exact Or.inr (Or.inr (Or.inl ⟨by simp [eq_of_beq h5], hx⟩))
    · exact Or.inr (Or.inr (Or.inr (Or.inl hx)))
  rw [if_neg h5] at hx
  by_cases h6 : (a == "--no-loop") = true
  · rw [if_pos h6] at hx
    rcases List.mem_cons.mp hx with hx | hx
    · exact Or.inl (by simp [hx])
    · exact Or.inr (Or.inr (Or.inr (Or.inr hx)))
  rw [if_neg h6] at hx
  by_cases h7 : (a == "--no-hardware-decode") = true
  · rw [if_pos h7] at hx
    rcases List.mem_cons.mp hx with hx | hx
    · exact Or.inl (by simp [hx])
    · exact Or.inr (Or.inr (Or.inr (Or.inr hx)))
  rw [if_neg h7] at hx
  by_cases h8 : (a == "--mpv-options") = true
  · rw [if_pos h8] at hx
    simp only [List.cons_append, List.nil_append, List.mem_cons] at hx
    rcases hx with hx | hx | hx
    · exact Or.inl (by simp [hx])
    · exact Or.inr (Or.inr (Or.inl ⟨by simp [eq_of_beq h8], hx⟩))
    · exact Or.inr (Or.inr (Or.inr (Or.inl hx)))
  rw [if_neg h8] at hx
  by_cases h9 : (a == "--log-level") = true
  · rw [if_pos h9] at hx
    simp only [List.cons_append, List.nil_append, List.mem_cons] at hx
    rcases hx with hx | hx | hx
    · exact Or.inl (by simp [hx])
    · exact Or.inr (Or.inr (Or.inl ⟨by simp [eq_of_beq h9], hx⟩))
    · exact Or.inr (Or.inr (Or.inr (Or.inl hx)))
  rw [if_neg h9] at hx
  by_cases h10 : (a == "--noautomute") = true
  · rw [if_pos h10] at hx
    rcases List.mem_cons.mp hx with hx | hx
    · exact Or.inl (by simp [hx])
    · exact Or.inr (Or.inr (Or.inr (Or.inr hx)))
  rw [if_neg h10] at hx
  exact Or.inr (Or.inr (Or.inr (Or.inr hx)))

/-- Where the elements of the converted list come from: each is a flag WNEL knows, the
text of a volume, or the element that directly follows "--fps", "--screen-root",
"--scaling", "--mpv-options" or "--log-level" in the list given. -/
theorem WNELAddon.convertArguments_elements (args : List String) :
    ∀ x ∈ WNELAddon.convertArguments args,
      x ∈ ["--volume", "--fps", "--output", "--silent", "--scaling", "--no-loop",
        "--no-hardware-decode", "--mpv-options", "--log-level", "--noautomute"] ∨
      (∃ n : Int, x = formatHundredths n) ∨
      ∃ flag ∈ ["--fps", "--screen-root", "--scaling", "--mpv-options", "--log-level"],
        [flag, x] <:+: args := by
  generalize hn : args.length = k
  induction k using Nat.strong_induction_on generalizing args with
  | _ k ih =>
    intro x hx
    match args, hn with
    | [], _ => simp [WNELAddon.convertArguments] at hx
    | [a], _ =>
      unfold WNELAddon.convertArguments at hx
      split_ifs at hx <;> simp at hx <;> simp [hx]
    | a :: b :: rest, hn =>
      have hlt1 : rest.length < k := by simp at hn; omega
      have hlt2 : (b :: rest).length < k := by simp at hn ⊢; omega
      rcases WNELAddon.convertArguments_round a b rest x hx with h | h | ⟨ha, hb⟩ | h | h
      · exact Or.inl h
      · exact Or.inr (Or.inl h)
      · rw [hb]
        exact Or.inr (Or.inr ⟨a, ha, ⟨[], rest, by simp⟩⟩)
      · rcases ih rest.length hlt1 rest rfl x h with h | h | ⟨flag, hf, hin⟩
        · exact Or.inl h
        · exact Or.inr (Or.inl h)
        · exact Or.inr (Or.inr ⟨flag, hf, hin.trans ⟨[a, b], [], by simp⟩⟩)
      · rcases ih (b :: rest).length hlt2 (b :: rest) rfl x h with h | h | ⟨flag, hf, hin⟩
        · exact Or.inl h
        · exact Or.inr (Or.inl h)
        · exact Or.inr (Or.inr ⟨flag, hf, hin.trans ⟨[a], [], by simp⟩⟩)

/-- C21, counterexample: the list "--scaling", "--assets-dir" is converted to itself,
so the converted list holds the engine-only flag "--assets-dir"; likewise "--fps"
followed by "--screen-root" is copied. -/
theorem WNELAddon.engine_flag_copied_as_value :
    WNELAddon.convertArguments ["--scaling", "--assets-dir"] =
      ["--scaling", "--assets-dir"] ∧
    "--assets-dir" ∈ WNELAddon.convertArguments ["--scaling", "--assets-dir"] ∧
    "--screen-root" ∈ WNELAddon.convertArguments ["--fps", "--screen-root"] ∧
    "--assets-dir" ∈ ["--screen-root", "--assets-dir", "--disable-mouse",
      "--disable-parallax", "--no-fullscreen-pause"] := by
  decide

/-- C21, amended: engine-only flags are not forwarded to WNEL as flags. For every
additionalArgs list, an element of the part of the WNEL argument list produced by the
conversion loop that equals an engine-only flag ("--screen-root", "--assets-dir",
"--disable-mouse", "--disable-parallax", "--no-fullscreen-pause") is a value copied
from additionalArgs, where it directly follows "--fps", "--screen-root", "--scaling",
"--mpv-options" or "--log-level"; so when no engine-only flag directly follows one of
these five flags in additionalArgs, the converted part contains none. -/
theorem WNELAddon.engine_flags_not_forwarded (additionalArgs : List String) :
    (∀ e ∈ ["--screen-root", "--assets-dir", "--disable-mouse", "--disable-parallax",
        "--no-fullscreen-pause"],
      e ∈ WNELAddon.convertArguments additionalArgs →
      ∃ flag ∈ ["--fps", "--screen-root", "--scaling", "--mpv-options", "--log-level"],
        [flag, e] <:+: additionalArgs) ∧
    ((∀ flag ∈ ["--fps", "--screen-root", "--scaling", "--mpv-options", "--log-level"],
        ∀ e ∈ ["--screen-root", "--assets-dir", "--disable-mouse", "--disable-parallax",
          "--no-fullscreen-pause"], ¬ [flag, e] <:+: additionalArgs) →
      ∀ e ∈ ["--screen-root", "--assets-dir", "--disable-mouse", "--disable-parallax",
        "--no-fullscreen-pause"], e ∉ WNELAddon.convertArguments additionalArgs) := by
  have hmain : ∀ e ∈ ["--screen-root", "--assets-dir", "--disable-mouse",
      "--disable-parallax", "--no-fullscreen-pause"],
      e ∈ WNELAddon.convertArguments additionalArgs →
      ∃ flag ∈ ["--fps", "--screen-root", "--scaling", "--mpv-options", "--log-level"],
        [flag, e] <:+: additionalArgs := by
    intro e he hx
    rcases WNELAddon.convertArguments_elements additionalArgs e hx with h | ⟨n, h⟩ | h
    · exfalso
      simp only [List.mem_cons, List.mem_singleton, List.not_mem_nil, or_false] at he h
      rcases he with he | he | he | he | he <;> subst he <;> revert h <;> decide
    · exfalso
      have hdot := formatHundredths_has_dot n
      rw [← h] at hdot
      simp only [List.mem_cons, List.mem_singleton, List.not_mem_nil, or_false] at he
      rcases he with he | he | he | he | he <;> subst he <;> revert hdot <;> decide
    · exact h
  refine ⟨hmain, ?_⟩
  intro hno e he hx
  obtain ⟨flag, hf, hin⟩ := hmain e he hx
  exact hno flag hf e he hin

/-- Witness for the amended C21: a list as the main window builds it for a workshop
wallpaper, with engine-only flags in it. -/
theorem WNELAddon.engine_flags_not_forwarded_witness :
    "--assets-dir" ∉ WNELAddon.convertArguments
      ["--silent", "--volume", "50", "--screen-root", "DP-1", "--fps", "60",
        "--disable-mouse", "--assets-dir", "/usr/share/assets"] ∧
    "--screen-root" ∉ WNELAddon.convertArguments
      ["--silent", "--volume", "50", "--screen-root", "DP-1", "--fps", "60",
        "--disable-mouse", "--assets-dir", "/usr/share/assets"] :=
  ⟨(WNELAddon.engine_flags_not_forwarded
      ["--silent", "--volume", "50", "--screen-root", "DP-1", "--fps", "60",
        "--disable-mouse", "--assets-dir", "/usr/share/assets"]).2 (by decide)
      "--assets-dir" (by decide),
    (WNELAddon.engine_flags_not_forwarded
      ["--silent", "--volume", "50", "--screen-root", "DP-1", "--fps", "60",
        "--disable-mouse", "--assets-dir", "/usr/share/assets"]).2 (by decide)
      "--screen-root" (by decide)⟩

/-! ## Saving properties and resetting them from the backup -/

/-- The backup path differs from the project path. -/
theorem append_backup_ne (p : String) : p ++ ".backup" ≠ p := by
  intro e
  have h := congrArg String.length e
  simp [String.length_append] at h
  have h2 : (".backup" : String).length = 7 := by decide
  omega

/-- The project path the panel works on is that of its wallpaper, or empty. -/
theorem PropertiesPanel.getProjectJsonPath_cases (current : WallpaperInfo) (id : String) :
    PropertiesPanel.getProjectJsonPath current id = "" ∨
    (PropertiesPanel.getProjectJsonPath current id = current.projectPath ∧
      current.projectPath ≠ "") := by
  unfold PropertiesPanel.getProjectJsonPath
  split
  · rename_i h
    right
    simp only [Bool.and_eq_true, Bool.not_eq_true', beq_iff_eq] at h
    exact ⟨rfl, (String.isEmpty_eq_false_iff _).mp h.2⟩
  · exact Or.inl rfl

/-- A save that returns true: the project path is that of the panel's wallpaper, the
backup was there or could be copied, the project file (after the copy) was read and
parsed, and the result is that disk with the project file rewritten. -/
theorem PropertiesPanel.save_result (current : WallpaperInfo) (fs : FileSystem)
    (id : String) (properties : QJsonObject) (o : SaveOutcome) :
    (PropertiesPanel.savePropertiesToProjectJson current fs id properties o).1 = true →
    current.projectPath ≠ "" ∧
    PropertiesPanel.getProjectJsonPath current id = current.projectPath ∧
    ∃ data : JsonText,
      (if !fs.fileExists (current.projectPath ++ ".backup")
        then fs.copy current.projectPath (current.projectPath ++ ".backup")
        else fs).readAll current.projectPath = some data ∧
      QJsonDocument.parseFailed data = false ∧
      (PropertiesPanel.savePropertiesToProjectJson current fs id properties o).2 =
        (if !fs.fileExists (current.projectPath ++ ".backup")
          then fs.copy current.projectPath (current.projectPath ++ ".backup")
          else fs).write current.projectPath
          (QJsonDocument.toJson (.ofObject
            (PropertiesPanel.updatedProject (QJsonDocument.fromJson data).object
              properties))) := by
  have hemp : ("" : String).isEmpty = true := by decide
  rcases PropertiesPanel.getProjectJsonPath_cases current id with he | ⟨hp, hne⟩
  · intro h
    simp [PropertiesPanel.savePropertiesToProjectJson, he, hemp] at h
  · have hpe : current.projectPath.isEmpty = false := (String.isEmpty_eq_false_iff _).mpr hne
    intro h
    refine ⟨hne, hp, ?_⟩
    revert h
    unfold PropertiesPanel.savePropertiesToProjectJson
    simp only [PropertiesPanel.getBackupProjectJsonPath, hp, hpe, Bool.false_eq_true,
      if_false]
    split
    · intro h
      cases h
    · split
      · intro h
        cases h
      · rename_i data hread
        split
        · intro h
          cases h
        · rename_i hparse
          split
          · intro h
            cases h
          · intro _
            exact ⟨data, hread, by simpa using hparse, rfl⟩

/-- After a save that returns true the backup exists, and it holds what it held before,
or what the project file held when there was no backup. -/
theorem PropertiesPanel.save_backup (current : WallpaperInfo) (fs : FileSystem)
    (id : String) (properties : QJsonObject) (o : SaveOutcome)
    (h : (PropertiesPanel.savePropertiesToProjectJson current fs id properties o).1 = true) :
    (PropertiesPanel.savePropertiesToProjectJson current fs id properties o).2.fileExists
      (current.projectPath ++ ".backup") = true ∧
    (PropertiesPanel.savePropertiesToProjectJson current fs id properties o).2.readAll
        (current.projectPath ++ ".backup") =
      (if fs.fileExists (current.projectPath ++ ".backup")
        then fs.readAll (current.projectPath ++ ".backup")
        else fs.readAll current.projectPath) := by
  have hb := append_backup_ne current.projectPath
  obtain ⟨_, _, data, _, _, hres⟩ := PropertiesPanel.save_result current fs id properties o h
  rw [hres]
  cases hbe : fs.fileExists (current.projectPath ++ ".backup") <;>
    simp [FileSystem.write, FileSystem.copy, hb, hbe]

/-- Saves that all return true keep a backup that is there, with its content. -/
theorem PropertiesPanel.saveAll_keeps_backup (current : WallpaperInfo) (J : JsonText)
    (calls : List (String × QJsonObject × SaveOutcome)) (fs : FileSystem)
    (hex : fs.fileExists (current.projectPath ++ ".backup") = true)
    (hJ : fs.readAll (current.projectPath ++ ".backup") = some J)
    (h : (PropertiesPanel.saveAll current fs calls).1 = true) :
    (PropertiesPanel.saveAll current fs calls).2.fileExists
      (current.projectPath ++ ".backup") = true ∧
    (PropertiesPanel.saveAll current fs calls).2.readAll
      (current.projectPath ++ ".backup") = some J := by
  induction calls generalizing fs with
  | nil => exact ⟨hex, hJ⟩
  | cons call rest ih =>
    simp only [PropertiesPanel.saveAll, Bool.and_eq_true] at h ⊢
    obtain ⟨h1, h2⟩ := h
    obtain ⟨hb1, hb2⟩ := PropertiesPanel.save_backup current fs call.1 call.2.1 call.2.2 h1
    rw [hex, if_pos rfl, hJ] at hb2
    exact ih _ hb1 hb2 h2

/-- One or more saves that all return true, started without a backup, leave a backup
that holds what the project file held at the start. -/
theorem PropertiesPanel.saveAll_creates_backup (current : WallpaperInfo) (J : JsonText)
    (calls : List (String × QJsonObject × SaveOutcome)) (fs : FileSystem)
    (hJ : fs.readAll current.projectPath = some J)
    (hnb : fs.fileExists (current.projectPath ++ ".backup") = false)
    (hne : calls ≠ [])
    (h : (PropertiesPanel.saveAll current fs calls).1 = true) :
    (PropertiesPanel.saveAll current fs calls).2.fileExists
      (current.projectPath ++ ".backup") = true ∧
    (PropertiesPanel.saveAll current fs calls).2.readAll
      (current.projectPath ++ ".backup") = some J := by
  cases calls with
  | nil => exact absurd rfl hne
  | cons call rest =>
    simp only [PropertiesPanel.saveAll, Bool.and_eq_true] at h ⊢
    obtain ⟨h1, h2⟩ := h
    obtain ⟨hb1, hb2⟩ := PropertiesPanel.save_backup current fs call.1 call.2.1 call.2.2 h1
    rw [hnb] at hb2
    simp only [Bool.false_eq_true, if_false] at hb2
    rw [hJ] at hb2
    exact PropertiesPanel.saveAll_keeps_backup current J rest _ hb1 hb2 h2

/-- Saves of a list in two parts are the saves of the first part, then of the second. -/
theorem PropertiesPanel.saveAll_append (current : WallpaperInfo)
    (pre post : List (String × QJsonObject × SaveOutcome)) (fs : FileSystem) :
    PropertiesPanel.saveAll current fs (pre ++ post) =
      ((PropertiesPanel.saveAll current fs pre).1 &&
          (PropertiesPanel.saveAll current (PropertiesPanel.saveAll current fs pre).2 post).1,
        (PropertiesPanel.saveAll current (PropertiesPanel.saveAll current fs pre).2 post).2) := by
  induction pre generalizing fs with
  | nil => simp [PropertiesPanel.saveAll]
  | cons call rest ih =>
    rw [List.cons_append]
    simp only [PropertiesPanel.saveAll]
    rw [ih]
    simp only [Bool.and_assoc]

/-- A reset that returns true puts the content of the backup into the project file and
leaves no backup. -/
theorem PropertiesPanel.reset_result (current : WallpaperInfo) (fs : FileSystem)
    (id : String) (o : ResetOutcome)
    (h : (PropertiesPanel.resetPropertiesFromBackup current fs id o).1 = true) :
    (PropertiesPanel.resetPropertiesFromBackup current fs id o).2.readAll
      current.projectPath = fs.readAll (current.projectPath ++ ".backup") ∧
    (PropertiesPanel.resetPropertiesFromBackup current fs id o).2.fileExists
      current.projectPath = true ∧
    (PropertiesPanel.resetPropertiesFromBackup current fs id o).2.fileExists
      (current.projectPath ++ ".backup") = false ∧
    (PropertiesPanel.resetPropertiesFromBackup current fs id o).2.readAll
      (current.projectPath ++ ".backup") = none := by
  have hb := append_backup_ne current.projectPath
  have hemp : ("" : String).isEmpty = true := by decide
  rcases PropertiesPanel.getProjectJsonPath_cases current id with he | ⟨hp, hne⟩
  · simp [PropertiesPanel.resetPropertiesFromBackup, he, hemp] at h
  · have hpe : current.projectPath.isEmpty = false := (String.isEmpty_eq_false_iff _).mpr hne
    revert h
    unfold PropertiesPanel.resetPropertiesFromBackup
    simp only [PropertiesPanel.getBackupProjectJsonPath, hp, hpe, Bool.false_eq_true,
      if_false]
    cases hbe : fs.fileExists (current.projectPath ++ ".backup") <;>
      cases hpx : fs.fileExists current.projectPath <;>
      cases hrm : o.removed <;> cases hrn : o.renamed <;>
      simp [FileSystem.rename, FileSystem.remove, FileSystem.copy, hb, hb.symm]

/-- C23: reset undoes every save. With the disk a map from paths to contents, let the
project file of the panel's wallpaper hold J and let there be no backup file. After one
or more calls of `savePropertiesToProjectJson` that all return true, followed by a
`resetPropertiesFromBackup` that returns true, the project file holds J again and the
backup file is gone. After the first save, and after every later one, the backup
exists and holds J: it is made by the first save and not written again. -/
theorem PropertiesPanel.reset_undoes_every_save (current : WallpaperInfo) (fs : FileSystem)
    (J : JsonText) (calls : List (String × QJsonObject × SaveOutcome)) (resetId : String)
    (ro : ResetOutcome)
    (hJ : fs.readAll current.projectPath = some J)
    (hnb : fs.fileExists (current.projectPath ++ ".backup") = false)
    (hne : calls ≠ [])
    (hsaved : (PropertiesPanel.saveAll current fs calls).1 = true)
    (hreset : (PropertiesPanel.resetPropertiesFromBackup current
      (PropertiesPanel.saveAll current fs calls).2 resetId ro).1 = true) :
    (PropertiesPanel.resetPropertiesFromBackup current
      (PropertiesPanel.saveAll current fs calls).2 resetId ro).2.readAll
        current.projectPath = some J ∧
    (PropertiesPanel.resetPropertiesFromBackup current
      (PropertiesPanel.saveAll current fs calls).2 resetId ro).2.fileExists
        current.projectPath = true ∧
    (PropertiesPanel.resetPropertiesFromBackup current
      (PropertiesPanel.saveAll current fs calls).2 resetId ro).2.fileExists
        (current.projectPath ++ ".backup") = false ∧
    (PropertiesPanel.resetPropertiesFromBackup current
      (PropertiesPanel.saveAll current fs calls).2 resetId ro).2.readAll
        (current.projectPath ++ ".backup") = none ∧
    (∀ pre post : List (String × QJsonObject × SaveOutcome), calls = pre ++ post →
      pre ≠ [] →
      (PropertiesPanel.saveAll current fs pre).2.fileExists
        (current.projectPath ++ ".backup") = true ∧
      (PropertiesPanel.saveAll current fs pre).2.readAll
        (current.projectPath ++ ".backup") = some J) := by
  obtain ⟨_, hb2⟩ :=
    PropertiesPanel.saveAll_creates_backup current J calls fs hJ hnb hne hsaved
  obtain ⟨h1, h2, h3, h4⟩ := PropertiesPanel.reset_result current _ resetId ro hreset
  refine ⟨by rw [h1, hb2], h2, h3, h4, ?_⟩
  intro pre post hcalls hpre
  have hs := hsaved
  rw [hcalls, PropertiesPanel.saveAll_append] at hs
  simp only [Bool.and_eq_true] at hs
  exact PropertiesPanel.saveAll_creates_backup current J pre fs hJ hnb hpre hs.1

/-- Witness for C23: two saves of the sample wallpaper, then a reset. -/
theorem PropertiesPanel.reset_undoes_every_save_witness :
    (PropertiesPanel.resetPropertiesFromBackup sampleWallpaper
      (PropertiesPanel.saveAll sampleWallpaper sampleFiles sampleSaves).2 "123"
        ⟨true, true⟩).2.readAll sampleWallpaper.projectPath =
      some ⟨.ofObject sampleProject⟩ ∧
    (PropertiesPanel.resetPropertiesFromBackup sampleWallpaper
      (PropertiesPanel.saveAll sampleWallpaper sampleFiles sampleSaves).2 "123"
        ⟨true, true⟩).2.fileExists (sampleWallpaper.projectPath ++ ".backup") = false :=
  have h := PropertiesPanel.reset_undoes_every_save sampleWallpaper sampleFiles
    ⟨.ofObject sampleProject⟩ sampleSaves "123" ⟨true, true⟩ (by decide) (by decide)
    (by decide) (by decide) (by decide)
  ⟨h.1, h.2.2.1⟩

/-! ## Saved properties and what is reloaded -/

/-- C22, evaluated at a project file that keeps its properties at the top level. The
file of the sample wallpaper holds the property "speed" with value 1 in the root
member "properties". Saving the edit that sets "speed" to 2 returns true and writes the
edited object under "general", but the reload returns the object with value 1 for
"speed": the root member is merged in last and takes the place of what was saved. -/
theorem PropertiesPanel.saved_value_shadowed_by_root :
    (PropertiesPanel.savePropertiesToProjectJson sampleWallpaper rootPropertiesFiles "123"
      sampleEditSpeed ⟨true, true⟩).1 = true ∧
    (PropertiesPanel.savePropertiesToProjectJson sampleWallpaper rootPropertiesFiles "123"
      sampleEditSpeed ⟨true, true⟩).2.readAll "/ws/123/project.json" =
      some ⟨.ofObject
        [("general", .object [("properties", .object
            [("speed", .object [("type", .string "slider"), ("value", .number 2)])])]),
         ("properties", .object
            [("speed", .object [("type", .string "slider"), ("value", .number 1)])]),
         ("title", .string "Forest")]⟩ ∧
    PropertiesPanel.loadPropertiesFromProjectJson sampleWallpaper
      (PropertiesPanel.savePropertiesToProjectJson sampleWallpaper rootPropertiesFiles "123"
        sampleEditSpeed ⟨true, true⟩).2 "123" =
      [("speed", .object [("type", .string "slider"), ("value", .number 1)])] ∧
    QJsonObject.value
      (QJsonObject.value (QJsonObject.value sampleEditSpeed "general").toObject
        "properties").toObject "speed" =
      .object [("type", .string "slider"), ("value", .number 2)] := by
  decide

/-- Reading a key that none of the merged members has gives what the target gave. -/
theorem QJsonObject.value_merge_absent (source target : QJsonObject) (k : String)
    (h : ∀ a ∈ source, a.1 ≠ k) :
    QJsonObject.value (QJsonObject.merge target source) k = QJsonObject.value target k := by
  unfold QJsonObject.merge
  induction source generalizing target with
  | nil => rfl
  | cons a rest ih =>
    rw [List.foldl_cons, ih _ (fun b hb => h b (List.mem_cons_of_mem _ hb))]
    exact QJsonObject.value_insert_other target a.1 k a.2
      (fun e => h a (List.mem_cons_self _ _) e.symm)

/-- A member merged in from an object with one member per key is the one read back. -/
theorem QJsonObject.value_merge_member (source target : QJsonObject)
    (hs : source.Pairwise (fun a b => a.1 ≠ b.1)) (m : String × QJsonValue)
    (hm : m ∈ source) :
    QJsonObject.value (QJsonObject.merge target source) m.1 = m.2 := by
  induction source generalizing target with
  | nil => cases hm
  | cons a rest ih =>
    rw [List.pairwise_cons] at hs
    rcases List.mem_cons.mp hm with hm | hm
    · subst hm
      have h := QJsonObject.value_merge_absent rest (QJsonObject.insert target m.1 m.2) m.1
        (fun b hb e => hs.1 b hb e.symm)
      unfold QJsonObject.merge at h ⊢
      rw [List.foldl_cons, h]
      exact QJsonObject.value_insert_same target m.1 m.2
    · have h := ih (QJsonObject.insert target a.1 a.2) hs.2 hm
      unfold QJsonObject.merge at h ⊢
      rw [List.foldl_cons]
      exact h

/-- A key that is contained is found with its value among the members. -/
theorem QJsonObject.mem_of_contains (o : QJsonObject) (k : String)
    (h : QJsonObject.contains o k = true) : (k, QJsonObject.value o k) ∈ o := by
  induction o with
  | nil => simp [QJsonObject.contains] at h
  | cons a rest ih =>
    obtain ⟨k1, w⟩ := a
    rw [QJsonObject.value_cons]
    by_cases hk : k1 = k
    · simp [hk]
    · rw [if_neg hk]
      have hr : QJsonObject.contains rest k = true := by
        have hb : (k1 == k) = false := by simpa using hk
        simpa [QJsonObject.contains, hb] using h
      exact List.mem_cons_of_mem _ (ih hr)

/-- A key merged in is contained afterwards. -/
theorem QJsonObject.contains_merge_member (source target : QJsonObject)
    (m : String × QJsonValue) (hm : m ∈ source) :
    QJsonObject.contains (QJsonObject.merge target source) m.1 = true := by
  unfold QJsonObject.merge
  induction source generalizing target with
  | nil => cases hm
  | cons a rest ih =>
    rw [List.foldl_cons]
    rcases List.mem_cons.mp hm with hm | hm
    · subst hm
      have hkeep : ∀ (l : QJsonObject) (t : QJsonObject),
          QJsonObject.contains t m.1 = true →
          QJsonObject.contains (l.foldl (fun acc x => QJsonObject.insert acc x.1 x.2) t) m.1 =
            true := by
        intro l
        induction l with
        | nil => intro t ht; exact ht
        | cons b bs ihb =>
          intro t ht
          rw [List.foldl_cons]
          apply ihb
          by_cases hbk : m.1 = b.1
          · rw [hbk]
            exact QJsonObject.contains_insert_same t b.1 b.2
          · rw [QJsonObject.contains_insert_other t b.1 m.1 b.2 hbk]
            exact ht
      exact hkeep rest _ (QJsonObject.contains_insert_same target m.1 m.2)
    · exact ih _ hm

/-- The reload after a save, for a project file without a root member "properties":
the saved objects are what is read back. Let the project file hold the object `root`,
which has no member "properties" and whose properties under "general" are in ascending
key order, and let P have one member per property name. After a save of P that returns
true, the reload returns for every name in P the object given in P. -/
theorem PropertiesPanel.saved_properties_reloaded (current : WallpaperInfo)
    (fs : FileSystem) (id : String) (P root : QJsonObject) (o : SaveOutcome)
    (hread : fs.readAll current.projectPath = some ⟨.ofObject root⟩)
    (hroot : QJsonObject.contains root "properties" = false)
    (hexisting : ((QJsonObject.value (QJsonObject.value root "general").toObject
      "properties").toObject).Pairwise (fun a b => a.1 < b.1))
    (hP : P.Pairwise (fun a b => a.1 ≠ b.1))
    (hsave : (PropertiesPanel.savePropertiesToProjectJson current fs id
      [("general", .object [("properties", .object P)])] o).1 = true) :
    ∀ m ∈ P,
      QJsonObject.value (PropertiesPanel.loadPropertiesFromProjectJson current
        (PropertiesPanel.savePropertiesToProjectJson current fs id
          [("general", .object [("properties", .object P)])] o).2 id) m.1 = m.2 := by
  have hb := append_backup_ne current.projectPath
  obtain ⟨hne, hp, data, hdata, _, hres⟩ :=
    PropertiesPanel.save_result current fs id _ o hsave
  have hpe : current.projectPath.isEmpty = false := (String.isEmpty_eq_false_iff _).mpr hne
  have hdata2 : data = ⟨.ofObject root⟩ := by
    have h1 : (if !fs.fileExists (current.projectPath ++ ".backup")
        then fs.copy current.projectPath (current.projectPath ++ ".backup")
        else fs).readAll current.projectPath = fs.readAll current.projectPath := by
      cases fs.fileExists (current.projectPath ++ ".backup") <;>
        simp [FileSystem.copy, hb.symm]
    rw [h1, hread] at hdata
    exact (Option.some.inj hdata).symm
  have hupd : PropertiesPanel.updatedProject root
      [("general", .object [("properties", .object P)])] =
      QJsonObject.insert root "general" (.object
        (QJsonObject.insert (QJsonObject.value root "general").toObject "properties"
          (.object (QJsonObject.merge
            (QJsonObject.value (QJsonObject.value root "general").toObject
              "properties").toObject P)))) := by
    simp [PropertiesPanel.updatedProject, QJsonObject.contains, QJsonObject.value_cons,
      QJsonValue.toObject, QJsonObject.merge]
  have hload : PropertiesPanel.loadPropertiesFromProjectJson current
      (PropertiesPanel.savePropertiesToProjectJson current fs id
        [("general", .object [("properties", .object P)])] o).2 id =
      QJsonObject.merge [] (QJsonObject.merge
        (QJsonObject.value (QJsonObject.value root "general").toObject
          "properties").toObject P) := by
    unfold PropertiesPanel.loadPropertiesFromProjectJson
    rw [hp, hres, hdata2]
    simp only [hpe, Bool.false_eq_true, if_false, FileSystem.write, if_true,
      QJsonDocument.parseFailed, QJsonDocument.toJson, QJsonDocument.fromJson,
      QJsonDocument.object, hupd]
    have hnn : (QJsonDocument.ofObject (QJsonObject.insert root "general" (.object
        (QJsonObject.insert (QJsonObject.value root "general").toObject "properties"
          (.object (QJsonObject.merge
            (QJsonObject.value (QJsonObject.value root "general").toObject
              "properties").toObject P))))) == QJsonDocument.null) = false := by
      simp
    rw [hnn]
    simp only [Bool.false_eq_true, if_false]
    unfold PropertiesPanel.mergedProperties
    simp only [QJsonObject.value_insert_same, QJsonValue.toObject,
      QJsonObject.contains_insert_same, if_true,
      QJsonObject.contains_insert_other root "general" "properties" _ (by decide), hroot,
      Bool.false_eq_true, if_false]
    rfl
  intro m hm
  rw [hload]
  have hsorted := QJsonObject.merge_sorted P _ hexisting
  have hdistinct : (QJsonObject.merge
      (QJsonObject.value (QJsonObject.value root "general").toObject
        "properties").toObject P).Pairwise (fun a b => a.1 ≠ b.1) :=
    hsorted.imp (fun h => ne_of_lt h)
  have hval := QJsonObject.value_merge_member P
    (QJsonObject.value (QJsonObject.value root "general").toObject "properties").toObject
    hP m hm
  have hmem := QJsonObject.mem_of_contains _ m.1
    (QJsonObject.contains_merge_member P
      (QJsonObject.value (QJsonObject.value root "general").toObject "properties").toObject
      m hm)
  rw [hval] at hmem
  exact QJsonObject.value_merge_member _ [] hdistinct (m.1, m.2) hmem

/-! ## The settings record of a wallpaper -/

/-- Different setting names give different keys of the same wallpaper. -/
theorem ConfigManager.wallpaperKey_ne (id k1 k2 : String) (h : k1 ≠ k2) :
    ConfigManager.wallpaperKey id k1 ≠ ConfigManager.wallpaperKey id k2 := by
  intro e
  apply h
  have hd := congrArg String.data e
  simp only [ConfigManager.wallpaperKey, String.data_append, List.append_cancel_left_eq] at hd
  cases k1
  cases k2
  simp_all

/-- A per-wallpaper key is not the key of the global screen root. -/
theorem ConfigManager.wallpaperKey_ne_screen_root (id k : String) :
    ConfigManager.wallpaperKey id k ≠ "display/screen_root" := by
  intro e
  have hd := congrArg String.data e
  simp [ConfigManager.wallpaperKey, String.data_append] at hd

/-- A per-wallpaper value that was written is the one read back. -/
theorem ConfigManager.getWallpaperValue_set_same (c : ConfigManager) (id k : String)
    (v d : QVariant) : (c.setWallpaperValue id k v).getWallpaperValue id k d = v := by
  simp [ConfigManager.setWallpaperValue, ConfigManager.getWallpaperValue,
    QSettings.value_sync, QSettings.value_setValue_same]

/-- Writing one per-wallpaper value leaves the other values of the wallpaper as they
were. -/
theorem ConfigManager.getWallpaperValue_set_other (c : ConfigManager) (id k k2 : String)
    (v d : QVariant) (h : k2 ≠ k) :
    (c.setWallpaperValue id k v).getWallpaperValue id k2 d = c.getWallpaperValue id k2 d := by
  simp [ConfigManager.setWallpaperValue, ConfigManager.getWallpaperValue,
    QSettings.value_sync,
    QSettings.value_setValue_other _ _ _ _ _ (ConfigManager.wallpaperKey_ne id k2 k h)]

/-- Writing a per-wallpaper value leaves the global screen root as it was. -/
theorem ConfigManager.screenRoot_setWallpaperValue (c : ConfigManager) (id k : String)
    (v : QVariant) : (c.setWallpaperValue id k v).screenRoot = c.screenRoot := by
  simp [ConfigManager.setWallpaperValue, ConfigManager.screenRoot, QSettings.value_sync,
    QSettings.value_setValue_other _ _ _ _ _
      (ConfigManager.wallpaperKey_ne_screen_root id k).symm]

/-- What the store holds for the wallpaper after `saveWallpaperSettings`: every setting
other than the two screen roots is the one of the record; the screen root and the
custom screen root are those of the record when the method writes them and are
untouched otherwise; the global screen root is untouched. -/
theorem PropertiesPanel.saveWallpaperSettings_values (config : ConfigManager)
    (s : WallpaperSettings) (id : String) (d : QVariant) :
    (PropertiesPanel.saveWallpaperSettings config s id).getWallpaperValue id "silent" d =
      .bool s.silent ∧
    (PropertiesPanel.saveWallpaperSettings config s id).getWallpaperValue id "master_volume" d =
      .int s.volume ∧
    (PropertiesPanel.saveWallpaperSettings config s id).getWallpaperValue id "no_auto_mute" d =
      .bool s.noAutoMute ∧
    (PropertiesPanel.saveWallpaperSettings config s id).getWallpaperValue id
      "no_audio_processing" d = .bool s.noAudioProcessing ∧
    (PropertiesPanel.saveWallpaperSettings config s id).getWallpaperValue id "audio_device" d =
      .string s.audioDevice ∧
    (PropertiesPanel.saveWallpaperSettings config s id).getWallpaperValue id "fps" d =
      .int s.fps ∧
    (PropertiesPanel.saveWallpaperSettings config s id).getWallpaperValue id
      "window_geometry" d = .string s.windowGeometry ∧
    (PropertiesPanel.saveWallpaperSettings config s id).getWallpaperValue id "background_id" d =
      .string s.backgroundId ∧
    (PropertiesPanel.saveWallpaperSettings config s id).getWallpaperValue id "scaling" d =
      .string s.scaling ∧
    (PropertiesPanel.saveWallpaperSettings config s id).getWallpaperValue id "clamping" d =
      .string s.clamping ∧
    (PropertiesPanel.saveWallpaperSettings config s id).getWallpaperValue id "disable_mouse" d =
      .bool s.disableMouse ∧
    (PropertiesPanel.saveWallpaperSettings config s id).getWallpaperValue id
      "disable_parallax" d = .bool s.disableParallax ∧
    (PropertiesPanel.saveWallpaperSettings config s id).getWallpaperValue id
      "no_fullscreen_pause" d = .bool s.noFullscreenPause ∧
    (PropertiesPanel.saveWallpaperSettings config s id).getWallpaperValue id "no_loop" d =
      .bool s.noLoop ∧
    (PropertiesPanel.saveWallpaperSettings config s id).getWallpaperValue id
      "no_hardware_decode" d = .bool s.noHardwareDecode ∧
    (PropertiesPanel.saveWallpaperSettings config s id).getWallpaperValue id "force_x11" d =
      .bool s.forceX11 ∧
    (PropertiesPanel.saveWallpaperSettings config s id).getWallpaperValue id "force_wayland" d =
      .bool s.forceWayland ∧
    (PropertiesPanel.saveWallpaperSettings config s id).getWallpaperValue id "verbose" d =
      .bool s.verbose ∧
    (PropertiesPanel.saveWallpaperSettings config s id).getWallpaperValue id "log_level" d =
      .string s.logLevel ∧
    (PropertiesPanel.saveWallpaperSettings config s id).getWallpaperValue id "mpv_options" d =
      .string s.mpvOptions ∧
    (PropertiesPanel.saveWallpaperSettings config s id).screenRoot = config.screenRoot ∧
    (PropertiesPanel.saveWallpaperSettings config s id).getWallpaperValue id "screen_root" d =
      (if (if s.screenRoot == "DP-4"
            then (config.screenRoot.isEmpty || config.screenRoot != s.screenRoot)
            else !s.screenRoot.isEmpty) = true
        then .string s.screenRoot else config.getWallpaperValue id "screen_root" d) ∧
    (PropertiesPanel.saveWallpaperSettings config s id).getWallpaperValue id
        "custom_screen_root" d =
      (if (!s.customScreenRoot.isEmpty && s.customScreenRoot != s.screenRoot) = true
        then .string s.customScreenRoot
        else config.getWallpaperValue id "custom_screen_root" d) := by
  unfold PropertiesPanel.saveWallpaperSettings
  simp only [ConfigManager.setWallpaperSilent, ConfigManager.setWallpaperMasterVolume,
    ConfigManager.setWallpaperNoAutoMute, ConfigManager.setWallpaperNoAudioProcessing,
    ConfigManager.setWallpaperScreenRoot, ConfigManager.setWallpaperAudioDevice,
    ConfigManager.screenRoot_setWallpaperValue]
  split_ifs <;>
    simp_all [ConfigManager.getWallpaperValue_set_same,
      ConfigManager.getWallpaperValue_set_other, ConfigManager.screenRoot_setWallpaperValue]

/-- C24, counterexamples. Default settings, whose screen root is empty, saved to an
empty store are loaded with the screen root "DP-4". With "HDMI-1" stored before as the
custom screen root of the wallpaper, default settings (empty custom screen root) are
loaded with the custom screen root "HDMI-1". With the global screen root "DP-4" and
"HDMI-1" stored before as the screen root of the wallpaper, settings with the screen
root "DP-4" are loaded with the screen root "HDMI-1". -/
theorem PropertiesPanel.screen_roots_not_round_tripped :
    (PropertiesPanel.loadWallpaperSettings
      (PropertiesPanel.saveWallpaperSettings (ConfigManager.mk ⟨[], []⟩ "/home/u") {} "123")
      "123").screenRoot = "DP-4" ∧
    ({} : WallpaperSettings).screenRoot = "" ∧
    (PropertiesPanel.loadWallpaperSettings
      (PropertiesPanel.saveWallpaperSettings
        ((ConfigManager.mk ⟨[], []⟩ "/home/u").setWallpaperValue "123" "custom_screen_root"
          (.string "HDMI-1")) {} "123") "123").customScreenRoot = "HDMI-1" ∧
    ({} : WallpaperSettings).customScreenRoot = "" ∧
    (PropertiesPanel.loadWallpaperSettings
      (PropertiesPanel.saveWallpaperSettings
        (((ConfigManager.mk ⟨[], []⟩ "/home/u").setScreenRoot "DP-4").setWallpaperScreenRoot
          "123" "HDMI-1") { screenRoot := "DP-4" } "123") "123").screenRoot = "HDMI-1" := by
  decide

/-- C24, amended: the settings record round trip. For every wallpaper id, every prior
store state and every `WallpaperSettings` record s held as the current settings,
`saveWallpaperSettings(id)` followed by `loadWallpaperSettings(id)` leaves the current
settings equal to s in every field other than screenRoot and customScreenRoot.
screenRoot is equal to s.screenRoot when that is not empty and is not "DP-4" while the
global screen root is "DP-4" too; customScreenRoot is equal to s.customScreenRoot when
that is not empty and differs from s.screenRoot. -/
theorem PropertiesPanel.settings_round_trip (config : ConfigManager) (s : WallpaperSettings)
    (id : String) :
    (PropertiesPanel.loadWallpaperSettings
      (PropertiesPanel.saveWallpaperSettings config s id) id).silent = s.silent ∧
    (PropertiesPanel.loadWallpaperSettings
      (PropertiesPanel.saveWallpaperSettings config s id) id).volume = s.volume ∧
    (PropertiesPanel.loadWallpaperSettings
      (PropertiesPanel.saveWallpaperSettings config s id) id).noAutoMute = s.noAutoMute ∧
    (PropertiesPanel.loadWallpaperSettings
      (PropertiesPanel.saveWallpaperSettings config s id) id).noAudioProcessing =
        s.noAudioProcessing ∧
    (PropertiesPanel.loadWallpaperSettings
      (PropertiesPanel.saveWallpaperSettings config s id) id).audioDevice = s.audioDevice ∧
    (PropertiesPanel.loadWallpaperSettings
      (PropertiesPanel.saveWallpaperSettings config s id) id).fps = s.fps ∧
    (PropertiesPanel.loadWallpaperSettings
      (PropertiesPanel.saveWallpaperSettings config s id) id).windowGeometry =
        s.windowGeometry ∧
    (PropertiesPanel.loadWallpaperSettings
      (PropertiesPanel.saveWallpaperSettings config s id) id).backgroundId = s.backgroundId ∧
    (PropertiesPanel.loadWallpaperSettings
      (PropertiesPanel.saveWallpaperSettings config s id) id).scaling = s.scaling ∧
    (PropertiesPanel.loadWallpaperSettings
      (PropertiesPanel.saveWallpaperSettings config s id) id).clamping = s.clamping ∧
    (PropertiesPanel.loadWallpaperSettings
      (PropertiesPanel.saveWallpaperSettings config s id) id).disableMouse = s.disableMouse ∧
    (PropertiesPanel.loadWallpaperSettings
      (PropertiesPanel.saveWallpaperSettings config s id) id).disableParallax =
        s.disableParallax ∧
    (PropertiesPanel.loadWallpaperSettings
      (PropertiesPanel.saveWallpaperSettings config s id) id).noFullscreenPause =
        s.noFullscreenPause ∧
    (PropertiesPanel.loadWallpaperSettings
      (PropertiesPanel.saveWallpaperSettings config s id) id).noLoop = s.noLoop ∧
    (PropertiesPanel.loadWallpaperSettings
      (PropertiesPanel.saveWallpaperSettings config s id) id).noHardwareDecode =
        s.noHardwareDecode ∧
    (PropertiesPanel.loadWallpaperSettings
      (PropertiesPanel.saveWallpaperSettings config s id) id).forceX11 = s.forceX11 ∧
    (PropertiesPanel.loadWallpaperSettings
      (PropertiesPanel.saveWallpaperSettings config s id) id).forceWayland = s.forceWayland ∧
    (PropertiesPanel.loadWallpaperSettings
      (PropertiesPanel.saveWallpaperSettings config s id) id).verbose = s.verbose ∧
    (PropertiesPanel.loadWallpaperSettings
      (PropertiesPanel.saveWallpaperSettings config s id) id).logLevel = s.logLevel ∧
    (PropertiesPanel.loadWallpaperSettings
      (PropertiesPanel.saveWallpaperSettings config s id) id).mpvOptions = s.mpvOptions ∧
    (s.screenRoot ≠ "" → ¬ (s.screenRoot = "DP-4" ∧ config.screenRoot = "DP-4") →
      (PropertiesPanel.loadWallpaperSettings
        (PropertiesPanel.saveWallpaperSettings config s id) id).screenRoot = s.screenRoot) ∧
    (s.customScreenRoot ≠ "" → s.customScreenRoot ≠ s.screenRoot →
      (PropertiesPanel.loadWallpaperSettings
        (PropertiesPanel.saveWallpaperSettings config s id) id).customScreenRoot =
          s.customScreenRoot) := by
  have hv := PropertiesPanel.saveWallpaperSettings_values config s id
  have hglobal := (hv QVariant.invalid).2.2.2.2.2.2.2.2.2.2.2.2.2.2.2.2.2.2.2.2.1
  have hscreen := fun d => (hv d).2.2.2.2.2.2.2.2.2.2.2.2.2.2.2.2.2.2.2.2.2.1
  have hcustom := fun d => (hv d).2.2.2.2.2.2.2.2.2.2.2.2.2.2.2.2.2.2.2.2.2.2
  have h0 := fun d => (hv d).1
  have h1 := fun d => (hv d).2.1
  have h2 := fun d => (hv d).2.2.1
  have h3 := fun d => (hv d).2.2.2.1
  have h4 := fun d => (hv d).2.2.2.2.1
  have h5 := fun d => (hv d).2.2.2.2.2.1
  have h6 := fun d => (hv d).2.2.2.2.2.2.1
  have h7 := fun d => (hv d).2.2.2.2.2.2.2.1
  have h8 := fun d => (hv d).2.2.2.2.2.2.2.2.1
  have h9 := fun d => (hv d).2.2.2.2.2.2.2.2.2.1
  have h10 := fun d => (hv d).2.2.2.2.2.2.2.2.2.2.1
  have h11 := fun d => (hv d).2.2.2.2.2.2.2.2.2.2.2.1
  have h12 := fun d => (hv d).2.2.2.2.2.2.2.2.2.2.2.2.1
  have h13 := fun d => (hv d).2.2.2.2.2.2.2.2.2.2.2.2.2.1
  have h14 := fun d => (hv d).2.2.2.2.2.2.2.2.2.2.2.2.2.2.1
  have h15 := fun d => (hv d).2.2.2.2.2.2.2.2.2.2.2.2.2.2.2.1
  have h16 := fun d => (hv d).2.2.2.2.2.2.2.2.2.2.2.2.2.2.2.2.1
  have h17 := fun d => (hv d).2.2.2.2.2.2.2.2.2.2.2.2.2.2.2.2.2.1
  have h18 := fun d => (hv d).2.2.2.2.2.2.2.2.2.2.2.2.2.2.2.2.2.2.1
  have h19 := fun d => (hv d).2.2.2.2.2.2.2.2.2.2.2.2.2.2.2.2.2.2.2.1
  unfold PropertiesPanel.loadWallpaperSettings
  simp only [ConfigManager.getWallpaperSilent, ConfigManager.getWallpaperMasterVolume,
    ConfigManager.getWallpaperNoAutoMute, ConfigManager.getWallpaperNoAudioProcessing,
    ConfigManager.getWallpaperScreenRoot, ConfigManager.getWallpaperAudioDevice,
    h0, h1, h2, h3, h4, h5, h6, h7, h8, h9, h10, h11, h12, h13, h14, h15, h16, h17, h18, h19,
    hglobal, hscreen, hcustom, QVariant.toBool, QVariant.toInt, QVariant.toQString,
    true_and]
  constructor
  · intro hne hdp
    have hsaved : (if s.screenRoot == "DP-4"
        then (config.screenRoot.isEmpty || config.screenRoot != s.screenRoot)
        else !s.screenRoot.isEmpty) = true := by
      by_cases h : s.screenRoot = "DP-4"
      · have hg : config.screenRoot ≠ "DP-4" := fun e => hdp ⟨h, e⟩
        simp [h, hg]
      · have he : s.screenRoot.isEmpty = false := (String.isEmpty_eq_false_iff _).mpr hne
        simp [h, he]
    have he : s.screenRoot.isEmpty = false := (String.isEmpty_eq_false_iff _).mpr hne
    simp only [hsaved, if_true]
    simp only [he, Bool.false_eq_true, if_false]
  · intro hne hdiff
    have he : s.customScreenRoot.isEmpty = false := (String.isEmpty_eq_false_iff _).mpr hne
    simp [he, hdiff]

/-- Witness for the amended C24: settings with both screen roots set, saved to the
sample store. -/
theorem PropertiesPanel.settings_round_trip_witness :
    (PropertiesPanel.loadWallpaperSettings
      (PropertiesPanel.saveWallpaperSettings sampleConfig
        { screenRoot := "HDMI-1", customScreenRoot := "DP-2", volume := 40 } "123")
      "123").screenRoot = "HDMI-1" ∧
    (PropertiesPanel.loadWallpaperSettings
      (PropertiesPanel.saveWallpaperSettings sampleConfig
        { screenRoot := "HDMI-1", customScreenRoot := "DP-2", volume := 40 } "123")
      "123").customScreenRoot = "DP-2" :=
  have h := PropertiesPanel.settings_round_trip sampleConfig
    { screenRoot := "HDMI-1", customScreenRoot := "DP-2", volume := 40 } "123"
  ⟨h.2.2.2.2.2.2.2.2.2.2.2.2.2.2.2.2.2.2.2.2.1 (by decide) (by decide),
    h.2.2.2.2.2.2.2.2.2.2.2.2.2.2.2.2.2.2.2.2.2 (by decide) (by decide)⟩

/-! ## The remembered wallpaper across launches and stops -/

/-- C25, evaluated at a launch that fails while a wallpaper is running. The user has
launched wallpaper 123, so the stored last-selected wallpaper is "123". A manual launch
of wallpaper 456 follows: the running process finishes inside the first wait of the
stop, and the new process does not start. The launch fails, yet the stored
last-selected wallpaper is now empty; the stored playlist flag is unchanged. -/
theorem MainWindow.failed_launch_clears_last_wallpaper :
    launchedWindow.m_config.lastSelectedWallpaper = "123" ∧
    launchedWindow.m_config.lastSessionUsedPlaylist = false ∧
    (({ launchedWindow with m_lastLaunchSource := .Manual,
                            m_isLaunchingWallpaper := true }).launchRenderer
      sampleEnvironment otherWallpaper
      (MainWindow.additionalArguments launchedWindow.m_config otherWallpaper true)
      ⟨none, none⟩ failedOutcome).1 = false ∧
    (launchedWindow.launchWallpaperWithSource sampleEnvironment otherWallpaper .Manual
      ⟨none, none⟩ failedOutcome).m_config.lastSelectedWallpaper = "" ∧
    (launchedWindow.launchWallpaperWithSource sampleEnvironment otherWallpaper .Manual
      ⟨none, none⟩ failedOutcome).m_config.lastSessionUsedPlaylist = false := by
  decide

/-- The stop slot leaves the launch source as it is. -/
theorem MainWindow.onWallpaperStopped_source (w : MainWindow) :
    w.onWallpaperStopped.m_lastLaunchSource = w.m_lastLaunchSource := by
  unfold MainWindow.onWallpaperStopped
  split <;> simp

/-- Delivering signals leaves the launch source as it is. -/
theorem MainWindow.deliver_source (signals : List Signal) (w : MainWindow) :
    (w.deliver signals).m_lastLaunchSource = w.m_lastLaunchSource := by
  induction signals generalizing w with
  | nil => rfl
  | cons s signals ih =>
    simp only [MainWindow.deliver, List.foldl_cons]
    by_cases hs : s = Signal.wallpaperStopped
    · have h := ih w.onWallpaperStopped
      simp only [MainWindow.deliver] at h
      simp only [hs, if_true]
      exact h.trans (MainWindow.onWallpaperStopped_source w)
    · have h := ih w
      simp only [MainWindow.deliver] at h
      simp only [hs, if_false]
      exact h

/-- The launch proper leaves the launch source as it is. -/
theorem MainWindow.launchRenderer_source (w : MainWindow) (env : Environment)
    (wallpaper : WallpaperInfo) (args : List String) (otherStop : StopOutcome)
    (o : LaunchOutcome) :
    (w.launchRenderer env wallpaper args otherStop o).2.m_lastLaunchSource =
      w.m_lastLaunchSource := by
  unfold MainWindow.launchRenderer
  split
  · show (w.stopWallpaperManager otherStop).m_lastLaunchSource = w.m_lastLaunchSource
    unfold MainWindow.stopWallpaperManager
    exact MainWindow.deliver_source _ _
  · show (MainWindow.deliver _ _).m_lastLaunchSource = w.m_lastLaunchSource
    exact MainWindow.deliver_source _ _

/-- What a successful launch stores, for the two sources that write: a launch from the
playlist leaves the last-selected wallpaper empty and the playlist flag set; a manual
launch leaves the launched id and the flag cleared. -/
theorem MainWindow.session_state_after_success (w : MainWindow) (env : Environment)
    (wallpaper : WallpaperInfo) (source : LaunchSource) (otherStop : StopOutcome)
    (o : LaunchOutcome)
    (hpath : w.m_config.wallpaperEnginePath.isEmpty = false)
    (hok : (({ ({ w with m_lastLaunchSource := source } : MainWindow) with
        m_isLaunchingWallpaper := true } : MainWindow).launchRenderer env wallpaper
      (MainWindow.additionalArguments w.m_config wallpaper w.m_propertiesPanel)
      otherStop o).1 = true) :
    (source = .Playlist →
      (w.launchWallpaperWithSource env wallpaper source otherStop
        o).m_config.lastSelectedWallpaper = "" ∧
      (w.launchWallpaperWithSource env wallpaper source otherStop
        o).m_config.lastSessionUsedPlaylist = true) ∧
    (source = .Manual →
      (w.launchWallpaperWithSource env wallpaper source otherStop
        o).m_config.lastSelectedWallpaper = wallpaper.id ∧
      (w.launchWallpaperWithSource env wallpaper source otherStop
        o).m_config.lastSessionUsedPlaylist = false) := by
  unfold MainWindow.launchWallpaperWithSource MainWindow.onWallpaperLaunched
  simp only [hpath, Bool.false_eq_true, if_false, hok, if_true]
  constructor
  · intro hs
    subst hs
    simp [MainWindow.saveLaunchConfiguration, MainWindow.launchRenderer_source,
      ConfigManager.lastSelectedWallpaper,
      ConfigManager.lastSessionUsedPlaylist, ConfigManager.setLastSelectedWallpaper,
      ConfigManager.setLastSessionUsedPlaylist, QSettings.value_sync,
      QSettings.value_setValue_same, QSettings.value_setValue_other, QVariant.toQString,
      QVariant.toBool]
  · intro hs
    subst hs
    simp [MainWindow.saveLaunchConfiguration, MainWindow.launchRenderer_source,
      ConfigManager.lastSelectedWallpaper,
      ConfigManager.lastSessionUsedPlaylist, ConfigManager.setLastSelectedWallpaper,
      ConfigManager.setLastSessionUsedPlaylist, QSettings.value_sync,
      QSettings.value_setValue_same, QSettings.value_setValue_other, QVariant.toQString,
      QVariant.toBool]

/-- C26, evaluated. The user has launched wallpaper 123 (stored last-selected wallpaper
"123") and now launches the imported media file while the WNEL binary is missing: the
running workshop wallpaper is stopped only because of that launch, its process
finishes inside the first wait, and the stop leaves the stored last-selected wallpaper
empty. The flag `m_isLaunchingWallpaper` is also still set after the first launch; a
click on the stop button in which the process outlives both waits then leaves "123"
stored. -/
theorem MainWindow.launch_stop_clears_last_wallpaper :
    launchedWindow.m_config.lastSelectedWallpaper = "123" ∧
    (({ launchedWindow with m_isLaunchingWallpaper := true } : MainWindow).stopWallpaperManager
      ⟨some ⟨0, false⟩, none⟩).m_config.lastSelectedWallpaper = "" ∧
    (launchedWindow.launchWallpaperWithSource noWnelEnvironment sampleExternalWallpaper
      .Manual ⟨some ⟨0, false⟩, none⟩ startedOutcome).m_config.lastSelectedWallpaper = "" ∧
    (launchedWindow.launchWallpaperWithSource noWnelEnvironment sampleExternalWallpaper
      .Manual ⟨some ⟨0, false⟩, none⟩ startedOutcome).m_wnelAddon.m_wallpaperProcess = none ∧
    launchedWindow.m_isLaunchingWallpaper = true ∧
    launchedWindow.m_wallpaperManager.isWallpaperRunning (fun _ => true) = true ∧
    (launchedWindow.onStopWallpaperClicked (fun _ => true) (fun _ => false) ⟨none, none⟩
      ⟨none, none⟩).m_config.lastSelectedWallpaper = "123" ∧
    (launchedWindow.onStopWallpaperClicked (fun _ => true) (fun _ => false)
      ⟨some ⟨0, false⟩, none⟩ ⟨none, none⟩).m_config.lastSelectedWallpaper = "" := by
  decide

/-! ## The candidate assets directories -/

/-- Membership in the result of the duplicate-removal loop. -/
theorem mem_removeDuplicatesFrom (seen l : List String) (x : String) :
    x ∈ removeDuplicatesFrom seen l ↔ x ∈ l ∧ x ∉ seen := by
  induction l generalizing seen with
  | nil => simp [removeDuplicatesFrom]
  | cons y ys ih =>
    rw [removeDuplicatesFrom]
    by_cases hy : y ∈ seen
    · rw [if_pos hy, ih]
      constructor
      · rintro ⟨h1, h2⟩
        exact ⟨List.mem_cons_of_mem _ h1, h2⟩
      · rintro ⟨h1, h2⟩
        rcases List.mem_cons.mp h1 with h | h
        · exact absurd (h ▸ hy) h2
        · exact ⟨h, h2⟩
    · rw [if_neg hy, List.mem_cons, ih]
      constructor
      · rintro (h | ⟨h1, h2⟩)
        · exact ⟨h ▸ List.mem_cons_self _ _, h ▸ hy⟩
        · exact ⟨List.mem_cons_of_mem _ h1, fun h => h2 (List.mem_cons_of_mem _ h)⟩
      · rintro ⟨h1, h2⟩
        rcases List.mem_cons.mp h1 with h | h
        · exact Or.inl h
        · by_cases hxy : x = y
          · exact Or.inl hxy
          · refine Or.inr ⟨h, fun h3 => ?_⟩
            rcases List.mem_cons.mp h3 with h4 | h4
            · exact hxy h4
            · exact h2 h4

/-- The duplicate-removal loop returns a list without duplicates. -/
theorem nodup_removeDuplicatesFrom (seen l : List String) :
    (removeDuplicatesFrom seen l).Nodup := by
  induction l generalizing seen with
  | nil => simp [removeDuplicatesFrom]
  | cons y ys ih =>
    rw [removeDuplicatesFrom]
    by_cases hy : y ∈ seen
    · rw [if_pos hy]
      exact ih seen
    · rw [if_neg hy]
      refine List.nodup_cons.mpr ⟨fun h => ?_, ih _⟩
      exact ((mem_removeDuplicatesFrom _ _ _).mp h).2 (List.mem_cons_self _ _)

/-- The duplicate-removal loop over `front ++ back` first yields what it yields over
`front`; what follows comes from `back` and is not in `front`. -/
theorem removeDuplicatesFrom_append (seen front back : List String) :
    ∃ rest, removeDuplicatesFrom seen (front ++ back) =
        removeDuplicatesFrom seen front ++ rest ∧
      ∀ y ∈ rest, y ∈ back ∧ y ∉ front ∧ y ∉ seen := by
  induction front generalizing seen with
  | nil =>
    refine ⟨removeDuplicatesFrom seen back, by simp [removeDuplicatesFrom], fun y hy => ?_⟩
    have h := (mem_removeDuplicatesFrom _ _ _).mp hy
    exact ⟨h.1, List.not_mem_nil _, h.2⟩
  | cons x xs ih =>
    rw [List.cons_append, removeDuplicatesFrom, removeDuplicatesFrom]
    by_cases hx : x ∈ seen
    · rw [if_pos hx, if_pos hx]
      obtain ⟨rest, h1, h2⟩ := ih seen
      refine ⟨rest, h1, fun y hy => ?_⟩
      obtain ⟨a, b, c⟩ := h2 y hy
      refine ⟨a, fun h => ?_, c⟩
      rcases List.mem_cons.mp h with h3 | h3
      · exact c (h3 ▸ hx)
      · exact b h3
    · rw [if_neg hx, if_neg hx]
      obtain ⟨rest, h1, h2⟩ := ih (x :: seen)
      refine ⟨rest, by rw [h1, List.cons_append], fun y hy => ?_⟩
      obtain ⟨a, b, c⟩ := h2 y hy
      refine ⟨a, fun h => ?_, fun h => c (List.mem_cons_of_mem _ h)⟩
      rcases List.mem_cons.mp h with h3 | h3
      · exact c (h3 ▸ List.mem_cons_self _ _)
      · exact b h3

/-- The nested loops of `findPossibleAssetsPaths` are one loop over all candidates. -/
theorem ConfigManager.foldl_assetsCandidates (dirExists : String → Bool)
    (libraryPaths paths : List String) :
    libraryPaths.foldl (fun paths libraryPath =>
      (ConfigManager.assetsCandidates libraryPath).foldl
        (ConfigManager.addAssetsCandidate dirExists) paths) paths =
    (libraryPaths.flatMap ConfigManager.assetsCandidates).foldl
      (ConfigManager.addAssetsCandidate dirExists) paths := by
  induction libraryPaths generalizing paths with
  | nil => rfl
  | cons l ls ih =>
    rw [List.foldl_cons, ih, List.flatMap_cons, List.foldl_append]

/-- Shape of the list built by the loop: the prepended entries, all with a `shaders`
subdirectory, followed by the appended entries, which are the existing candidates; each
appended entry with a `shaders` subdirectory was also prepended. -/
theorem ConfigManager.addAssetsCandidate_foldl (dirExists : String → Bool)
    (candidates done front back : List String)
    (hfront : ∀ x ∈ front, dirExists (x ++ "/shaders") = true ∧ x ∈ back)
    (hshaders : ∀ x ∈ back, dirExists (x ++ "/shaders") = true → x ∈ front)
    (hback : ∀ x, x ∈ back ↔ x ∈ done ∧ dirExists x = true) :
    ∃ front2 back2,
      candidates.foldl (ConfigManager.addAssetsCandidate dirExists) (front ++ back) =
        front2 ++ back2 ∧
      (∀ x ∈ front2, dirExists (x ++ "/shaders") = true ∧ x ∈ back2) ∧
      (∀ x ∈ back2, dirExists (x ++ "/shaders") = true → x ∈ front2) ∧
      (∀ x, x ∈ back2 ↔ x ∈ done ++ candidates ∧ dirExists x = true) := by
  induction candidates generalizing done front back with
  | nil => exact ⟨front, back, rfl, hfront, hshaders, by simpa using hback⟩
  | cons c cs ih =>
    rw [List.foldl_cons]
    have hdone : done ++ c :: cs = (done ++ [c]) ++ cs := by simp
    rw [hdone]
    by_cases hc : dirExists c = true
    · by_cases hs : dirExists (c ++ "/shaders") = true
      · have hstep : ConfigManager.addAssetsCandidate dirExists (front ++ back) c =
            (c :: front) ++ (back ++ [c]) := by
          simp [ConfigManager.addAssetsCandidate, hc, hs]
        rw [hstep]
        refine ih (done ++ [c]) (c :: front) (back ++ [c]) ?_ ?_ ?_
        · intro x hx
          rcases List.mem_cons.mp hx with h | h
          · subst h
            exact ⟨hs, by simp⟩
          · exact ⟨(hfront x h).1, List.mem_append_left _ (hfront x h).2⟩
        · intro x hx hsx
          rcases List.mem_append.mp hx with h | h
          · exact List.mem_cons_of_mem _ (hshaders x h hsx)
          · rw [List.mem_singleton.mp h]
            exact List.mem_cons_self _ _
        · intro x
          simp only [List.mem_append, List.mem_singleton, hback]
          constructor
          · rintro (⟨h1, h2⟩ | h)
            · exact ⟨Or.inl h1, h2⟩
            · exact ⟨Or.inr h, h ▸ hc⟩
          · rintro ⟨h1 | h1, h2⟩
            · exact Or.inl ⟨h1, h2⟩
            · exact Or.inr h1
      · have hstep : ConfigManager.addAssetsCandidate dirExists (front ++ back) c =
            front ++ (back ++ [c]) := by
          simp [ConfigManager.addAssetsCandidate, hc, hs]
        rw [hstep]
        refine ih (done ++ [c]) front (back ++ [c]) ?_ ?_ ?_
        · intro x hx
          exact ⟨(hfront x hx).1, List.mem_append_left _ (hfront x hx).2⟩
        · intro x hx hsx
          rcases List.mem_append.mp hx with h | h
          · exact hshaders x h hsx
          · rw [List.mem_singleton.mp h] at hsx
            exact absurd hsx hs
        · intro x
          simp only [List.mem_append, List.mem_singleton, hback]
          constructor
          · rintro (⟨h1, h2⟩ | h)
            · exact ⟨Or.inl h1, h2⟩
            · exact ⟨Or.inr h, h ▸ hc⟩
          · rintro ⟨h1 | h1, h2⟩
            · exact Or.inl ⟨h1, h2⟩
            · exact Or.inr h1
    · have hstep : ConfigManager.addAssetsCandidate dirExists (front ++ back) c =
          front ++ back := by
        simp [ConfigManager.addAssetsCandidate, hc]
      rw [hstep]
      refine ih (done ++ [c]) front back hfront hshaders ?_
      intro x
      simp only [List.mem_append, List.mem_singleton, hback]
      constructor
      · rintro ⟨h1, h2⟩
        exact ⟨Or.inl h1, h2⟩
      · rintro ⟨h1 | h1, h2⟩
        · exact ⟨h1, h2⟩
        · exact absurd (h1 ▸ h2) hc

/-- The returned list is a block of candidates with a `shaders` subdirectory followed by
a block of candidates without one, and holds exactly the existing candidates. -/
theorem ConfigManager.findPossibleAssetsPaths_blocks (c : ConfigManager)
    (dirExists : String → Bool) :
    (∃ withShaders without,
      c.findPossibleAssetsPaths dirExists = withShaders ++ without ∧
      (∀ x ∈ withShaders, dirExists (x ++ "/shaders") = true) ∧
      (∀ x ∈ without, dirExists (x ++ "/shaders") = false)) ∧
    (∀ x, x ∈ c.findPossibleAssetsPaths dirExists ↔
      x ∈ c.steamLibraryPaths.flatMap ConfigManager.assetsCandidates ∧
        dirExists x = true) := by
  obtain ⟨front, back, hfold, hfront, hshaders, hback⟩ :=
    ConfigManager.addAssetsCandidate_foldl dirExists
      (c.steamLibraryPaths.flatMap ConfigManager.assetsCandidates) [] [] []
      (fun x hx => absurd hx (List.not_mem_nil _))
      (fun x hx => absurd hx (List.not_mem_nil _))
      (fun x => by simp)
  have hres : c.findPossibleAssetsPaths dirExists =
      removeDuplicatesFrom [] (front ++ back) := by
    simp only [ConfigManager.findPossibleAssetsPaths, removeDuplicates,
      ConfigManager.foldl_assetsCandidates]
    rw [← hfold]
    rfl
  obtain ⟨rest, hsplit, hrest⟩ := removeDuplicatesFrom_append [] front back
  refine ⟨⟨removeDuplicatesFrom [] front, rest, by rw [hres, hsplit], ?_, ?_⟩, ?_⟩
  · intro x hx
    exact (hfront x ((mem_removeDuplicatesFrom _ _ _).mp hx).1).1
  · intro x hx
    obtain ⟨h1, h2, _⟩ := hrest x hx
    cases hs : dirExists (x ++ "/shaders")
    · rfl
    · exact absurd (hshaders x h1 hs) h2
  · intro x
    rw [hres, mem_removeDuplicatesFrom]
    simp only [List.mem_append, List.not_mem_nil, not_false_eq_true, and_true]
    constructor
    · rintro (h | h)
      · simpa using (hback x).mp (hfront x h).2
      · simpa using (hback x).mp h
    · intro h
      exact Or.inr ((hback x).mpr (by simpa using h))

/-- C27: for every configuration (hence every list of Steam library paths) and every
filesystem, `findPossibleAssetsPaths` returns a list without duplicates whose elements
are exactly the existing candidate directories of the listed libraries, and in which
every candidate with a `shaders` subdirectory stands before every candidate without
one. -/
theorem ConfigManager.findPossibleAssetsPaths_deduplicated_shaders_first
    (c : ConfigManager) (dirExists : String → Bool) :
    (c.findPossibleAssetsPaths dirExists).Nodup ∧
    (∀ x, x ∈ c.findPossibleAssetsPaths dirExists ↔
      (∃ libraryPath ∈ c.steamLibraryPaths,
        x = QDir.filePath libraryPath "steamapps/common/wallpaper_engine" ∨
        x = QDir.filePath libraryPath "steamapps/common/wallpaper_engine/assets" ∨
        x = QDir.filePath libraryPath "steamapps/common/wallpaper_engine/bin/assets") ∧
      dirExists x = true) ∧
    (∀ (i j : Nat) (a b : String), (c.findPossibleAssetsPaths dirExists)[i]? = some a →
      (c.findPossibleAssetsPaths dirExists)[j]? = some b →
      dirExists (a ++ "/shaders") = true → dirExists (b ++ "/shaders") = false → i < j) := by
  obtain ⟨⟨withShaders, without, hsplit, hwith, hwithout⟩, hmem⟩ :=
    ConfigManager.findPossibleAssetsPaths_blocks c dirExists
  refine ⟨nodup_removeDuplicatesFrom _ _, ?_, ?_⟩
  · intro x
    rw [hmem, List.mem_flatMap]
    simp only [ConfigManager.assetsCandidates, List.mem_cons, List.mem_singleton,
      List.not_mem_nil, or_false]
  · intro i j a b hi hj ha hb
    rw [hsplit] at hi hj
    have hilt : i < withShaders.length := by
      by_contra hge
      rw [List.getElem?_append_right (Nat.le_of_not_lt hge)] at hi
      have := hwithout a (List.getElem?_mem hi)
      rw [ha] at this
      exact Bool.noConfusion this
    have hjge : withShaders.length ≤ j := by
      by_contra hlt
      rw [List.getElem?_append_left (Nat.lt_of_not_le hlt)] at hj
      have := hwith b (List.getElem?_mem hj)
      rw [hb] at this
      exact Bool.noConfusion this
    exact Nat.lt_of_lt_of_le hilt hjge

/-- Worked example of C27: a library listed twice, whose `assets` directory has a
`shaders` subdirectory, yields `assets` once at index 0 and the installation directory
once at index 1. -/
theorem ConfigManager.findPossibleAssetsPaths_deduplicated_shaders_first_witness :
    steamConfig.findPossibleAssetsPaths steamDirs =
      ["/steam/steamapps/common/wallpaper_engine/assets",
       "/steam/steamapps/common/wallpaper_engine"] ∧
    steamDirs ("/steam/steamapps/common/wallpaper_engine/assets" ++ "/shaders") = true ∧
    steamDirs ("/steam/steamapps/common/wallpaper_engine" ++ "/shaders") = false ∧
    (0 : Nat) < 1 :=
  ⟨by decide, by decide, by decide,
    (ConfigManager.findPossibleAssetsPaths_deduplicated_shaders_first steamConfig
      steamDirs).2.2 0 1 "/steam/steamapps/common/wallpaper_engine/assets"
      "/steam/steamapps/common/wallpaper_engine" (by decide) (by decide) (by decide)
      (by decide)⟩
